import Mathlib

/-!
# StreetMapRailway.cpp : the railway spline-graph builder

A shallow embedding of `Source/StreetMapImporting/StreetMapRailway.cpp`.

Engine objects (`ULandscapeSplinesComponent`, `ULandscapeSplineControlPoint`,
`ULandscapeSplineSegment`) live on a heap and are named by their address; an
address is a natural number and `NewObject` hands out the next unused one.
Engine arrays (`TArray`) are lists, the engine map (`TMap`) is an association
list.  Floating-point values are only carried around by the builder (it never
computes with them outside engine routines), so they are held as rationals and
every engine geometry routine is a field of `Host`.
-/

namespace StreetMap

/-! ## Engine value types -/

/-- Address of a `ULandscapeSplineControlPoint`. -/
abbrev CPId := Nat
/-- Address of a `ULandscapeSplineSegment`. -/
abbrev SegId := Nat
/-- Address of a `ULandscapeSplinesComponent`. -/
abbrev CompId := Nat
/-- Address of an `ALandscapeProxy`. -/
abbrev LandscapeId := Nat
/-- Address of a `UStaticMesh`. -/
abbrev MeshId := Nat
/-- Engine `float`, carried as payload only. -/
abbrev FReal := Rat
/-- Engine `FName`. -/
abbrev FName := String

/-- The 32-bit sentinel for "no shared node". -/
def INDEX_NONE : Int := -1

structure FVector2D where
  X : FReal
  Y : FReal
deriving DecidableEq, Repr

structure FVector where
  X : FReal
  Y : FReal
  Z : FReal
deriving DecidableEq, Repr

structure FRotator where
  Pitch : FReal
  Yaw : FReal
  Roll : FReal
deriving DecidableEq, Repr

/-- Engine `ESplineMeshAxis`. -/
inductive ESplineMeshAxis where
  | X
  | Y
  | Z
deriving DecidableEq, Repr

/-- Engine `FLandscapeSplineMeshEntry`; `Mesh` is a nullable pointer. -/
structure FLandscapeSplineMeshEntry where
  Mesh : Option MeshId
  bScaleToWidth : Bool
  ForwardAxis : ESplineMeshAxis
  UpAxis : ESplineMeshAxis
  Scale : FVector
deriving DecidableEq, Repr

/-- Engine `FLandscapeSplineSegmentConnection`: one end of a segment. -/
structure FLandscapeSplineSegmentConnection where
  ControlPoint : CPId
  SocketName : FName
  TangentLen : FReal
deriving DecidableEq, Repr

/-- Engine `FLandscapeSplineConnection`: a back-reference held by a control
point, naming a segment and which of its two ends (0 or 1) is attached. -/
structure FLandscapeSplineConnection where
  Segment : SegId
  End : Nat
deriving DecidableEq, Repr

/-- Engine `ULandscapeSplineSegment`; `Connections0`/`Connections1` are the two
cells of the array `Connections[2]`. -/
structure ULandscapeSplineSegment where
  Connections0 : FLandscapeSplineSegmentConnection
  Connections1 : FLandscapeSplineSegmentConnection
  LayerName : FName
  SplineMeshes : List FLandscapeSplineMeshEntry
  LDMaxDrawDistance : FReal
  bRaiseTerrain : Bool
  bLowerTerrain : Bool
  bPlaceSplineMeshesInStreamingLevels : Bool
  bEnableCollision : Bool
  bCastShadow : Bool
deriving DecidableEq, Repr

/-- Engine `ULandscapeSplineControlPoint`; `Outer` is the component the object
was created in (`GetOuterULandscapeSplinesComponent`). -/
structure ULandscapeSplineControlPoint where
  Outer : CompId
  Location : FVector
  Rotation : FRotator
  Width : FReal
  SideFalloff : FReal
  EndFalloff : FReal
  LayerName : FName
  Mesh : Option MeshId
  MeshScale : FVector
  bPlaceSplineMeshesInStreamingLevels : Bool
  bEnableCollision : Bool
  bCastShadow : Bool
  ConnectedSegments : List FLandscapeSplineConnection
deriving DecidableEq, Repr

/-- Engine `ULandscapeSplinesComponent`: the spline graph of one landscape. -/
structure ULandscapeSplinesComponent where
  RelativeScale3D : FVector
  ControlPoints : List CPId
  Segments : List SegId
  bAttached : Bool
  bRegistered : Bool
  bShowSplineEditorMesh : Bool
deriving DecidableEq, Repr

/-- Engine `ALandscapeProxy`, reduced to its spline-component slot. -/
structure ALandscapeProxy where
  SplineComponent : Option CompId
deriving DecidableEq, Repr

/-- What the ray cast hit: a landscape heightfield collision component (with
the result of its `GetLandscapeProxy`), some other component, or nothing. -/
inductive HitComponent where
  | heightfieldCollision (proxy : Option LandscapeId)
  | other
  | null
deriving DecidableEq, Repr

/-- Engine `FHitResult`, reduced to the fields the builder reads. -/
structure FHitResult where
  Component : HitComponent
  Location : FVector
deriving DecidableEq, Repr

/-- Calls into the engine that rebuild or drop cached spline geometry, recorded
in call order.  The record is never read back by the builder. -/
inductive HostCall where
  | ControlPointUpdateSplinePoints (cp : CPId)
  | SegmentUpdateSplinePoints (seg : SegId)
  | ControlPointDeleteSplinePoints (cp : CPId)
  | SegmentDeleteSplinePoints (seg : SegId)
  | ForceGarbageCollection
deriving DecidableEq, Repr

/-! ## Input types -/

/-- One railway way: `FStreetMapRailway`. -/
structure FStreetMapRailway where
  Points : List FVector2D
  NodeIndices : List Int
deriving DecidableEq, Repr

/-- The build configuration: `FStreetMapRailwayBuildSettings`. -/
structure FStreetMapRailwayBuildSettings where
  Landscape : LandscapeId
  Width : FReal
  ForwardAxis : ESplineMeshAxis
  UpAxis : ESplineMeshAxis
  RailwayLineMesh : Option MeshId
deriving DecidableEq, Repr

/-! ## The heap -/

/-- Everything the builder can reach: the landscapes, the three object heaps
with their allocation counters, and the record of cache calls. -/
structure World where
  Landscapes : LandscapeId → ALandscapeProxy
  Components : CompId → ULandscapeSplinesComponent
  CP : CPId → ULandscapeSplineControlPoint
  Seg : SegId → ULandscapeSplineSegment
  nextComponent : Nat
  nextControlPoint : Nat
  nextSegment : Nat
  calls : List HostCall

/-- Engine services the builder calls but does not implement. -/
structure Host where
  /-- Engine `UWorld::LineTraceMultiByObjectType` from a ray origin to a ray end. -/
  LineTraceMultiByObjectType : FVector → FVector → List FHitResult
  /-- The value of `FVector(1.0f) / Landscape->ActorToWorld().GetScale3D()`. -/
  SplineScaleXYZ : LandscapeId → FVector
  /-- The value of `(A - B).Rotation()`. -/
  DeltaRotation : FVector → FVector → FRotator
  /-- The value of `(A - B).Size()`. -/
  DeltaSize : FVector → FVector → FReal
  /-- Engine `ULandscapeSplineControlPoint::GetBestConnectionTo`. -/
  GetBestConnectionTo : ULandscapeSplineControlPoint → FVector → FName
  /-- Engine `ULandscapeSplineControlPoint::GetConnectionLocationAndRotation`. -/
  GetConnectionLocationAndRotation : ULandscapeSplineControlPoint → FName → FVector × FRotator
  /-- Engine `ULandscapeSplineSegment::AutoFlipTangents`: the two tangent lengths it leaves. -/
  AutoFlipTangents : World → SegId → FReal × FReal
  /-- Engine `ULandscapeSplineControlPoint::AutoCalcRotation`: the rotation it leaves. -/
  AutoCalcRotation : World → CPId → FRotator
  /-- Field values of a freshly constructed segment (its mesh array is empty). -/
  SegmentDefaults : ULandscapeSplineSegment
  /-- Field values of a freshly constructed control point (its connection array is empty). -/
  ControlPointDefaults : ULandscapeSplineControlPoint
  /-- Field values of a freshly constructed spline component (its arrays are empty). -/
  ComponentDefaults : ULandscapeSplinesComponent

/-! ## Engine containers -/

/-- Engine `TArray::RemoveAtSwap(Index)`: the last element takes the place of
the removed one and the array shrinks by one.  An index past the end is an
engine range-check failure; the array is then returned as it is. -/
def RemoveAtSwap {α : Type} (xs : List α) (Index : Nat) : List α :=
  match xs.getLast? with
  | none => xs
  | some last => if Index < xs.length then (xs.set Index last).dropLast else xs

/-- Engine `TArray::AddUnique`: append unless already present. -/
def AddUnique {α : Type} [DecidableEq α] (xs : List α) (x : α) : List α :=
  if x ∈ xs then xs else xs ++ [x]

/-- The loop of `TArray::RemoveAllSwap`: walk forward; on a match remove by
swap and stay at the same index, otherwise advance.  Returns the array that is
left and the removed elements in the order the predicate saw them. -/
def RemoveAllSwapLoop {α : Type} (Predicate : α → Bool) :
    Nat → Nat → List α → List α → List α × List α
  | 0, _, xs, removed => (xs, removed)
  | fuel + 1, ItemIndex, xs, removed =>
    match xs[ItemIndex]? with
    | none => (xs, removed)
    | some x =>
      if Predicate x then
        RemoveAllSwapLoop Predicate fuel ItemIndex (RemoveAtSwap xs ItemIndex) (removed ++ [x])
      else
        RemoveAllSwapLoop Predicate fuel (ItemIndex + 1) xs removed

/-- Engine `TArray::RemoveAllSwap(Predicate)`; every iteration either shrinks the array
or advances the index, so `Num()` iterations are enough. -/
def RemoveAllSwap {α : Type} (Predicate : α → Bool) (xs : List α) : List α × List α :=
  RemoveAllSwapLoop Predicate xs.length 0 xs []

/-- Engine `TMap::Find`. -/
def TMapFind (m : List (Int × CPId)) (Key : Int) : Option CPId :=
  (m.find? (fun e => e.1 == Key)).map Prod.snd

/-- Engine `TMap::Add`: a key already present is replaced. -/
def TMapAdd (m : List (Int × CPId)) (Key : Int) (Value : CPId) : List (Int × CPId) :=
  (m.filter (fun e => !(e.1 == Key))) ++ [(Key, Value)]

/-! ## World updates -/

/-- Overwrite one control point object. -/
def World.setCP (w : World) (p : CPId) (v : ULandscapeSplineControlPoint) : World :=
  { w with CP := Function.update w.CP p v }

/-- Overwrite one segment object. -/
def World.setSeg (w : World) (s : SegId) (v : ULandscapeSplineSegment) : World :=
  { w with Seg := Function.update w.Seg s v }

/-- Overwrite one spline component object. -/
def World.setComponent (w : World) (c : CompId) (v : ULandscapeSplinesComponent) : World :=
  { w with Components := Function.update w.Components c v }

/-- Record one engine cache call. -/
def World.call (w : World) (c : HostCall) : World :=
  { w with calls := w.calls ++ [c] }

/-! ## StreetMapRailwayBuilder -/

namespace StreetMapRailwayBuilder

/-- Source function `ConditionallyCreateSplineComponent` (lines 22-35).
`Landscape->Modify()` only feeds the undo record and is left out. -/
def ConditionallyCreateSplineComponent (h : Host) (w : World) (Landscape : LandscapeId)
    (Scale3D : FVector) : World × CompId :=
  match (w.Landscapes Landscape).SplineComponent with
  | none =>
    let New := w.nextComponent
    let comp : ULandscapeSplinesComponent :=
      { h.ComponentDefaults with
        ControlPoints := [], Segments := [],
        RelativeScale3D := Scale3D, bAttached := true, bShowSplineEditorMesh := true }
    ({ w with
        Landscapes := Function.update w.Landscapes Landscape { SplineComponent := some New },
        Components := Function.update w.Components New comp,
        nextComponent := New + 1 }, New)
  | some c =>
    (w.setComponent c { w.Components c with bShowSplineEditorMesh := true }, c)

/-- Source function `AddControlPoint` (lines 37-84). -/
def AddControlPoint (h : Host) (w : World) (SplinesComponent : CompId) (LocalLocation : FVector)
    (BuildSettings : FStreetMapRailwayBuildSettings) (PreviousPoint : Option CPId) :
    World × CPId :=
  let NewControlPoint := w.nextControlPoint
  -- NewObject, ControlPoints.Add
  let comp := w.Components SplinesComponent
  let w := { w with nextControlPoint := NewControlPoint + 1 }
  let w := w.setComponent SplinesComponent
    { comp with ControlPoints := comp.ControlPoints ++ [NewControlPoint] }
  let cp : ULandscapeSplineControlPoint :=
    { h.ControlPointDefaults with
      Outer := SplinesComponent, ConnectedSegments := [],
      Location := LocalLocation, Width := BuildSettings.Width,
      SideFalloff := 1.5, EndFalloff := 3.0, LayerName := "Soil" }
  let w := w.setCP NewControlPoint cp
  let w :=
    match PreviousPoint with
    | some p =>
      let Prev := w.CP p
      w.setCP NewControlPoint
        { cp with
          Rotation := h.DeltaRotation cp.Location Prev.Location,
          Width := Prev.Width,
          SideFalloff := Prev.SideFalloff,
          EndFalloff := Prev.EndFalloff,
          Mesh := Prev.Mesh,
          MeshScale := Prev.MeshScale,
          bPlaceSplineMeshesInStreamingLevels := Prev.bPlaceSplineMeshesInStreamingLevels,
          bEnableCollision := Prev.bEnableCollision,
          bCastShadow := Prev.bCastShadow }
    | none => w.call (HostCall.ControlPointUpdateSplinePoints NewControlPoint)
  -- RegisterComponent when not yet registered (MarkRenderStateDirty otherwise)
  let w := w.setComponent SplinesComponent { w.Components SplinesComponent with bRegistered := true }
  (w, NewControlPoint)

/-- The segment `AddSegment` copies attributes from (source lines 114-126):
the first connection of `Start`, else the first connection of `End`. -/
def CopyFromSegment (Start End : ULandscapeSplineControlPoint) : Option SegId :=
  match Start.ConnectedSegments with
  | c :: _ => some c.Segment
  | [] =>
    match End.ConnectedSegments with
    | c :: _ => some c.Segment
    | [] => none

/-- Source function `AddSegment` (lines 86-175). -/
def AddSegment (h : Host) (w : World) (Start End : CPId)
    (bAutoRotateStart bAutoRotateEnd : Bool) : World × SegId :=
  let SplinesComponent := (w.CP Start).Outer
  -- NewObject, Segments.Add
  let NewSegment := w.nextSegment
  let comp := w.Components SplinesComponent
  let w := { w with nextSegment := NewSegment + 1 }
  let w := w.setComponent SplinesComponent { comp with Segments := comp.Segments ++ [NewSegment] }
  let seg : ULandscapeSplineSegment := { h.SegmentDefaults with SplineMeshes := [] }
  -- connections, sockets, tangent lengths
  let Socket0 := h.GetBestConnectionTo (w.CP Start) (w.CP End).Location
  let Socket1 := h.GetBestConnectionTo (w.CP End) (w.CP Start).Location
  let StartLocation := (h.GetConnectionLocationAndRotation (w.CP Start) Socket0).1
  let EndLocation := (h.GetConnectionLocationAndRotation (w.CP End) Socket1).1
  let Len := h.DeltaSize EndLocation StartLocation
  let seg :=
    { seg with
      Connections0 := { ControlPoint := Start, SocketName := Socket0, TangentLen := Len },
      Connections1 := { ControlPoint := End, SocketName := Socket1, TangentLen := Len } }
  let w := w.setSeg NewSegment seg
  let Flipped := h.AutoFlipTangents w NewSegment
  let seg :=
    { seg with
      Connections0 := { seg.Connections0 with TangentLen := Flipped.1 },
      Connections1 := { seg.Connections1 with TangentLen := Flipped.2 } }
  let w := w.setSeg NewSegment seg
  -- set up other segment options
  let seg :=
    match CopyFromSegment (w.CP Start) (w.CP End) with
    | some c =>
      let From := w.Seg c
      { seg with
        LayerName := From.LayerName,
        SplineMeshes := From.SplineMeshes,
        LDMaxDrawDistance := From.LDMaxDrawDistance,
        bRaiseTerrain := From.bRaiseTerrain,
        bLowerTerrain := From.bLowerTerrain,
        bPlaceSplineMeshesInStreamingLevels := From.bPlaceSplineMeshesInStreamingLevels,
        bEnableCollision := From.bEnableCollision,
        bCastShadow := From.bCastShadow }
    | none => seg
  let w := w.setSeg NewSegment seg
  let w := w.setCP Start
    { w.CP Start with
      ConnectedSegments := (w.CP Start).ConnectedSegments ++ [{ Segment := NewSegment, End := 0 }] }
  let w := w.setCP End
    { w.CP End with
      ConnectedSegments := (w.CP End).ConnectedSegments ++ [{ Segment := NewSegment, End := 1 }] }
  let bUpdatedStart := bAutoRotateStart
  let bUpdatedEnd := bAutoRotateEnd
  let w :=
    if bAutoRotateStart then
      (w.setCP Start { w.CP Start with Rotation := h.AutoCalcRotation w Start }).call
        (HostCall.ControlPointUpdateSplinePoints Start)
    else w
  let w :=
    if bAutoRotateEnd then
      (w.setCP End { w.CP End with Rotation := h.AutoCalcRotation w End }).call
        (HostCall.ControlPointUpdateSplinePoints End)
    else w
  let w :=
    if !bUpdatedStart && (w.CP Start).Mesh.isSome then
      w.call (HostCall.ControlPointUpdateSplinePoints Start)
    else w
  let w :=
    if !bUpdatedEnd && (w.CP End).Mesh.isSome then
      w.call (HostCall.ControlPointUpdateSplinePoints End)
    else w
  let w :=
    if !(bUpdatedStart || bUpdatedEnd) then
      w.call (HostCall.SegmentUpdateSplinePoints NewSegment)
    else w
  (w, NewSegment)

/-- The hit-list loop of `GetLandscapeElevation` (source lines 189-204):
`FinalHitLocation` when `bHitLandscape` was set. -/
def FirstLandscapeHit : List FHitResult → Option FVector
  | [] => none
  | HitResult :: rest =>
    match HitResult.Component with
    | HitComponent.heightfieldCollision (some _) => some HitResult.Location
    | _ => FirstLandscapeHit rest

/-- Source function `GetLandscapeElevation` (lines 177-212). -/
def GetLandscapeElevation (h : Host) (_Landscape : LandscapeId) (Location : FVector2D) : FReal :=
  let RayOrigin : FVector := { X := Location.X, Y := Location.Y, Z := 1000000 }
  let RayEndPoint : FVector := { X := Location.X, Y := Location.Y, Z := -1000000 }
  let Results := h.LineTraceMultiByObjectType RayOrigin RayEndPoint
  match FirstLandscapeHit Results with
  | some FinalHitLocation => FinalHitLocation.Z
  | none => 0

/-- The test of source lines 222-223: the mesh list has exactly one entry and
that entry's mesh is the configured railway line mesh. -/
def IsRailwaySegment (BuildSettings : FStreetMapRailwayBuildSettings)
    (Segment : ULandscapeSplineSegment) : Bool :=
  match Segment.SplineMeshes with
  | [Entry] => Entry.Mesh == BuildSettings.RailwayLineMesh
  | _ => false

/-- State of the segment loop of `CleanOldRailways`. -/
structure CleanState where
  Segments : List SegId
  SplineControlPointsToDelete : List CPId
  calls : List HostCall

/-- The segment loop of `CleanOldRailways` (source lines 219-232); the first
argument counts down and `SegmentIndex` is its predecessor. -/
def CleanLoop (w : World) (BuildSettings : FStreetMapRailwayBuildSettings) :
    Nat → CleanState → CleanState
  | 0, st => st
  | SegmentIndex + 1, st =>
    match st.Segments[SegmentIndex]? with
    | none => CleanLoop w BuildSettings SegmentIndex st
    | some Segment =>
      if IsRailwaySegment BuildSettings (w.Seg Segment) then
        CleanLoop w BuildSettings SegmentIndex
          { Segments := RemoveAtSwap st.Segments SegmentIndex,
            SplineControlPointsToDelete :=
              AddUnique
                (AddUnique st.SplineControlPointsToDelete (w.Seg Segment).Connections0.ControlPoint)
                (w.Seg Segment).Connections1.ControlPoint,
            calls := st.calls ++ [HostCall.SegmentDeleteSplinePoints Segment] }
      else
        CleanLoop w BuildSettings SegmentIndex st

/-- Source function `CleanOldRailways` (lines 214-247).  Garbage collection
reclaims only objects nothing refers to, so the heaps keep every object. -/
def CleanOldRailways (w : World) (SplinesComponent : CompId)
    (BuildSettings : FStreetMapRailwayBuildSettings) : World :=
  let comp := w.Components SplinesComponent
  let NumSegments := comp.Segments.length
  let st := CleanLoop w BuildSettings NumSegments
    { Segments := comp.Segments, SplineControlPointsToDelete := [], calls := w.calls }
  let Removed := RemoveAllSwap (fun p => decide (p ∈ st.SplineControlPointsToDelete))
    comp.ControlPoints
  let w := w.setComponent SplinesComponent
    { comp with Segments := st.Segments, ControlPoints := Removed.1 }
  { w with
    calls := st.calls ++ Removed.2.map HostCall.ControlPointDeleteSplinePoints
      ++ [HostCall.ForceGarbageCollection] }

/-- What one iteration of the point loop of `Build` did.  Kept for stating
properties of the run; the builder never reads it. -/
structure BuildEvent where
  /-- Position of the way in the railway list. -/
  Way : Nat
  PointIndex : Nat
  NodeIndex : Int
  PreviousPoint : Option CPId
  CurrentPoint : CPId
  /-- Whether `AddControlPoint` ran in this iteration. -/
  bCreated : Bool
  NewSegment : Option SegId
  /-- The mesh list of `NewSegment` as `AddSegment` returned it. -/
  Inherited : List FLandscapeSplineMeshEntry
deriving DecidableEq, Repr

/-- The variables of `Build` that live across iterations. -/
structure BuildState where
  world : World
  NodeIndexToControlPointMap : List (Int × CPId)
  events : List BuildEvent

/-- The railway line mesh entry assembled at source lines 302-307. -/
def MeshEntry (BuildSettings : FStreetMapRailwayBuildSettings) : FLandscapeSplineMeshEntry :=
  { Mesh := BuildSettings.RailwayLineMesh,
    bScaleToWidth := false,
    ForwardAxis := BuildSettings.ForwardAxis,
    UpAxis := BuildSettings.UpAxis,
    Scale := { X := 1, Y := 1, Z := 1 } }

/-- Source lines 300-321: the extra settings given to the segment created at
point index 1. -/
def SetupFirstSegment (w : World) (BuildSettings : FStreetMapRailwayBuildSettings)
    (NewSegment : SegId) : World :=
  let seg := w.Seg NewSegment
  let seg :=
    { seg with
      LayerName := "soil",
      LDMaxDrawDistance := 100000,
      bRaiseTerrain := true,
      bLowerTerrain := true,
      bPlaceSplineMeshesInStreamingLevels := true,
      bEnableCollision := false,
      bCastShadow := true }
  let seg :=
    if seg.SplineMeshes.length = 0 then
      { seg with SplineMeshes := seg.SplineMeshes ++ [MeshEntry BuildSettings] }
    else seg
  w.setSeg NewSegment seg

/-- The body of the point loop of `Build` (source lines 266-323); returns the
new state and `CurrentPoint`. -/
def PointBody (h : Host) (BuildSettings : FStreetMapRailwayBuildSettings)
    (SplinesComponent : CompId) (Way PointIndex : Nat) (PointLocation : FVector2D)
    (NodeIndex : Int) (PreviousPoint : Option CPId) (st : BuildState) : BuildState × CPId :=
  -- Try to find existing control point first
  let Found : Option CPId :=
    if NodeIndex ≠ INDEX_NONE then TMapFind st.NodeIndexToControlPointMap NodeIndex else none
  -- create a new control point
  let r : World × List (Int × CPId) × CPId × Bool :=
    match Found with
    | some p => (st.world, st.NodeIndexToControlPointMap, p, false)
    | none =>
      let WorldElevation := GetLandscapeElevation h BuildSettings.Landscape PointLocation
      let a := AddControlPoint h st.world SplinesComponent
        { X := PointLocation.X, Y := PointLocation.Y, Z := WorldElevation }
        BuildSettings PreviousPoint
      (a.1,
        if NodeIndex ≠ INDEX_NONE then TMapAdd st.NodeIndexToControlPointMap NodeIndex a.2
        else st.NodeIndexToControlPointMap,
        a.2, true)
  let CurrentPoint := r.2.2.1
  match PreviousPoint with
  | none =>
    ({ world := r.1, NodeIndexToControlPointMap := r.2.1,
       events := st.events ++
        [{ Way := Way, PointIndex := PointIndex, NodeIndex := NodeIndex,
           PreviousPoint := none, CurrentPoint := CurrentPoint, bCreated := r.2.2.2,
           NewSegment := none, Inherited := [] }] }, CurrentPoint)
  | some Prev =>
    let s := AddSegment h r.1 Prev CurrentPoint true true
    let w := if PointIndex = 1 then SetupFirstSegment s.1 BuildSettings s.2 else s.1
    ({ world := w, NodeIndexToControlPointMap := r.2.1,
       events := st.events ++
        [{ Way := Way, PointIndex := PointIndex, NodeIndex := NodeIndex,
           PreviousPoint := some Prev, CurrentPoint := CurrentPoint, bCreated := r.2.2.2,
           NewSegment := some s.2, Inherited := (s.1.Seg s.2).SplineMeshes }] }, CurrentPoint)

/-- The point loop of `Build` (source lines 264-324).  The first argument is
the number of iterations left, `NumPoints - PointIndex`.  Reading `Points` or
`NodeIndices` past its end is an engine range-check failure: `none`. -/
def PointLoop (h : Host) (BuildSettings : FStreetMapRailwayBuildSettings)
    (SplinesComponent : CompId) (Way : Nat) (Railway : FStreetMapRailway) :
    Nat → Nat → Option CPId → BuildState → Option BuildState
  | 0, _, _, st => some st
  | n + 1, PointIndex, PreviousPoint, st =>
    match Railway.Points[PointIndex]?, Railway.NodeIndices[PointIndex]? with
    | some PointLocation, some NodeIndex =>
      let r := PointBody h BuildSettings SplinesComponent Way PointIndex PointLocation NodeIndex
        PreviousPoint st
      PointLoop h BuildSettings SplinesComponent Way Railway n (PointIndex + 1) (some r.2) r.1
    | _, _ => none

/-- One iteration of the railway loop of `Build` (source lines 262-324). -/
def RailwayBody (h : Host) (BuildSettings : FStreetMapRailwayBuildSettings)
    (SplinesComponent : CompId) (Way : Nat) (Railway : FStreetMapRailway) (st : BuildState) :
    Option BuildState :=
  let NumPoints := Railway.Points.length
  PointLoop h BuildSettings SplinesComponent Way Railway NumPoints 0 none st

/-- The railway loop of `Build` (source lines 260-325); the first argument is
the position of the head of the list in `Railways`. -/
def RailwayLoop (h : Host) (BuildSettings : FStreetMapRailwayBuildSettings)
    (SplinesComponent : CompId) : Nat → List FStreetMapRailway → BuildState → Option BuildState
  | _, [], st => some st
  | Way, Railway :: rest, st =>
    match RailwayBody h BuildSettings SplinesComponent Way Railway st with
    | none => none
    | some st => RailwayLoop h BuildSettings SplinesComponent (Way + 1) rest st

/-- The state `Build` enters its railway loop with (source lines 251-258):
the spline component is there and old railways are cleaned. -/
def BuildStart (h : Host) (w : World) (BuildSettings : FStreetMapRailwayBuildSettings) :
    BuildState × CompId :=
  let SplineScaleXYZ := h.SplineScaleXYZ BuildSettings.Landscape
  let r := ConditionallyCreateSplineComponent h w BuildSettings.Landscape SplineScaleXYZ
  let w := CleanOldRailways r.1 r.2 BuildSettings
  ({ world := w, NodeIndexToControlPointMap := [], events := [] }, r.2)

/-- Source function `Build` (lines 249-326) with its final loop variables. -/
def BuildRun (h : Host) (w : World) (Railways : List FStreetMapRailway)
    (BuildSettings : FStreetMapRailwayBuildSettings) : Option BuildState :=
  let s := BuildStart h w BuildSettings
  RailwayLoop h BuildSettings s.2 0 Railways s.1

/-- Source function `Build` (lines 249-326): the world it leaves, or `none` when an
array index was out of range. -/
def Build (h : Host) (w : World) (Railways : List FStreetMapRailway)
    (BuildSettings : FStreetMapRailwayBuildSettings) : Option World :=
  (BuildRun h w Railways BuildSettings).map BuildState.world

end StreetMapRailwayBuilder

/-! ## Notions used in the statements -/

/-- The list `RemoveAtSwap` leaves after the removed cell: the last element
moved to the front of the remainder. -/
def SwapTail {α : Type} (ys : List α) : List α :=
  match ys.getLast? with
  | none => []
  | some l => l :: ys.dropLast

/-- Control point `p` is an end of segment `s`. -/
def IsEndpoint (w : World) (s : SegId) (p : CPId) : Prop :=
  (w.Seg s).Connections0.ControlPoint = p ∨ (w.Seg s).Connections1.ControlPoint = p

instance (w : World) (s : SegId) (p : CPId) : Decidable (IsEndpoint w s p) := by
  unfold IsEndpoint; infer_instance

/-- Control point `p` is an end of a segment of component `c` that
`CleanOldRailways` removes. -/
def IsRemovedEndpoint (w : World) (c : CompId) (bs : FStreetMapRailwayBuildSettings)
    (p : CPId) : Prop :=
  ∃ s ∈ (w.Components c).Segments,
    StreetMapRailwayBuilder.IsRailwaySegment bs (w.Seg s) = true ∧ IsEndpoint w s p

instance (w : World) (c : CompId) (bs : FStreetMapRailwayBuildSettings) (p : CPId) :
    Decidable (IsRemovedEndpoint w c bs p) := by
  unfold IsRemovedEndpoint; infer_instance

/-- The part of `AddSegment` up to source line 141: the new segment is in the
array, wired to both control points, and has inherited its attributes. -/
def AddSegmentLink (h : Host) (w : World) (Start End : CPId) : World :=
  let SplinesComponent := (w.CP Start).Outer
  let NewSegment := w.nextSegment
  let comp := w.Components SplinesComponent
  let w := { w with nextSegment := NewSegment + 1 }
  let w := w.setComponent SplinesComponent { comp with Segments := comp.Segments ++ [NewSegment] }
  let seg : ULandscapeSplineSegment := { h.SegmentDefaults with SplineMeshes := [] }
  let Socket0 := h.GetBestConnectionTo (w.CP Start) (w.CP End).Location
  let Socket1 := h.GetBestConnectionTo (w.CP End) (w.CP Start).Location
  let StartLocation := (h.GetConnectionLocationAndRotation (w.CP Start) Socket0).1
  let EndLocation := (h.GetConnectionLocationAndRotation (w.CP End) Socket1).1
  let Len := h.DeltaSize EndLocation StartLocation
  let seg :=
    { seg with
      Connections0 := { ControlPoint := Start, SocketName := Socket0, TangentLen := Len },
      Connections1 := { ControlPoint := End, SocketName := Socket1, TangentLen := Len } }
  let w := w.setSeg NewSegment seg
  let Flipped := h.AutoFlipTangents w NewSegment
  let seg :=
    { seg with
      Connections0 := { seg.Connections0 with TangentLen := Flipped.1 },
      Connections1 := { seg.Connections1 with TangentLen := Flipped.2 } }
  let w := w.setSeg NewSegment seg
  let seg :=
    match StreetMapRailwayBuilder.CopyFromSegment (w.CP Start) (w.CP End) with
    | some c =>
      let From := w.Seg c
      { seg with
        LayerName := From.LayerName,
        SplineMeshes := From.SplineMeshes,
        LDMaxDrawDistance := From.LDMaxDrawDistance,
        bRaiseTerrain := From.bRaiseTerrain,
        bLowerTerrain := From.bLowerTerrain,
        bPlaceSplineMeshesInStreamingLevels := From.bPlaceSplineMeshesInStreamingLevels,
        bEnableCollision := From.bEnableCollision,
        bCastShadow := From.bCastShadow }
    | none => seg
  let w := w.setSeg NewSegment seg
  let w := w.setCP Start
    { w.CP Start with
      ConnectedSegments := (w.CP Start).ConnectedSegments ++ [{ Segment := NewSegment, End := 0 }] }
  w.setCP End
    { w.CP End with
      ConnectedSegments := (w.CP End).ConnectedSegments ++ [{ Segment := NewSegment, End := 1 }] }

/-- The part of `AddSegment` from source line 143 on: rotations and cached
spline points of the two ends and of the new segment. -/
def AddSegmentRecompute (h : Host) (w : World) (Start End : CPId) (NewSegment : SegId)
    (bAutoRotateStart bAutoRotateEnd : Bool) : World :=
  let bUpdatedStart := bAutoRotateStart
  let bUpdatedEnd := bAutoRotateEnd
  let w :=
    if bAutoRotateStart then
      (w.setCP Start { w.CP Start with Rotation := h.AutoCalcRotation w Start }).call
        (HostCall.ControlPointUpdateSplinePoints Start)
    else w
  let w :=
    if bAutoRotateEnd then
      (w.setCP End { w.CP End with Rotation := h.AutoCalcRotation w End }).call
        (HostCall.ControlPointUpdateSplinePoints End)
    else w
  let w :=
    if !bUpdatedStart && (w.CP Start).Mesh.isSome then
      w.call (HostCall.ControlPointUpdateSplinePoints Start)
    else w
  let w :=
    if !bUpdatedEnd && (w.CP End).Mesh.isSome then
      w.call (HostCall.ControlPointUpdateSplinePoints End)
    else w
  if !(bUpdatedStart || bUpdatedEnd) then
    w.call (HostCall.SegmentUpdateSplinePoints NewSegment)
  else w

/-- A control point with its rotation blanked: what `AddSegmentRecompute` leaves alone. -/
def ULandscapeSplineControlPoint.dropRotation (p : ULandscapeSplineControlPoint) :
    ULandscapeSplineControlPoint :=
  { p with Rotation := { Pitch := 0, Yaw := 0, Roll := 0 } }

/-- World `w'` differs from `w` at most in control-point rotations and in the
record of cache calls. -/
def SameButRotation (w w' : World) : Prop :=
  w'.Seg = w.Seg ∧ w'.Components = w.Components ∧ w'.Landscapes = w.Landscapes ∧
    w'.nextSegment = w.nextSegment ∧ w'.nextControlPoint = w.nextControlPoint ∧
    w'.nextComponent = w.nextComponent ∧
    ∀ p, (w'.CP p).dropRotation = (w.CP p).dropRotation

/-- The first half of `PointBody` (source lines 269-294): the world, the map,
`CurrentPoint`, and whether `AddControlPoint` ran. -/
def CurrentPointPhase (h : Host) (BuildSettings : FStreetMapRailwayBuildSettings)
    (SplinesComponent : CompId) (PointLocation : FVector2D) (NodeIndex : Int)
    (PreviousPoint : Option CPId) (st : StreetMapRailwayBuilder.BuildState) :
    World × List (Int × CPId) × CPId × Bool :=
  match (if NodeIndex ≠ INDEX_NONE then TMapFind st.NodeIndexToControlPointMap NodeIndex
      else none) with
  | some p => (st.world, st.NodeIndexToControlPointMap, p, false)
  | none =>
    let a := StreetMapRailwayBuilder.AddControlPoint h st.world SplinesComponent
      { X := PointLocation.X, Y := PointLocation.Y,
        Z := StreetMapRailwayBuilder.GetLandscapeElevation h BuildSettings.Landscape PointLocation }
      BuildSettings PreviousPoint
    (a.1,
      if NodeIndex ≠ INDEX_NONE then TMapAdd st.NodeIndexToControlPointMap NodeIndex a.2
      else st.NodeIndexToControlPointMap,
      a.2, true)

/-- The second half of `PointBody` (source lines 296-322): the world after the
segment to `CurrentPoint`, if any, was added. -/
def SegmentPhase (h : Host) (BuildSettings : FStreetMapRailwayBuildSettings) (PointIndex : Nat)
    (PreviousPoint : Option CPId) (CurrentPoint : CPId) (w : World) : World :=
  match PreviousPoint with
  | none => w
  | some Prev =>
    let s := StreetMapRailwayBuilder.AddSegment h w Prev CurrentPoint true true
    if PointIndex = 1 then StreetMapRailwayBuilder.SetupFirstSegment s.1 BuildSettings s.2
    else s.1

/-- The mesh list of the new segment as `AddSegment` returned it, empty when no
segment was added. -/
def StepInherited (h : Host) (w : World) (PreviousPoint : Option CPId) (CurrentPoint : CPId) :
    List FLandscapeSplineMeshEntry :=
  match PreviousPoint with
  | none => []
  | some Prev =>
    ((StreetMapRailwayBuilder.AddSegment h w Prev CurrentPoint true true).1.Seg
      w.nextSegment).SplineMeshes

/-- The event `PointBody` records. -/
def StepEvent (h : Host) (BuildSettings : FStreetMapRailwayBuildSettings)
    (SplinesComponent : CompId) (Way PointIndex : Nat) (PointLocation : FVector2D)
    (NodeIndex : Int) (PreviousPoint : Option CPId) (st : StreetMapRailwayBuilder.BuildState) :
    StreetMapRailwayBuilder.BuildEvent :=
  let r := CurrentPointPhase h BuildSettings SplinesComponent PointLocation NodeIndex
    PreviousPoint st
  { Way := Way, PointIndex := PointIndex, NodeIndex := NodeIndex,
    PreviousPoint := PreviousPoint, CurrentPoint := r.2.2.1, bCreated := r.2.2.2,
    NewSegment := PreviousPoint.map (fun _ => r.1.nextSegment),
    Inherited := StepInherited h r.1 PreviousPoint r.2.2.1 }

/-- Address `x` was handed out between world `w0` and world `w` by the counter
read with `next`. -/
def AllocatedSince (next : World → Nat) (w0 w : World) (x : Nat) : Prop :=
  next w0 ≤ x ∧ x < next w

/-- The back-references control point `p` should hold for segment `s`: one for
each end of `s` attached to `p`, end 0 first. -/
def BackReferences (w : World) (s : SegId) (p : CPId) : List FLandscapeSplineConnection :=
  (if (w.Seg s).Connections0.ControlPoint = p then [{ Segment := s, End := 0 }] else []) ++
    (if (w.Seg s).Connections1.ControlPoint = p then [{ Segment := s, End := 1 }] else [])

/-- What holds of the world throughout the railway loop of `Build`, relative
to the world `w0` the loop started in and the component `comp` it fills. -/
structure GraphInv (bs : FStreetMapRailwayBuildSettings) (comp : CompId) (w0 w : World) :
    Prop where
  nextCP_le : w0.nextControlPoint ≤ w.nextControlPoint
  nextSeg_le : w0.nextSegment ≤ w.nextSegment
  ControlPoints_eq : (w.Components comp).ControlPoints =
    (w0.Components comp).ControlPoints ++
      List.range' w0.nextControlPoint (w.nextControlPoint - w0.nextControlPoint)
  Segments_eq : (w.Components comp).Segments =
    (w0.Components comp).Segments ++
      List.range' w0.nextSegment (w.nextSegment - w0.nextSegment)
  Outer_eq : ∀ p, AllocatedSince World.nextControlPoint w0 w p → (w.CP p).Outer = comp
  Connected_new : ∀ p, AllocatedSince World.nextControlPoint w0 w p →
    ∀ c ∈ (w.CP p).ConnectedSegments, AllocatedSince World.nextSegment w0 w c.Segment
  Connected_exact : ∀ p, AllocatedSince World.nextControlPoint w0 w p →
    (w.CP p).ConnectedSegments =
      (List.range' w0.nextSegment (w.nextSegment - w0.nextSegment)).flatMap
        (fun s => BackReferences w s p)
  Seg_ends : ∀ s, AllocatedSince World.nextSegment w0 w s →
    AllocatedSince World.nextControlPoint w0 w (w.Seg s).Connections0.ControlPoint ∧
      AllocatedSince World.nextControlPoint w0 w (w.Seg s).Connections1.ControlPoint
  Seg_tagged : ∀ s, AllocatedSince World.nextSegment w0 w s →
    StreetMapRailwayBuilder.IsRailwaySegment bs (w.Seg s) = true
  Seg_frame : ∀ s, ¬ AllocatedSince World.nextSegment w0 w s → w.Seg s = w0.Seg s
  CP_frame : ∀ p, p < w0.nextControlPoint → w.CP p = w0.CP p
  Components_frame : ∀ c, c ≠ comp → w.Components c = w0.Components c
  Landscapes_eq : w.Landscapes = w0.Landscapes
  nextComponent_eq : w.nextComponent = w0.nextComponent

/-- How consecutive events of one way are linked: the later one, unless it
starts a way, takes the earlier one's `CurrentPoint` as its `PreviousPoint`. -/
def EventLink (e1 e2 : StreetMapRailwayBuilder.BuildEvent) : Prop :=
  e2.PointIndex ≠ 0 →
    e2.PreviousPoint = some e1.CurrentPoint ∧ e2.Way = e1.Way ∧
      e2.PointIndex = e1.PointIndex + 1

/-- What holds of the loop variables of `Build` between iterations, relative
to the world `w0` the railway loop started in. -/
structure RunInv (bs : FStreetMapRailwayBuildSettings) (comp : CompId) (w0 : World)
    (st : StreetMapRailwayBuilder.BuildState) : Prop where
  graph : GraphInv bs comp w0 st.world
  map_key : ∀ e ∈ st.NodeIndexToControlPointMap, e.1 ≠ INDEX_NONE
  ev_find : ∀ e ∈ st.events, e.NodeIndex ≠ INDEX_NONE →
    TMapFind st.NodeIndexToControlPointMap e.NodeIndex = some e.CurrentPoint
  ev_sentinel : ∀ e ∈ st.events, e.NodeIndex = INDEX_NONE → e.bCreated = true
  ev_cur : ∀ e ∈ st.events, AllocatedSince World.nextControlPoint w0 st.world e.CurrentPoint
  ev_seg : ∀ e ∈ st.events, ∀ s, e.NewSegment = some s →
    AllocatedSince World.nextSegment w0 st.world s ∧
      e.PreviousPoint = some (st.world.Seg s).Connections0.ControlPoint ∧
      (st.world.Seg s).Connections1.ControlPoint = e.CurrentPoint ∧
      (st.world.Seg s).SplineMeshes =
        if e.PointIndex = 1 ∧ e.Inherited = [] then [StreetMapRailwayBuilder.MeshEntry bs]
        else e.Inherited
  ev_index : ∀ e ∈ st.events,
    (e.NewSegment = none ↔ e.PointIndex = 0) ∧ (e.PreviousPoint = none ↔ e.PointIndex = 0)
  created_list : (st.events.filter (fun e => e.bCreated)).map (fun e => e.CurrentPoint) =
    List.range' w0.nextControlPoint (st.world.nextControlPoint - w0.nextControlPoint)
  seg_list : st.events.filterMap (fun e => e.NewSegment) =
    List.range' w0.nextSegment (st.world.nextSegment - w0.nextSegment)
  created_once : ∀ N, N ≠ INDEX_NONE →
    (st.events.filter (fun e => decide (e.NodeIndex = N) && e.bCreated)).length =
      if (TMapFind st.NodeIndexToControlPointMap N).isSome then 1 else 0
  map_events : ∀ N, (TMapFind st.NodeIndexToControlPointMap N).isSome →
    ∃ e ∈ st.events, e.NodeIndex = N
  chain : List.Chain' EventLink st.events

/-- What holds of `PreviousPoint` on entry to iteration `PointIndex` of way `Way`. -/
def PrevInv (Way PointIndex : Nat) (PreviousPoint : Option CPId)
    (st : StreetMapRailwayBuilder.BuildState) : Prop :=
  (PointIndex = 0 → PreviousPoint = none) ∧
    (PointIndex ≠ 0 → ∃ e, st.events.getLast? = some e ∧ PreviousPoint = some e.CurrentPoint ∧
      e.Way = Way ∧ e.PointIndex + 1 = PointIndex) ∧
    (2 ≤ PointIndex → ∀ q, PreviousPoint = some q → (st.world.CP q).ConnectedSegments ≠ [])

/-- Where in the input an event comes from: way, point index, node identifier. -/
def StreetMapRailwayBuilder.BuildEvent.key (e : StreetMapRailwayBuilder.BuildEvent) :
    Nat × Nat × Int :=
  (e.Way, e.PointIndex, e.NodeIndex)

/-- The points of the way at position `Way`, as event keys in loop order. -/
def WayKeys (Way : Nat) (Railway : FStreetMapRailway) : List (Nat × Nat × Int) :=
  (List.range Railway.Points.length).map
    (fun j => (Way, j, Railway.NodeIndices.getD j INDEX_NONE))

/-- The points of all ways from position `Way` on, as event keys in loop order. -/
def InputKeys : Nat → List FStreetMapRailway → List (Nat × Nat × Int)
  | _, [] => []
  | Way, Railway :: rest => WayKeys Way Railway ++ InputKeys (Way + 1) rest

/-- Every way has a node identifier for each of its points. -/
def NodeIndicesCover (Railways : List FStreetMapRailway) : Prop :=
  ∀ r ∈ Railways, r.Points.length ≤ r.NodeIndices.length

instance (Railways : List FStreetMapRailway) : Decidable (NodeIndicesCover Railways) := by
  unfold NodeIndicesCover; infer_instance

/-- The control-point array of the spline graph of landscape `L`; empty when the
landscape has no spline component. -/
def World.ControlPointsOf (w : World) (L : LandscapeId) : List CPId :=
  match (w.Landscapes L).SplineComponent with
  | some c => (w.Components c).ControlPoints
  | none => []

/-- The segment array of the spline graph of landscape `L`; empty when the
landscape has no spline component. -/
def World.SegmentsOf (w : World) (L : LandscapeId) : List SegId :=
  match (w.Landscapes L).SplineComponent with
  | some c => (w.Components c).Segments
  | none => []

/-- The world `Build` enters its railway loop with. -/
def CleanedWorld (h : Host) (w : World) (bs : FStreetMapRailwayBuildSettings) : World :=
  (StreetMapRailwayBuilder.BuildStart h w bs).1.world

/-! ## A concrete input -/

namespace Example

/-- Class defaults of a segment, as the engine sets them. -/
def segment : ULandscapeSplineSegment :=
  { Connections0 := { ControlPoint := 0, SocketName := "", TangentLen := 0 },
    Connections1 := { ControlPoint := 0, SocketName := "", TangentLen := 0 },
    LayerName := "", SplineMeshes := [], LDMaxDrawDistance := 0,
    bRaiseTerrain := true, bLowerTerrain := true,
    bPlaceSplineMeshesInStreamingLevels := true, bEnableCollision := true, bCastShadow := true }

/-- Class defaults of a control point, as the engine sets them. -/
def controlPoint : ULandscapeSplineControlPoint :=
  { Outer := 0, Location := { X := 0, Y := 0, Z := 0 },
    Rotation := { Pitch := 0, Yaw := 0, Roll := 0 },
    Width := 1000, SideFalloff := 1000, EndFalloff := 2000, LayerName := "",
    Mesh := none, MeshScale := { X := 1, Y := 1, Z := 1 },
    bPlaceSplineMeshesInStreamingLevels := true, bEnableCollision := true, bCastShadow := true,
    ConnectedSegments := [] }

/-- Class defaults of a spline component. -/
def component : ULandscapeSplinesComponent :=
  { RelativeScale3D := { X := 1, Y := 1, Z := 1 }, ControlPoints := [], Segments := [],
    bAttached := false, bRegistered := false, bShowSplineEditorMesh := false }

/-- A host over flat ground: no ray ever hits, geometry routines return zero. -/
def host : Host :=
  { LineTraceMultiByObjectType := fun _ _ => [],
    SplineScaleXYZ := fun _ => { X := 1, Y := 1, Z := 1 },
    DeltaRotation := fun _ _ => { Pitch := 0, Yaw := 0, Roll := 0 },
    DeltaSize := fun _ _ => 0,
    GetBestConnectionTo := fun _ _ => "",
    GetConnectionLocationAndRotation := fun _ _ =>
      ({ X := 0, Y := 0, Z := 0 }, { Pitch := 0, Yaw := 0, Roll := 0 }),
    AutoFlipTangents := fun _ _ => (0, 0),
    AutoCalcRotation := fun _ _ => { Pitch := 0, Yaw := 0, Roll := 0 },
    SegmentDefaults := segment,
    ControlPointDefaults := controlPoint,
    ComponentDefaults := component }

/-- A world with nothing allocated and no spline component on any landscape. -/
def emptyWorld : World :=
  { Landscapes := fun _ => { SplineComponent := none },
    Components := fun _ => component,
    CP := fun _ => controlPoint,
    Seg := fun _ => segment,
    nextComponent := 0, nextControlPoint := 0, nextSegment := 0, calls := [] }

/-- Settings with railway line mesh 7 on landscape 0. -/
def settings : FStreetMapRailwayBuildSettings :=
  { Landscape := 0, Width := 200, ForwardAxis := ESplineMeshAxis.X, UpAxis := ESplineMeshAxis.Z,
    RailwayLineMesh := some 7 }

/-- Way A of the specification's example. -/
def wayA : FStreetMapRailway :=
  { Points := [{ X := 0, Y := 0 }, { X := 10, Y := 0 }, { X := 20, Y := 0 }],
    NodeIndices := [5, INDEX_NONE, 7] }

/-- Way B of the specification's example. -/
def wayB : FStreetMapRailway :=
  { Points := [{ X := 20, Y := 0 }, { X := 30, Y := 0 }],
    NodeIndices := [7, INDEX_NONE] }

/-- A way of a single point carrying node identifier 5. -/
def wayOne : FStreetMapRailway :=
  { Points := [{ X := 0, Y := 0 }], NodeIndices := [5] }

end Example

/-- The number of control points a run over the given input points should
create: one per point without a node identifier, one per distinct node
identifier. -/
def ExpectedControlPoints (keys : List (Nat × Nat × Int)) : Nat :=
  (keys.filter (fun k => decide (k.2.2 = INDEX_NONE))).length +
    ((keys.map (fun k => k.2.2)).filter (fun N => decide (N ≠ INDEX_NONE))).dedup.length

/-- Event `e'` added a segment with an end at the control point of event `e`. -/
def Attaches (e' e : StreetMapRailwayBuilder.BuildEvent) : Prop :=
  e'.NewSegment ≠ none ∧
    (e'.CurrentPoint = e.CurrentPoint ∨ e'.PreviousPoint = some e.CurrentPoint)

/-- Every control point used so far is an end of a segment of this run, except
possibly `PreviousPoint` while the loop stands at point index 1. -/
def AttachedExcept (evs : List StreetMapRailwayBuilder.BuildEvent) (PointIndex : Nat)
    (PreviousPoint : Option CPId) : Prop :=
  ∀ e ∈ evs, (PointIndex = 1 ∧ PreviousPoint = some e.CurrentPoint) ∨ ∃ e' ∈ evs, Attaches e' e

/-- Every control point used by the run is an end of a segment of the run. -/
def AllAttached (evs : List StreetMapRailwayBuilder.BuildEvent) : Prop :=
  ∀ e ∈ evs, ∃ e' ∈ evs, Attaches e' e

/-- Control point `p` is an end of a segment of landscape `L` that passes the
railway-mesh test. -/
def IsRemovedEndpointOf (w : World) (L : LandscapeId) (bs : FStreetMapRailwayBuildSettings)
    (p : CPId) : Prop :=
  ∃ s ∈ w.SegmentsOf L,
    StreetMapRailwayBuilder.IsRailwaySegment bs (w.Seg s) = true ∧ IsEndpoint w s p

instance (w : World) (L : LandscapeId) (bs : FStreetMapRailwayBuildSettings) (p : CPId) :
    Decidable (IsRemovedEndpointOf w L bs p) := by
  unfold IsRemovedEndpointOf; infer_instance

/-- The number of segments of landscape `L` that pass the railway-mesh test. -/
def TaggedCount (w : World) (L : LandscapeId) (bs : FStreetMapRailwayBuildSettings) : Nat :=
  ((w.SegmentsOf L).filter
    (fun s => StreetMapRailwayBuilder.IsRailwaySegment bs (w.Seg s))).length

/-- Every address in the arrays of the graph of landscape `L` has been handed
out by `NewObject`. -/
def World.Allocated (w : World) (L : LandscapeId) : Prop :=
  (∀ p ∈ w.ControlPointsOf L, p < w.nextControlPoint) ∧
    (∀ s ∈ w.SegmentsOf L, s < w.nextSegment)

instance (w : World) (L : LandscapeId) : Decidable (w.Allocated L) := by
  unfold World.Allocated; infer_instance

/-- The graph invariant of the data model: both ends of every segment of
component `c` are in the control-point array of `c`. -/
def SegmentsClosed (w : World) (c : CompId) : Prop :=
  ∀ s ∈ (w.Components c).Segments,
    (w.Seg s).Connections0.ControlPoint ∈ (w.Components c).ControlPoints ∧
      (w.Seg s).Connections1.ControlPoint ∈ (w.Components c).ControlPoints

instance (w : World) (c : CompId) : Decidable (SegmentsClosed w c) := by
  unfold SegmentsClosed; infer_instance

/-- No segment of component `c` that fails the railway-mesh test shares an end
with one that passes it. -/
def RailwaysSeparate (w : World) (c : CompId) (bs : FStreetMapRailwayBuildSettings) : Prop :=
  ∀ s ∈ (w.Components c).Segments,
    StreetMapRailwayBuilder.IsRailwaySegment bs (w.Seg s) = false →
      ¬ IsRemovedEndpoint w c bs (w.Seg s).Connections0.ControlPoint ∧
        ¬ IsRemovedEndpoint w c bs (w.Seg s).Connections1.ControlPoint

instance (w : World) (c : CompId) (bs : FStreetMapRailwayBuildSettings) :
    Decidable (RailwaysSeparate w c bs) := by
  unfold RailwaysSeparate; infer_instance

namespace Example

/-- A graph on landscape 0 (component 0) with control points 0, 1, 2, a railway
segment 0 from 0 to 1 and a hand-made segment 1 from 1 to 2. -/
def sharedWorld : World :=
  { Landscapes := fun L => if L = 0 then { SplineComponent := some 0 } else { SplineComponent := none },
    Components := fun _ =>
      { component with ControlPoints := [0, 1, 2], Segments := [0, 1], bRegistered := true },
    CP := fun _ => controlPoint,
    Seg := fun s =>
      if s = 0 then
        { segment with
          Connections0 := { ControlPoint := 0, SocketName := "", TangentLen := 0 },
          Connections1 := { ControlPoint := 1, SocketName := "", TangentLen := 0 },
          SplineMeshes := [StreetMapRailwayBuilder.MeshEntry settings] }
      else
        { segment with
          Connections0 := { ControlPoint := 1, SocketName := "", TangentLen := 0 },
          Connections1 := { ControlPoint := 2, SocketName := "", TangentLen := 0 } },
    nextComponent := 1, nextControlPoint := 3, nextSegment := 2, calls := [] }

end Example

namespace Example

/-- A graph on landscape 0 (component 0) with control points 0 to 3, a railway
segment 0 from 0 to 1 and a hand-made segment 1 from 2 to 3. -/
def separateWorld : World :=
  { sharedWorld with
    Components := fun _ =>
      { component with ControlPoints := [0, 1, 2, 3], Segments := [0, 1], bRegistered := true },
    Seg := fun s =>
      if s = 0 then sharedWorld.Seg 0
      else
        { segment with
          Connections0 := { ControlPoint := 2, SocketName := "", TangentLen := 0 },
          Connections1 := { ControlPoint := 3, SocketName := "", TangentLen := 0 } },
    nextControlPoint := 4 }

end Example

namespace Example

/-- Settings whose railway line mesh (9) is on no segment of `sharedWorld`. -/
def otherSettings : FStreetMapRailwayBuildSettings :=
  { settings with RailwayLineMesh := some 9 }

end Example

/-- The test of source lines 193-197 on one hit: its component is a landscape
heightfield collision component that has a landscape proxy. -/
def IsLandscapeHit (HitResult : FHitResult) : Bool :=
  match HitResult.Component with
  | HitComponent.heightfieldCollision (some _) => true
  | _ => false

namespace Example

/-- A host like `host` whose ray cast returns, in this order, a hit on some
other component at height 9, a hit on a heightfield collision component of
landscape 1 at height 5 and one of landscape 0 at height 2. -/
def hitHost : Host :=
  { host with
    LineTraceMultiByObjectType := fun _ _ =>
      [{ Component := HitComponent.other, Location := { X := 0, Y := 0, Z := 9 } },
       { Component := HitComponent.heightfieldCollision (some 1),
         Location := { X := 0, Y := 0, Z := 5 } },
       { Component := HitComponent.heightfieldCollision (some 0),
         Location := { X := 0, Y := 0, Z := 2 } }] }

end Example

/-- The attributes `AddControlPoint` copies from the previous point (source
lines 59-66): width, side falloff, end falloff, mesh, mesh scale, and the
streaming, collision and shadow flags. -/
def ULandscapeSplineControlPoint.copied (p : ULandscapeSplineControlPoint) :
    FReal × FReal × FReal × Option MeshId × FVector × Bool × Bool × Bool :=
  (p.Width, p.SideFalloff, p.EndFalloff, p.Mesh, p.MeshScale,
    p.bPlaceSplineMeshesInStreamingLevels, p.bEnableCollision, p.bCastShadow)

/-- The attributes `AddSegment` copies from a connected segment (source lines
130-137): layer, mesh list, draw distance, raise and lower terrain flags, and
the streaming, collision and shadow flags. -/
def ULandscapeSplineSegment.copied (s : ULandscapeSplineSegment) :
    FName × List FLandscapeSplineMeshEntry × FReal × Bool × Bool × Bool × Bool × Bool :=
  (s.LayerName, s.SplineMeshes, s.LDMaxDrawDistance, s.bRaiseTerrain, s.bLowerTerrain,
    s.bPlaceSplineMeshesInStreamingLevels, s.bEnableCollision, s.bCastShadow)

namespace Example

/-- The graph of `sharedWorld` with its back-references filled in and mesh 3 on
control point 0. -/
def meshedWorld : World :=
  { sharedWorld with
    CP := fun p =>
      if p = 0 then
        { controlPoint with Mesh := some 3, ConnectedSegments := [{ Segment := 0, End := 0 }] }
      else if p = 1 then
        { controlPoint with
          ConnectedSegments := [{ Segment := 0, End := 1 }, { Segment := 1, End := 0 }] }
      else if p = 2 then
        { controlPoint with ConnectedSegments := [{ Segment := 1, End := 1 }] }
      else controlPoint }

end Example

/-- Every segment of the run added past point index 1 has the mesh list of a
segment the run added before it. -/
def InheritsEarlier (w0 : World) (st : StreetMapRailwayBuilder.BuildState) : Prop :=
  ∀ e ∈ st.events, e.PointIndex ≠ 1 → ∀ s, e.NewSegment = some s →
    ∃ s', w0.nextSegment ≤ s' ∧ s' < s ∧
      (st.world.Seg s).SplineMeshes = (st.world.Seg s').SplineMeshes

namespace Example

end Example

/-! ## Theorems -/

open StreetMapRailwayBuilder

/-! ### Engine containers -/


theorem SwapTail_perm {α : Type} (ys : List α) : (SwapTail ys).Perm ys := by
  induction ys using List.reverseRecOn with
  | nil => simp [SwapTail]
  | append_singleton ys l _ =>
    simp [SwapTail, List.getLast?_append]
    exact (List.perm_append_singleton l ys).symm

theorem SwapTail_length {α : Type} (ys : List α) : (SwapTail ys).length = ys.length :=
  (SwapTail_perm ys).length_eq

theorem RemoveAtSwap_append {α : Type} (pre : List α) (x : α) (ys : List α) :
    RemoveAtSwap (pre ++ x :: ys) pre.length = pre ++ SwapTail ys := by
  induction ys using List.reverseRecOn with
  | nil =>
    simp [RemoveAtSwap, SwapTail, List.getLast?_append]
  | append_singleton ys l _ =>
    have h1 : (x :: (ys ++ [l])).getLast? = some l := by
      rw [← List.cons_append, List.getLast?_append]; simp
    have h2 : (l :: (ys ++ [l])).dropLast = l :: ys := by
      rw [← List.cons_append, List.dropLast_concat]
    simp [RemoveAtSwap, SwapTail, List.getLast?_append, h1, h2]

theorem mem_AddUnique {α : Type} [DecidableEq α] (xs : List α) (x y : α) :
    y ∈ AddUnique xs x ↔ y ∈ xs ∨ y = x := by
  unfold AddUnique
  split
  · constructor
    · intro h; exact Or.inl h
    · rintro (h | rfl)
      · exact h
      · assumption
  · simp


theorem CleanLoop_spec (w : World) (bs : FStreetMapRailwayBuildSettings) (pre : List SegId) :
    ∀ (ys : List SegId) (del : List CPId) (calls : List HostCall),
      (CleanLoop w bs pre.length ⟨pre ++ ys, del, calls⟩).Segments.Perm
          (pre.filter (fun s => !IsRailwaySegment bs (w.Seg s)) ++ ys) ∧
        (∀ p, p ∈ (CleanLoop w bs pre.length ⟨pre ++ ys, del, calls⟩).SplineControlPointsToDelete ↔
          p ∈ del ∨ ∃ s ∈ pre, IsRailwaySegment bs (w.Seg s) = true ∧ IsEndpoint w s p) ∧
        ((∀ s ∈ pre, IsRailwaySegment bs (w.Seg s) = false) →
          CleanLoop w bs pre.length ⟨pre ++ ys, del, calls⟩ = ⟨pre ++ ys, del, calls⟩) := by
  induction pre using List.reverseRecOn with
  | nil => intro ys del calls; simp [CleanLoop]
  | append_singleton pre x ih =>
    intro ys del calls
    have hget : (pre ++ [x] ++ ys)[pre.length]? = some x := by
      rw [List.append_assoc, List.getElem?_append_right (Nat.le_refl _)]; simp
    rw [List.length_append, List.length_singleton]
    simp only [CleanLoop, hget]
    by_cases hx : IsRailwaySegment bs (w.Seg x) = true
    · simp only [hx, if_true]
      have hrm : RemoveAtSwap (pre ++ [x] ++ ys) pre.length = pre ++ SwapTail ys := by
        rw [List.append_assoc]; exact RemoveAtSwap_append pre x ys
      rw [hrm]
      obtain ⟨h1, h2, _⟩ := ih (SwapTail ys)
        (AddUnique (AddUnique del (w.Seg x).Connections0.ControlPoint)
          (w.Seg x).Connections1.ControlPoint)
        (calls ++ [HostCall.SegmentDeleteSplinePoints x])
      refine ⟨?_, ?_, ?_⟩
      · refine h1.trans ?_
        simp only [List.filter_append, List.filter_cons, List.filter_nil, hx, Bool.not_true]
        simp only [Bool.false_eq_true, if_false, List.append_nil]
        exact List.Perm.append_left _ (SwapTail_perm ys)
      · intro p
        rw [h2 p, mem_AddUnique, mem_AddUnique]
        constructor
        · rintro (((h | h) | h) | ⟨s, hs, ht, he⟩)
          · exact Or.inl h
          · exact Or.inr ⟨x, by simp, hx, Or.inl h.symm⟩
          · exact Or.inr ⟨x, by simp, hx, Or.inr h.symm⟩
          · exact Or.inr ⟨s, by simp [hs], ht, he⟩
        · rintro (h | ⟨s, hs, ht, he⟩)
          · exact Or.inl (Or.inl (Or.inl h))
          · rcases List.mem_append.1 hs with hs | hs
            · exact Or.inr ⟨s, hs, ht, he⟩
            · have : s = x := by simpa using hs
              subst this
              rcases he with he | he
              · exact Or.inl (Or.inl (Or.inr he.symm))
              · exact Or.inl (Or.inr he.symm)
      · intro hall
        have := hall x (by simp)
        rw [hx] at this
        exact absurd this (by simp)
    · have hx' : IsRailwaySegment bs (w.Seg x) = false := by simpa using hx
      simp only [hx', Bool.false_eq_true, if_false]
      rw [List.append_assoc]
      obtain ⟨h1, h2, h3⟩ := ih ([x] ++ ys) del calls
      refine ⟨?_, ?_, ?_⟩
      · refine h1.trans ?_
        simp [List.filter_append, hx']
      · intro p
        rw [h2 p]
        constructor
        · rintro (h | ⟨s, hs, ht, he⟩)
          · exact Or.inl h
          · exact Or.inr ⟨s, by simp [hs], ht, he⟩
        · rintro (h | ⟨s, hs, ht, he⟩)
          · exact Or.inl h
          · rcases List.mem_append.1 hs with hs | hs
            · exact Or.inr ⟨s, hs, ht, he⟩
            · have : s = x := by simpa using hs
              subst this
              rw [hx'] at ht
              exact absurd ht (by simp)
      · intro hall
        exact h3 (fun s hs => hall s (by simp [hs]))

theorem RemoveAllSwapLoop_spec {α : Type} (P : α → Bool) (fuel : Nat) :
    ∀ (pre rest removed : List α), (∀ y ∈ pre, P y = false) → rest.length ≤ fuel →
      (RemoveAllSwapLoop P fuel pre.length (pre ++ rest) removed).1.Perm
          (pre ++ rest.filter (fun y => !P y)) ∧
        (RemoveAllSwapLoop P fuel pre.length (pre ++ rest) removed).2.Perm
          (removed ++ rest.filter P) ∧
        ((∀ y ∈ rest, P y = false) →
          RemoveAllSwapLoop P fuel pre.length (pre ++ rest) removed = (pre ++ rest, removed)) := by
  induction fuel with
  | zero =>
    intro pre rest removed _ hlen
    have : rest = [] := List.length_eq_zero.1 (Nat.le_zero.1 hlen)
    subst this
    simp [RemoveAllSwapLoop]
  | succ fuel ih =>
    intro pre rest removed hpre hlen
    cases rest with
    | nil => simp [RemoveAllSwapLoop]
    | cons x rest =>
      have hget : (pre ++ x :: rest)[pre.length]? = some x := by
        rw [List.getElem?_append_right (Nat.le_refl _)]; simp
      simp only [RemoveAllSwapLoop, hget]
      have hlen' : rest.length ≤ fuel := by simpa using hlen
      by_cases hx : P x = true
      · simp only [hx, if_true]
        rw [RemoveAtSwap_append]
        obtain ⟨h1, h2, _⟩ := ih pre (SwapTail rest) (removed ++ [x]) hpre
          (by rw [SwapTail_length]; exact hlen')
        refine ⟨?_, ?_, ?_⟩
        · refine h1.trans ?_
          simp only [List.filter_cons, hx, Bool.not_true, Bool.false_eq_true, if_false]
          exact List.Perm.append_left _ ((SwapTail_perm rest).filter _)
        · refine h2.trans ?_
          simp only [List.filter_cons, hx, if_true, List.append_assoc, List.singleton_append]
          exact List.Perm.append_left _ (List.Perm.cons _ ((SwapTail_perm rest).filter _))
        · intro hall
          have := hall x (by simp)
          rw [hx] at this
          exact absurd this (by simp)
      · have hx' : P x = false := by simpa using hx
        simp only [hx', Bool.false_eq_true, if_false]
        have hpre' : ∀ y ∈ pre ++ [x], P y = false := by
          intro y hy
          rcases List.mem_append.1 hy with hy | hy
          · exact hpre y hy
          · have : y = x := by simpa using hy
            rw [this]; exact hx'
        have key := ih (pre ++ [x]) rest removed hpre' hlen'
        rw [List.length_append, List.length_singleton, List.append_assoc,
          List.singleton_append] at key
        obtain ⟨h1, h2, h3⟩ := key
        refine ⟨?_, ?_, ?_⟩
        · refine h1.trans ?_
          simp [List.filter_cons, hx']
        · refine h2.trans ?_
          simp [List.filter_cons, hx']
        · intro hall
          exact h3 (fun y hy => hall y (by simp [hy]))

theorem RemoveAllSwap_spec {α : Type} (P : α → Bool) (xs : List α) :
    (RemoveAllSwap P xs).1.Perm (xs.filter (fun y => !P y)) ∧
      (RemoveAllSwap P xs).2.Perm (xs.filter P) ∧
      ((∀ y ∈ xs, P y = false) → RemoveAllSwap P xs = (xs, [])) := by
  have := RemoveAllSwapLoop_spec P xs.length [] xs [] (by simp) (Nat.le_refl _)
  simpa [RemoveAllSwap] using this

/-! ### CleanOldRailways -/

@[simp] theorem setComponent_Components_same (w : World) (c : CompId)
    (v : ULandscapeSplinesComponent) : (w.setComponent c v).Components c = v := by
  simp [World.setComponent]

theorem CleanOldRailways_Seg (w : World) (c : CompId) (bs : FStreetMapRailwayBuildSettings) :
    (CleanOldRailways w c bs).Seg = w.Seg := rfl

theorem CleanOldRailways_CP (w : World) (c : CompId) (bs : FStreetMapRailwayBuildSettings) :
    (CleanOldRailways w c bs).CP = w.CP := rfl

theorem CleanOldRailways_Segments (w : World) (c : CompId) (bs : FStreetMapRailwayBuildSettings) :
    ((CleanOldRailways w c bs).Components c).Segments =
      (CleanLoop w bs (w.Components c).Segments.length
        ⟨(w.Components c).Segments, [], w.calls⟩).Segments := by
  simp [CleanOldRailways, World.setComponent]

theorem CleanOldRailways_ControlPoints (w : World) (c : CompId)
    (bs : FStreetMapRailwayBuildSettings) :
    ((CleanOldRailways w c bs).Components c).ControlPoints =
      (RemoveAllSwap (fun p => decide (p ∈ (CleanLoop w bs (w.Components c).Segments.length
        ⟨(w.Components c).Segments, [], w.calls⟩).SplineControlPointsToDelete))
        (w.Components c).ControlPoints).1 := by
  simp [CleanOldRailways, World.setComponent]

theorem CleanOldRailways_Components_other (w : World) (c c' : CompId)
    (bs : FStreetMapRailwayBuildSettings) (hne : c' ≠ c) :
    (CleanOldRailways w c bs).Components c' = w.Components c' := by
  simp [CleanOldRailways, World.setComponent, Function.update_noteq hne]

theorem CleanOldRailways_segments_perm (w : World) (c : CompId)
    (bs : FStreetMapRailwayBuildSettings) :
    ((CleanOldRailways w c bs).Components c).Segments.Perm
      ((w.Components c).Segments.filter (fun s => !IsRailwaySegment bs (w.Seg s))) := by
  rw [CleanOldRailways_Segments]
  have := (CleanLoop_spec w bs (w.Components c).Segments [] [] w.calls).1
  simpa using this

theorem CleanOldRailways_toDelete (w : World) (c : CompId)
    (bs : FStreetMapRailwayBuildSettings) (p : CPId) :
    p ∈ (CleanLoop w bs (w.Components c).Segments.length
        ⟨(w.Components c).Segments, [], w.calls⟩).SplineControlPointsToDelete ↔
      IsRemovedEndpoint w c bs p := by
  have := (CleanLoop_spec w bs (w.Components c).Segments [] [] w.calls).2.1 p
  simpa [IsRemovedEndpoint] using this

theorem CleanOldRailways_controlPoints_perm (w : World) (c : CompId)
    (bs : FStreetMapRailwayBuildSettings) :
    ((CleanOldRailways w c bs).Components c).ControlPoints.Perm
      ((w.Components c).ControlPoints.filter
        (fun p => !decide (IsRemovedEndpoint w c bs p))) := by
  rw [CleanOldRailways_ControlPoints]
  refine (RemoveAllSwap_spec _ _).1.trans ?_
  have : (fun p => !decide (p ∈ (CleanLoop w bs (w.Components c).Segments.length
        ⟨(w.Components c).Segments, [], w.calls⟩).SplineControlPointsToDelete)) =
      (fun p => !decide (IsRemovedEndpoint w c bs p)) := by
    funext p
    simp only [CleanOldRailways_toDelete]
  rw [this]

theorem CleanOldRailways_noop (w : World) (c : CompId) (bs : FStreetMapRailwayBuildSettings)
    (hno : ∀ s ∈ (w.Components c).Segments, IsRailwaySegment bs (w.Seg s) = false) :
    ((CleanOldRailways w c bs).Components c).Segments = (w.Components c).Segments ∧
      ((CleanOldRailways w c bs).Components c).ControlPoints =
        (w.Components c).ControlPoints := by
  have h3 := (CleanLoop_spec w bs (w.Components c).Segments [] [] w.calls).2.2 hno
  simp only [List.append_nil] at h3
  rw [CleanOldRailways_Segments, CleanOldRailways_ControlPoints, h3]
  refine ⟨rfl, ?_⟩
  have := (RemoveAllSwap_spec (fun p => decide (p ∈ ([] : List CPId)))
    (w.Components c).ControlPoints).2.2 (by simp)
  simp only [this]

/-- C7: after `CleanOldRailways` the segment array holds exactly the original
segments that fail the railway-mesh test, each as often as before (the object
heap is untouched, so the test reads the same before and after); and when no
segment passes the test, the segment and control-point arrays are unchanged. -/
theorem C7_CleanOldRailways_keeps_exactly_untagged (w : World) (c : CompId)
    (bs : FStreetMapRailwayBuildSettings) :
    ((CleanOldRailways w c bs).Components c).Segments.Perm
        ((w.Components c).Segments.filter (fun s => !IsRailwaySegment bs (w.Seg s))) ∧
      (CleanOldRailways w c bs).Seg = w.Seg ∧
      (∀ s, ((CleanOldRailways w c bs).Components c).Segments.count s =
        if IsRailwaySegment bs (w.Seg s) = true then 0 else (w.Components c).Segments.count s) ∧
      ((∀ s ∈ (w.Components c).Segments, IsRailwaySegment bs (w.Seg s) = false) →
        ((CleanOldRailways w c bs).Components c).Segments = (w.Components c).Segments ∧
          ((CleanOldRailways w c bs).Components c).ControlPoints =
            (w.Components c).ControlPoints) := by
  refine ⟨CleanOldRailways_segments_perm w c bs, rfl, ?_, CleanOldRailways_noop w c bs⟩
  intro s
  rw [(CleanOldRailways_segments_perm w c bs).count_eq]
  by_cases hs : IsRailwaySegment bs (w.Seg s) = true
  · rw [if_pos hs]
    refine List.count_eq_zero.2 (fun hmem => ?_)
    have := (List.mem_filter.1 hmem).2
    simp [hs] at this
  · rw [if_neg hs]
    exact List.count_filter (by simpa using hs)

theorem C7_witness :
    (∀ s ∈ (Example.sharedWorld.Components 0).Segments,
        IsRailwaySegment Example.otherSettings (Example.sharedWorld.Seg s) = false) ∧
      ((CleanOldRailways Example.sharedWorld 0 Example.otherSettings).Components 0).Segments =
        (Example.sharedWorld.Components 0).Segments ∧
      ((CleanOldRailways Example.sharedWorld 0 Example.otherSettings).Components 0).ControlPoints =
        (Example.sharedWorld.Components 0).ControlPoints :=
  ⟨by decide,
    (C7_CleanOldRailways_keeps_exactly_untagged Example.sharedWorld 0
      Example.otherSettings).2.2.2 (by decide)⟩

theorem CleanOldRailways_controlPoints_mem (w : World) (c : CompId)
    (bs : FStreetMapRailwayBuildSettings) (p : CPId) :
    p ∈ ((CleanOldRailways w c bs).Components c).ControlPoints ↔
      p ∈ (w.Components c).ControlPoints ∧ ¬ IsRemovedEndpoint w c bs p := by
  rw [(CleanOldRailways_controlPoints_perm w c bs).mem_iff]
  simp

/-- C8: `CleanOldRailways` drops from the control-point array exactly the
control points that are end 0 or end 1 of a removed segment, and keeps every
other one as often as it occurred. -/
theorem C8_CleanOldRailways_removes_exactly_endpoints (w : World) (c : CompId)
    (bs : FStreetMapRailwayBuildSettings) :
    ((CleanOldRailways w c bs).Components c).ControlPoints.Perm
        ((w.Components c).ControlPoints.filter
          (fun p => !decide (IsRemovedEndpoint w c bs p))) ∧
      (∀ p, p ∈ ((CleanOldRailways w c bs).Components c).ControlPoints ↔
        p ∈ (w.Components c).ControlPoints ∧ ¬ IsRemovedEndpoint w c bs p) := by
  refine ⟨CleanOldRailways_controlPoints_perm w c bs, ?_⟩
  intro p
  rw [(CleanOldRailways_controlPoints_perm w c bs).mem_iff]
  simp

/-! ### AddControlPoint and AddSegment: what they touch -/

section
variable (h : Host) (w : World) (c : CompId) (loc : FVector)
  (bs : FStreetMapRailwayBuildSettings) (prev : Option CPId)

theorem AddControlPoint_snd : (AddControlPoint h w c loc bs prev).2 = w.nextControlPoint := rfl

theorem AddControlPoint_nextControlPoint :
    (AddControlPoint h w c loc bs prev).1.nextControlPoint = w.nextControlPoint + 1 := by
  cases prev <;> rfl

theorem AddControlPoint_nextSegment :
    (AddControlPoint h w c loc bs prev).1.nextSegment = w.nextSegment := by
  cases prev <;> rfl

theorem AddControlPoint_nextComponent :
    (AddControlPoint h w c loc bs prev).1.nextComponent = w.nextComponent := by
  cases prev <;> rfl

theorem AddControlPoint_Seg : (AddControlPoint h w c loc bs prev).1.Seg = w.Seg := by
  cases prev <;> rfl

theorem AddControlPoint_Landscapes :
    (AddControlPoint h w c loc bs prev).1.Landscapes = w.Landscapes := by
  cases prev <;> rfl

theorem AddControlPoint_CP_other (p : CPId) (hp : p ≠ w.nextControlPoint) :
    (AddControlPoint h w c loc bs prev).1.CP p = w.CP p := by
  cases prev <;>
    simp [AddControlPoint, World.setCP, World.setComponent, World.call,
      Function.update_noteq hp]

theorem AddControlPoint_CP_new_Outer :
    ((AddControlPoint h w c loc bs prev).1.CP w.nextControlPoint).Outer = c := by
  cases prev <;>
    simp [AddControlPoint, World.setCP, World.setComponent, World.call]

theorem AddControlPoint_CP_new_ConnectedSegments :
    ((AddControlPoint h w c loc bs prev).1.CP w.nextControlPoint).ConnectedSegments = [] := by
  cases prev <;>
    simp [AddControlPoint, World.setCP, World.setComponent, World.call]

theorem AddControlPoint_Components_other (c' : CompId) (hc : c' ≠ c) :
    (AddControlPoint h w c loc bs prev).1.Components c' = w.Components c' := by
  cases prev <;>
    simp [AddControlPoint, World.setCP, World.setComponent, World.call,
      Function.update_noteq hc]

theorem AddControlPoint_ControlPoints :
    ((AddControlPoint h w c loc bs prev).1.Components c).ControlPoints =
      (w.Components c).ControlPoints ++ [w.nextControlPoint] := by
  cases prev <;>
    simp [AddControlPoint, World.setCP, World.setComponent, World.call]

theorem AddControlPoint_Segments :
    ((AddControlPoint h w c loc bs prev).1.Components c).Segments =
      (w.Components c).Segments := by
  cases prev <;>
    simp [AddControlPoint, World.setCP, World.setComponent, World.call]

end

section
variable (h : Host) (w : World) (Start End : CPId) (a b : Bool)

theorem AddSegment_eq :
    AddSegment h w Start End a b =
      (AddSegmentRecompute h (AddSegmentLink h w Start End) Start End w.nextSegment a b,
        w.nextSegment) := rfl

theorem SameButRotation.refl (w : World) : SameButRotation w w :=
  ⟨rfl, rfl, rfl, rfl, rfl, rfl, fun _ => rfl⟩

theorem SameButRotation.trans {w1 w2 w3 : World} (h12 : SameButRotation w1 w2)
    (h23 : SameButRotation w2 w3) : SameButRotation w1 w3 := by
  obtain ⟨a1, a2, a3, a4, a5, a6, a7⟩ := h12
  obtain ⟨b1, b2, b3, b4, b5, b6, b7⟩ := h23
  exact ⟨b1.trans a1, b2.trans a2, b3.trans a3, b4.trans a4, b5.trans a5, b6.trans a6,
    fun p => (b7 p).trans (a7 p)⟩

theorem SameButRotation.call (w : World) (c : HostCall) : SameButRotation w (w.call c) :=
  ⟨rfl, rfl, rfl, rfl, rfl, rfl, fun _ => rfl⟩

theorem SameButRotation.setRotation (w : World) (p : CPId) (r : FRotator) :
    SameButRotation w (w.setCP p { w.CP p with Rotation := r }) := by
  refine ⟨rfl, rfl, rfl, rfl, rfl, rfl, fun q => ?_⟩
  by_cases hq : q = p
  · subst hq
    simp [World.setCP, ULandscapeSplineControlPoint.dropRotation]
  · simp [World.setCP, Function.update_noteq hq]

theorem SameButRotation.ite (w : World) (c : Prop) [Decidable c] (w' : World)
    (hw : SameButRotation w w') : SameButRotation w (if c then w' else w) := by
  split
  · exact hw
  · exact SameButRotation.refl w

/-- Any reflexive, transitive relation on worlds that admits recording a call
and setting the rotation of either end relates a world to what
`AddSegmentRecompute` makes of it. -/
theorem AddSegmentRecompute_rel (R : World → World → Prop) (hrefl : ∀ x, R x x)
    (htrans : ∀ x y z, R x y → R y z → R x z) (hcall : ∀ x c, R x (x.call c))
    (hS : ∀ x r, R x (x.setCP Start { x.CP Start with Rotation := r }))
    (hE : ∀ x r, R x (x.setCP End { x.CP End with Rotation := r })) (n : SegId) :
    R w (AddSegmentRecompute h w Start End n a b) := by
  have ite : ∀ (x : World) (c : Prop) [Decidable c] (y : World), R x y →
      R x (if c then y else x) := by
    intro x c _ y hy
    split
    · exact hy
    · exact hrefl x
  unfold AddSegmentRecompute
  dsimp only
  refine htrans _ _ _ ?_ (ite _ _ _ (hcall _ _))
  refine htrans _ _ _ ?_ (ite _ _ _ (hcall _ _))
  refine htrans _ _ _ ?_ (ite _ _ _ (hcall _ _))
  refine htrans _ _ _ ?_ (ite _ _ _ (htrans _ _ _ (hE _ _) (hcall _ _)))
  exact ite _ _ _ (htrans _ _ _ (hS _ _) (hcall _ _))

theorem AddSegmentRecompute_same (n : SegId) :
    SameButRotation w (AddSegmentRecompute h w Start End n a b) :=
  AddSegmentRecompute_rel h w Start End a b SameButRotation SameButRotation.refl
    (fun _ _ _ => SameButRotation.trans) SameButRotation.call
    (fun x r => SameButRotation.setRotation x Start r)
    (fun x r => SameButRotation.setRotation x End r) n

theorem AddSegmentRecompute_CP_other (n : SegId) (p : CPId) (hS : p ≠ Start) (hE : p ≠ End) :
    (AddSegmentRecompute h w Start End n a b).CP p = w.CP p :=
  AddSegmentRecompute_rel h w Start End a b (fun x y => y.CP p = x.CP p) (fun _ => rfl)
    (fun _ _ _ h1 h2 => h2.trans h1) (fun _ _ => rfl)
    (fun x r => by simp [World.setCP, Function.update_noteq hS])
    (fun x r => by simp [World.setCP, Function.update_noteq hE]) n

end

section
variable (h : Host) (w : World) (Start End : CPId)

theorem AddSegmentLink_counters :
    (AddSegmentLink h w Start End).nextSegment = w.nextSegment + 1 ∧
      (AddSegmentLink h w Start End).nextControlPoint = w.nextControlPoint ∧
      (AddSegmentLink h w Start End).nextComponent = w.nextComponent ∧
      (AddSegmentLink h w Start End).Landscapes = w.Landscapes := ⟨rfl, rfl, rfl, rfl⟩

theorem AddSegmentLink_Components :
    (AddSegmentLink h w Start End).Components =
      Function.update w.Components (w.CP Start).Outer
        { w.Components (w.CP Start).Outer with
          Segments := (w.Components (w.CP Start).Outer).Segments ++ [w.nextSegment] } := rfl

theorem AddSegmentLink_Seg_other (s : SegId) (hs : s ≠ w.nextSegment) :
    (AddSegmentLink h w Start End).Seg s = w.Seg s := by
  simp [AddSegmentLink, World.setCP, World.setSeg, World.setComponent, Function.update_noteq hs]

theorem AddSegmentLink_Seg_new_Connections :
    ((AddSegmentLink h w Start End).Seg w.nextSegment).Connections0.ControlPoint = Start ∧
      ((AddSegmentLink h w Start End).Seg w.nextSegment).Connections1.ControlPoint = End := by
  constructor <;>
  · simp only [AddSegmentLink, World.setCP, World.setSeg, World.setComponent,
      Function.update_same]
    split <;> rfl

theorem AddSegmentLink_Seg_new_SplineMeshes :
    ((AddSegmentLink h w Start End).Seg w.nextSegment).SplineMeshes =
      match CopyFromSegment (w.CP Start) (w.CP End) with
      | some c => if c = w.nextSegment then [] else (w.Seg c).SplineMeshes
      | none => [] := by
  simp only [AddSegmentLink, World.setCP, World.setSeg, World.setComponent,
      Function.update_same]
  cases hc : CopyFromSegment (w.CP Start) (w.CP End) with
  | none => rfl
  | some c =>
    simp only [Function.update_apply]
    split_ifs <;> rfl

theorem AddSegmentLink_CP (p : CPId) :
    (AddSegmentLink h w Start End).CP p =
      { w.CP p with
        ConnectedSegments := (w.CP p).ConnectedSegments ++
          (if p = Start then [{ Segment := w.nextSegment, End := 0 }] else []) ++
          (if p = End then [{ Segment := w.nextSegment, End := 1 }] else []) } := by
  simp only [AddSegmentLink, World.setCP, World.setSeg, World.setComponent,
    Function.update_apply]
  split_ifs <;> simp_all

end

section
variable (h : Host) (w : World) (Start End : CPId) (a b : Bool)

theorem AddSegment_snd : (AddSegment h w Start End a b).2 = w.nextSegment := rfl

theorem AddSegment_fst :
    (AddSegment h w Start End a b).1 =
      AddSegmentRecompute h (AddSegmentLink h w Start End) Start End w.nextSegment a b := rfl

theorem AddSegment_same :
    SameButRotation (AddSegmentLink h w Start End) (AddSegment h w Start End a b).1 :=
  AddSegmentRecompute_same h _ Start End a b _

theorem AddSegment_nextSegment :
    (AddSegment h w Start End a b).1.nextSegment = w.nextSegment + 1 :=
  (AddSegment_same h w Start End a b).2.2.2.1

theorem AddSegment_nextControlPoint :
    (AddSegment h w Start End a b).1.nextControlPoint = w.nextControlPoint :=
  (AddSegment_same h w Start End a b).2.2.2.2.1

theorem AddSegment_nextComponent :
    (AddSegment h w Start End a b).1.nextComponent = w.nextComponent :=
  (AddSegment_same h w Start End a b).2.2.2.2.2.1

theorem AddSegment_Landscapes :
    (AddSegment h w Start End a b).1.Landscapes = w.Landscapes :=
  (AddSegment_same h w Start End a b).2.2.1

theorem AddSegment_Components :
    (AddSegment h w Start End a b).1.Components =
      Function.update w.Components (w.CP Start).Outer
        { w.Components (w.CP Start).Outer with
          Segments := (w.Components (w.CP Start).Outer).Segments ++ [w.nextSegment] } :=
  (AddSegment_same h w Start End a b).2.1

theorem AddSegment_Seg_other (s : SegId) (hs : s ≠ w.nextSegment) :
    (AddSegment h w Start End a b).1.Seg s = w.Seg s := by
  rw [(AddSegment_same h w Start End a b).1]
  exact AddSegmentLink_Seg_other h w Start End s hs

theorem AddSegment_Seg_new_Connections :
    ((AddSegment h w Start End a b).1.Seg w.nextSegment).Connections0.ControlPoint = Start ∧
      ((AddSegment h w Start End a b).1.Seg w.nextSegment).Connections1.ControlPoint = End := by
  rw [(AddSegment_same h w Start End a b).1]
  exact AddSegmentLink_Seg_new_Connections h w Start End

theorem AddSegment_Seg_new_SplineMeshes :
    ((AddSegment h w Start End a b).1.Seg w.nextSegment).SplineMeshes =
      match CopyFromSegment (w.CP Start) (w.CP End) with
      | some c => if c = w.nextSegment then [] else (w.Seg c).SplineMeshes
      | none => [] := by
  rw [(AddSegment_same h w Start End a b).1]
  exact AddSegmentLink_Seg_new_SplineMeshes h w Start End

theorem AddSegment_CP_dropRotation (p : CPId) :
    ((AddSegment h w Start End a b).1.CP p).dropRotation =
      ({ w.CP p with
        ConnectedSegments := (w.CP p).ConnectedSegments ++
          (if p = Start then [{ Segment := w.nextSegment, End := 0 }] else []) ++
          (if p = End then [{ Segment := w.nextSegment, End := 1 }] else []) } :
        ULandscapeSplineControlPoint).dropRotation := by
  rw [(AddSegment_same h w Start End a b).2.2.2.2.2.2 p, AddSegmentLink_CP]

theorem AddSegment_CP_other (p : CPId) (hS : p ≠ Start) (hE : p ≠ End) :
    (AddSegment h w Start End a b).1.CP p = w.CP p := by
  rw [AddSegment_fst, AddSegmentRecompute_CP_other h _ Start End a b _ p hS hE,
    AddSegmentLink_CP]
  simp [hS, hE]

theorem AddSegment_CP_Outer (p : CPId) :
    ((AddSegment h w Start End a b).1.CP p).Outer = (w.CP p).Outer :=
  congrArg (fun q => q.Outer) (AddSegment_CP_dropRotation h w Start End a b p)

theorem AddSegment_CP_ConnectedSegments (p : CPId) :
    ((AddSegment h w Start End a b).1.CP p).ConnectedSegments =
      (w.CP p).ConnectedSegments ++
        (if p = Start then [{ Segment := w.nextSegment, End := 0 }] else []) ++
        (if p = End then [{ Segment := w.nextSegment, End := 1 }] else []) :=
  congrArg (fun q => q.ConnectedSegments) (AddSegment_CP_dropRotation h w Start End a b p)

end

section
variable (w : World) (bs : FStreetMapRailwayBuildSettings) (n : SegId)

theorem SetupFirstSegment_Seg_other (s : SegId) (hs : s ≠ n) :
    (SetupFirstSegment w bs n).Seg s = w.Seg s := by
  simp [SetupFirstSegment, World.setSeg, Function.update_noteq hs]

theorem SetupFirstSegment_Seg_Connections :
    ((SetupFirstSegment w bs n).Seg n).Connections0 = (w.Seg n).Connections0 ∧
      ((SetupFirstSegment w bs n).Seg n).Connections1 = (w.Seg n).Connections1 := by
  simp only [SetupFirstSegment, World.setSeg, Function.update_same]
  split <;> exact ⟨rfl, rfl⟩

theorem SetupFirstSegment_Seg_SplineMeshes :
    ((SetupFirstSegment w bs n).Seg n).SplineMeshes =
      if (w.Seg n).SplineMeshes = [] then [MeshEntry bs] else (w.Seg n).SplineMeshes := by
  simp only [SetupFirstSegment, World.setSeg, Function.update_same, List.length_eq_zero]
  split <;> simp_all

theorem SetupFirstSegment_rest :
    (SetupFirstSegment w bs n).CP = w.CP ∧
      (SetupFirstSegment w bs n).Components = w.Components ∧
      (SetupFirstSegment w bs n).Landscapes = w.Landscapes ∧
      (SetupFirstSegment w bs n).nextSegment = w.nextSegment ∧
      (SetupFirstSegment w bs n).nextControlPoint = w.nextControlPoint ∧
      (SetupFirstSegment w bs n).nextComponent = w.nextComponent ∧
      (SetupFirstSegment w bs n).calls = w.calls := ⟨rfl, rfl, rfl, rfl, rfl, rfl, rfl⟩

end

/-! ### The node-index map -/

theorem TMapFind_some_mem {m : List (Int × CPId)} {k : Int} {p : CPId}
    (hf : TMapFind m k = some p) : (k, p) ∈ m := by
  unfold TMapFind at hf
  cases hfind : m.find? (fun e => e.1 == k) with
  | none => simp [hfind] at hf
  | some e =>
    simp [hfind] at hf
    have h1 := List.find?_some hfind
    have h2 := List.mem_of_find?_eq_some hfind
    have : e = (k, p) := by
      cases e with
      | mk a b =>
        simp at h1 hf
        simp [h1, hf]
    rw [← this]; exact h2

theorem TMapFind_eq_none {m : List (Int × CPId)} {k : Int} :
    TMapFind m k = none ↔ ∀ e ∈ m, e.1 ≠ k := by
  unfold TMapFind
  simp [List.find?_eq_none]

theorem TMapFind_TMapAdd_same (m : List (Int × CPId)) (k : Int) (v : CPId) :
    TMapFind (TMapAdd m k v) k = some v := by
  unfold TMapFind TMapAdd
  rw [List.find?_append]
  have : (m.filter (fun e => !(e.1 == k))).find? (fun e => e.1 == k) = none := by
    rw [List.find?_eq_none]
    intro e he
    have := (List.mem_filter.1 he).2
    simpa using this
  simp [this]

theorem TMapFind_TMapAdd_other (m : List (Int × CPId)) (k k' : Int) (v : CPId)
    (hk : k' ≠ k) : TMapFind (TMapAdd m k v) k' = TMapFind m k' := by
  unfold TMapFind TMapAdd
  rw [List.find?_append]
  have h1 : ([(k, v)] : List (Int × CPId)).find? (fun e => e.1 == k') = none := by
    simp [List.find?_cons, Ne.symm hk]
  have h2 : (m.filter (fun e => !(e.1 == k))).find? (fun e => e.1 == k') =
      m.find? (fun e => e.1 == k') := by
    induction m with
    | nil => rfl
    | cons e m ih =>
      by_cases he : e.1 = k
      · have hne : (e.1 == k') = false := by
          simp only [beq_eq_false_iff_ne, ne_eq]
          exact fun h' => hk (h'.symm.trans he)
        have hf : (!(e.1 == k)) = false := by simp [he]
        rw [List.filter_cons, hf, List.find?_cons, hne]
        simpa using ih
      · have hf : (!(e.1 == k)) = true := by simp [he]
        rw [List.filter_cons, hf, if_pos rfl, List.find?_cons, List.find?_cons, ih]
  rw [h1, h2]; simp

theorem mem_TMapAdd (m : List (Int × CPId)) (k : Int) (v : CPId) (e : Int × CPId) :
    e ∈ TMapAdd m k v ↔ (e ∈ m ∧ e.1 ≠ k) ∨ e = (k, v) := by
  unfold TMapAdd
  simp [List.mem_filter]

/-! ### One iteration of the point loop -/

theorem PointBody_eq (h : Host) (bs : FStreetMapRailwayBuildSettings) (comp : CompId)
    (Way i : Nat) (loc : FVector2D) (N : Int) (prev : Option CPId) (st : BuildState) :
    PointBody h bs comp Way i loc N prev st =
      ({ world := SegmentPhase h bs i prev
            (CurrentPointPhase h bs comp loc N prev st).2.2.1
            (CurrentPointPhase h bs comp loc N prev st).1,
         NodeIndexToControlPointMap := (CurrentPointPhase h bs comp loc N prev st).2.1,
         events := st.events ++ [StepEvent h bs comp Way i loc N prev st] },
        (CurrentPointPhase h bs comp loc N prev st).2.2.1) := by
  unfold PointBody CurrentPointPhase StepEvent SegmentPhase
  cases prev <;> rfl

/-! ### The graph invariant of the railway loop -/

theorem range'_snoc (a k : Nat) : List.range' a (k + 1) = List.range' a k ++ [a + k] := by
  rw [List.range'_concat]; simp

theorem sub_succ_of_le {a b : Nat} (hab : a ≤ b) : b + 1 - a = (b - a) + 1 := by omega

theorem GraphInv.init (bs : FStreetMapRailwayBuildSettings) (comp : CompId) (w0 : World) :
    GraphInv bs comp w0 w0 where
  nextCP_le := Nat.le_refl _
  nextSeg_le := Nat.le_refl _
  ControlPoints_eq := by simp
  Segments_eq := by simp
  Outer_eq := fun p hp => absurd hp.2 (Nat.not_lt.2 hp.1)
  Connected_new := fun p hp => absurd hp.2 (Nat.not_lt.2 hp.1)
  Connected_exact := fun p hp => absurd hp.2 (Nat.not_lt.2 hp.1)
  Seg_ends := fun s hs => absurd hs.2 (Nat.not_lt.2 hs.1)
  Seg_tagged := fun s hs => absurd hs.2 (Nat.not_lt.2 hs.1)
  Seg_frame := fun _ _ => rfl
  CP_frame := fun _ _ => rfl
  Components_frame := fun _ _ => rfl
  Landscapes_eq := rfl
  nextComponent_eq := rfl

theorem GraphInv.of_AddControlPoint {bs : FStreetMapRailwayBuildSettings} {comp : CompId}
    {w0 w : World} (g : GraphInv bs comp w0 w) (h : Host) (loc : FVector)
    (prev : Option CPId) :
    GraphInv bs comp w0 (AddControlPoint h w comp loc bs prev).1 where
  nextCP_le := by rw [AddControlPoint_nextControlPoint]; exact Nat.le_succ_of_le g.nextCP_le
  nextSeg_le := by rw [AddControlPoint_nextSegment]; exact g.nextSeg_le
  ControlPoints_eq := by
    rw [AddControlPoint_ControlPoints, AddControlPoint_nextControlPoint, g.ControlPoints_eq,
      sub_succ_of_le g.nextCP_le, range'_snoc, List.append_assoc,
      Nat.add_sub_cancel' g.nextCP_le]
  Segments_eq := by
    rw [AddControlPoint_Segments, AddControlPoint_nextSegment, g.Segments_eq]
  Outer_eq := by
    intro p hp
    unfold AllocatedSince at hp
    rw [AddControlPoint_nextControlPoint] at hp
    by_cases hpn : p = w.nextControlPoint
    · subst hpn; exact AddControlPoint_CP_new_Outer h w comp loc bs prev
    · rw [AddControlPoint_CP_other h w comp loc bs prev p hpn]
      exact g.Outer_eq p ⟨hp.1, by omega⟩
  Connected_new := by
    intro p hp c hc
    unfold AllocatedSince at hp ⊢
    rw [AddControlPoint_nextControlPoint] at hp
    rw [AddControlPoint_nextSegment]
    by_cases hpn : p = w.nextControlPoint
    · subst hpn
      rw [AddControlPoint_CP_new_ConnectedSegments] at hc
      simp at hc
    · rw [AddControlPoint_CP_other h w comp loc bs prev p hpn] at hc
      exact g.Connected_new p ⟨hp.1, by omega⟩ c hc
  Connected_exact := by
    intro p hp
    unfold AllocatedSince at hp
    rw [AddControlPoint_nextControlPoint] at hp
    rw [AddControlPoint_nextSegment]
    have hB : ∀ s, BackReferences (AddControlPoint h w comp loc bs prev).1 s p =
        BackReferences w s p := by
      intro s; unfold BackReferences; rw [AddControlPoint_Seg]
    simp only [hB]
    by_cases hpn : p = w.nextControlPoint
    · subst hpn
      rw [AddControlPoint_CP_new_ConnectedSegments]
      symm
      rw [List.flatMap_eq_nil_iff]
      intro s hs
      have hs' := List.mem_range'_1.1 hs
      have hends := g.Seg_ends s ⟨hs'.1, by have := g.nextSeg_le; omega⟩
      unfold BackReferences
      rw [if_neg (Nat.ne_of_lt hends.1.2), if_neg (Nat.ne_of_lt hends.2.2)]
      rfl
    · rw [AddControlPoint_CP_other h w comp loc bs prev p hpn]
      exact g.Connected_exact p ⟨hp.1, by omega⟩
  Seg_ends := by
    intro s hs
    unfold AllocatedSince at hs ⊢
    rw [AddControlPoint_nextSegment] at hs
    rw [AddControlPoint_nextControlPoint, AddControlPoint_Seg]
    have := g.Seg_ends s hs
    unfold AllocatedSince at this
    exact ⟨⟨this.1.1, by omega⟩, ⟨this.2.1, by omega⟩⟩
  Seg_tagged := by
    intro s hs
    unfold AllocatedSince at hs
    rw [AddControlPoint_nextSegment] at hs
    rw [AddControlPoint_Seg]
    exact g.Seg_tagged s hs
  Seg_frame := by
    intro s hs
    rw [AddControlPoint_Seg]
    refine g.Seg_frame s (fun hh => hs ?_)
    unfold AllocatedSince at hh ⊢
    rw [AddControlPoint_nextSegment]; exact hh
  CP_frame := by
    intro p hp
    have : p ≠ w.nextControlPoint := by have := g.nextCP_le; omega
    rw [AddControlPoint_CP_other h w comp loc bs prev p this]
    exact g.CP_frame p hp
  Components_frame := by
    intro c hc
    rw [AddControlPoint_Components_other h w comp loc bs prev c hc]
    exact g.Components_frame c hc
  Landscapes_eq := by rw [AddControlPoint_Landscapes]; exact g.Landscapes_eq
  nextComponent_eq := by rw [AddControlPoint_nextComponent]; exact g.nextComponent_eq

theorem IsRailwaySegment_iff (bs : FStreetMapRailwayBuildSettings)
    (seg : ULandscapeSplineSegment) :
    IsRailwaySegment bs seg = true ↔
      ∃ e, seg.SplineMeshes = [e] ∧ e.Mesh = bs.RailwayLineMesh := by
  unfold IsRailwaySegment
  split
  · next e he => simp [he]
  · next hne =>
    simp only [Bool.false_eq_true, false_iff, not_exists, not_and]
    intro e he
    exact absurd he (hne e)

theorem IsRailwaySegment_congr (bs : FStreetMapRailwayBuildSettings)
    {s1 s2 : ULandscapeSplineSegment} (hm : s1.SplineMeshes = s2.SplineMeshes) :
    IsRailwaySegment bs s1 = IsRailwaySegment bs s2 := by
  unfold IsRailwaySegment; rw [hm]

theorem CopyFromSegment_some {P Q : ULandscapeSplineControlPoint} {c : SegId}
    (hc : CopyFromSegment P Q = some c) :
    (∃ x ∈ P.ConnectedSegments, x.Segment = c) ∨ (∃ x ∈ Q.ConnectedSegments, x.Segment = c) := by
  unfold CopyFromSegment at hc
  split at hc
  · next x xs hx =>
    left
    exact ⟨x, by rw [hx]; simp, by simpa using hc⟩
  · split at hc
    · next x xs hx =>
      right
      exact ⟨x, by rw [hx]; simp, by simpa using hc⟩
    · simp at hc

theorem CopyFromSegment_none {P Q : ULandscapeSplineControlPoint}
    (hc : CopyFromSegment P Q = none) : P.ConnectedSegments = [] ∧ Q.ConnectedSegments = [] := by
  unfold CopyFromSegment at hc
  split at hc
  · simp at hc
  · next hP =>
    split at hc
    · simp at hc
    · next hQ => exact ⟨hP, hQ⟩

/-- The mesh list the segment phase leaves on the new segment. -/
theorem SegmentPhase_some (h : Host) (bs : FStreetMapRailwayBuildSettings) (i : Nat)
    (q cur : CPId) (w : World) :
    (SegmentPhase h bs i (some q) cur w).CP = (AddSegment h w q cur true true).1.CP ∧
      (SegmentPhase h bs i (some q) cur w).Components =
        (AddSegment h w q cur true true).1.Components ∧
      (SegmentPhase h bs i (some q) cur w).Landscapes = w.Landscapes ∧
      (SegmentPhase h bs i (some q) cur w).nextSegment = w.nextSegment + 1 ∧
      (SegmentPhase h bs i (some q) cur w).nextControlPoint = w.nextControlPoint ∧
      (SegmentPhase h bs i (some q) cur w).nextComponent = w.nextComponent ∧
      (∀ s, s ≠ w.nextSegment → (SegmentPhase h bs i (some q) cur w).Seg s = w.Seg s) ∧
      ((SegmentPhase h bs i (some q) cur w).Seg w.nextSegment).Connections0.ControlPoint = q ∧
      ((SegmentPhase h bs i (some q) cur w).Seg w.nextSegment).Connections1.ControlPoint = cur ∧
      ((SegmentPhase h bs i (some q) cur w).Seg w.nextSegment).SplineMeshes =
        if i = 1 ∧ ((AddSegment h w q cur true true).1.Seg w.nextSegment).SplineMeshes = [] then
          [MeshEntry bs]
        else ((AddSegment h w q cur true true).1.Seg w.nextSegment).SplineMeshes := by
  unfold SegmentPhase
  simp only [AddSegment_snd]
  by_cases hi : i = 1
  · simp only [hi, if_true, true_and]
    have hr := SetupFirstSegment_rest (AddSegment h w q cur true true).1 bs w.nextSegment
    have hc := SetupFirstSegment_Seg_Connections (AddSegment h w q cur true true).1 bs w.nextSegment
    have hn := AddSegment_Seg_new_Connections h w q cur true true
    refine ⟨hr.1, hr.2.1, ?_, ?_, ?_, ?_, ?_, ?_, ?_, ?_⟩
    · rw [hr.2.2.1, AddSegment_Landscapes]
    · rw [hr.2.2.2.1, AddSegment_nextSegment]
    · rw [hr.2.2.2.2.1, AddSegment_nextControlPoint]
    · rw [hr.2.2.2.2.2.1, AddSegment_nextComponent]
    · intro s hs
      rw [SetupFirstSegment_Seg_other _ _ _ s hs, AddSegment_Seg_other h w q cur true true s hs]
    · rw [hc.1]; exact hn.1
    · rw [hc.2]; exact hn.2
    · exact SetupFirstSegment_Seg_SplineMeshes _ _ _
  · rw [if_neg hi, if_neg (fun hh => hi hh.1)]
    have hn := AddSegment_Seg_new_Connections h w q cur true true
    exact ⟨rfl, rfl, AddSegment_Landscapes h w q cur true true,
      AddSegment_nextSegment h w q cur true true,
      AddSegment_nextControlPoint h w q cur true true,
      AddSegment_nextComponent h w q cur true true,
      fun s hs => AddSegment_Seg_other h w q cur true true s hs, hn.1, hn.2, rfl⟩

theorem GraphInv.of_SegmentPhase {bs : FStreetMapRailwayBuildSettings} {comp : CompId}
    {w0 w : World} (g : GraphInv bs comp w0 w) (h : Host) (i : Nat) (prev : Option CPId)
    (cur : CPId)
    (hprev : ∀ q, prev = some q → AllocatedSince World.nextControlPoint w0 w q)
    (hcur : AllocatedSince World.nextControlPoint w0 w cur)
    (hconn : ∀ q, prev = some q → i ≠ 1 → (w.CP q).ConnectedSegments ≠ []) :
    GraphInv bs comp w0 (SegmentPhase h bs i prev cur w) := by
  cases prev with
  | none => exact g
  | some q =>
    have hq := hprev q rfl
    have hOuter : (w.CP q).Outer = comp := g.Outer_eq q hq
    obtain ⟨fCP, fComp, fLand, fNS, fNC, fNComp, fOther, fC0, fC1, fMesh⟩ :=
      SegmentPhase_some h bs i q cur w
    have hm0 : w0.nextSegment ≤ w.nextSegment := g.nextSeg_le
    -- the new segment passes the railway-mesh test
    have hTag : IsRailwaySegment bs ((SegmentPhase h bs i (some q) cur w).Seg w.nextSegment) =
        true := by
      rw [IsRailwaySegment_iff, fMesh, AddSegment_Seg_new_SplineMeshes]
      cases hc : CopyFromSegment (w.CP q) (w.CP cur) with
      | none =>
        have hi : i = 1 := by
          by_contra hne
          exact hconn q rfl hne (CopyFromSegment_none hc).1
        exact ⟨MeshEntry bs, by simp [hi], rfl⟩
      | some c =>
        have hcAlloc : AllocatedSince World.nextSegment w0 w c := by
          rcases CopyFromSegment_some hc with ⟨x, hx, rfl⟩ | ⟨x, hx, rfl⟩
          · exact g.Connected_new q hq x hx
          · exact g.Connected_new cur hcur x hx
        have hne : c ≠ w.nextSegment := Nat.ne_of_lt hcAlloc.2
        obtain ⟨e, he, hmesh⟩ := (IsRailwaySegment_iff bs _).1 (g.Seg_tagged c hcAlloc)
        refine ⟨e, ?_, hmesh⟩
        simp only [if_neg hne, he]
        simp
    refine
      { nextCP_le := by rw [fNC]; exact g.nextCP_le
        nextSeg_le := by rw [fNS]; exact Nat.le_succ_of_le hm0
        ControlPoints_eq := ?_
        Segments_eq := ?_
        Outer_eq := ?_
        Connected_new := ?_
        Connected_exact := ?_
        Seg_ends := ?_
        Seg_tagged := ?_
        Seg_frame := ?_
        CP_frame := ?_
        Components_frame := ?_
        Landscapes_eq := by rw [fLand]; exact g.Landscapes_eq
        nextComponent_eq := by rw [fNComp]; exact g.nextComponent_eq }
    · rw [fComp, AddSegment_Components, hOuter, fNC]
      simp only [Function.update_same]
      exact g.ControlPoints_eq
    · rw [fComp, AddSegment_Components, hOuter, fNS]
      simp only [Function.update_same]
      rw [g.Segments_eq, sub_succ_of_le hm0, range'_snoc, List.append_assoc,
        Nat.add_sub_cancel' hm0]
    · intro p hp
      unfold AllocatedSince at hp
      rw [fNC] at hp
      rw [fCP, AddSegment_CP_Outer]
      exact g.Outer_eq p hp
    · intro p hp c hc
      unfold AllocatedSince at hp ⊢
      rw [fNC] at hp
      rw [fNS]
      rw [fCP, AddSegment_CP_ConnectedSegments] at hc
      rcases List.mem_append.1 hc with hc | hc
      · rcases List.mem_append.1 hc with hc | hc
        · have := g.Connected_new p hp c hc
          exact ⟨this.1, Nat.lt_succ_of_lt this.2⟩
        · split at hc
          · have : c = { Segment := w.nextSegment, End := 0 } := by simpa using hc
            rw [this]; exact ⟨hm0, Nat.lt_succ_self _⟩
          · simp at hc
      · split at hc
        · have : c = { Segment := w.nextSegment, End := 1 } := by simpa using hc
          rw [this]; exact ⟨hm0, Nat.lt_succ_self _⟩
        · simp at hc
    · intro p hp
      unfold AllocatedSince at hp
      rw [fNC] at hp
      have hold : (List.range' w0.nextSegment (w.nextSegment - w0.nextSegment)).flatMap
            (fun s => BackReferences (SegmentPhase h bs i (some q) cur w) s p) =
          (List.range' w0.nextSegment (w.nextSegment - w0.nextSegment)).flatMap
            (fun s => BackReferences w s p) := by
        unfold List.flatMap
        congr 1
        refine List.map_congr_left (fun s hs => ?_)
        have hs' := List.mem_range'_1.1 hs
        have hsn : s ≠ w.nextSegment := by omega
        unfold BackReferences
        rw [fOther s hsn]
      have hnew : BackReferences (SegmentPhase h bs i (some q) cur w) w.nextSegment p =
          (if p = q then [{ Segment := w.nextSegment, End := 0 }] else []) ++
            (if p = cur then [{ Segment := w.nextSegment, End := 1 }] else []) := by
        unfold BackReferences
        rw [fC0, fC1]
        simp only [eq_comm]
      rw [fCP, AddSegment_CP_ConnectedSegments, fNS, sub_succ_of_le hm0, range'_snoc,
        List.flatMap_append, Nat.add_sub_cancel' hm0, g.Connected_exact p hp, hold]
      simp [List.flatMap, hnew]
    · intro s hs
      unfold AllocatedSince at hs ⊢
      rw [fNS] at hs
      rw [fNC]
      by_cases hsn : s = w.nextSegment
      · subst hsn
        rw [fC0, fC1]; exact ⟨hq, hcur⟩
      · rw [fOther s hsn]
        exact g.Seg_ends s ⟨hs.1, by omega⟩
    · intro s hs
      unfold AllocatedSince at hs
      rw [fNS] at hs
      by_cases hsn : s = w.nextSegment
      · subst hsn; exact hTag
      · rw [fOther s hsn]
        exact g.Seg_tagged s ⟨hs.1, by omega⟩
    · intro s hs
      unfold AllocatedSince at hs
      rw [fNS] at hs
      have hsn : s ≠ w.nextSegment := by omega
      rw [fOther s hsn]
      refine g.Seg_frame s (fun hh => hs ?_)
      unfold AllocatedSince at hh
      omega
    · intro p hp
      have hpq : p ≠ q := by have := hq.1; omega
      have hpc : p ≠ cur := by have := hcur.1; omega
      rw [fCP, AddSegment_CP_other h w q cur true true p hpq hpc]
      exact g.CP_frame p hp
    · intro c hc
      rw [fComp, AddSegment_Components, hOuter, Function.update_noteq hc]
      exact g.Components_frame c hc

/-! ### The loop invariant of `Build` -/

theorem CurrentPointPhase_cases (h : Host) (bs : FStreetMapRailwayBuildSettings)
    (comp : CompId) (loc : FVector2D) (N : Int) (prev : Option CPId) (st : BuildState) :
    (∃ p, N ≠ INDEX_NONE ∧ TMapFind st.NodeIndexToControlPointMap N = some p ∧
        CurrentPointPhase h bs comp loc N prev st =
          (st.world, st.NodeIndexToControlPointMap, p, false)) ∨
      ((N ≠ INDEX_NONE → TMapFind st.NodeIndexToControlPointMap N = none) ∧
        CurrentPointPhase h bs comp loc N prev st =
          ((AddControlPoint h st.world comp
              { X := loc.X, Y := loc.Y, Z := GetLandscapeElevation h bs.Landscape loc }
              bs prev).1,
            (if N ≠ INDEX_NONE then TMapAdd st.NodeIndexToControlPointMap N
                st.world.nextControlPoint
              else st.NodeIndexToControlPointMap),
            st.world.nextControlPoint, true)) := by
  unfold CurrentPointPhase
  by_cases hN : N ≠ INDEX_NONE
  · simp only [if_pos hN]
    cases hf : TMapFind st.NodeIndexToControlPointMap N with
    | some p => exact Or.inl ⟨p, hN, rfl, rfl⟩
    | none => exact Or.inr ⟨fun _ => rfl, rfl⟩
  · simp only [if_neg hN]
    exact Or.inr ⟨fun hh => absurd hh hN, rfl⟩

theorem RunInv.start (bs : FStreetMapRailwayBuildSettings) (comp : CompId) (w0 : World) :
    RunInv bs comp w0 { world := w0, NodeIndexToControlPointMap := [], events := [] } where
  graph := GraphInv.init bs comp w0
  map_key := by simp
  ev_find := by simp
  ev_sentinel := by simp
  ev_cur := by simp
  ev_seg := by simp
  ev_index := by simp
  created_list := by simp
  seg_list := by simp
  created_once := by intro N _; simp [TMapFind]
  map_events := by intro N hN; simp [TMapFind] at hN
  chain := List.chain'_nil

theorem SegmentPhase_frame (h : Host) (bs : FStreetMapRailwayBuildSettings) (i : Nat)
    (prev : Option CPId) (cur : CPId) (w : World) :
    (∀ s, s < w.nextSegment → (SegmentPhase h bs i prev cur w).Seg s = w.Seg s) ∧
      (SegmentPhase h bs i prev cur w).nextControlPoint = w.nextControlPoint ∧
      (SegmentPhase h bs i prev cur w).nextSegment =
        w.nextSegment + (if prev.isSome then 1 else 0) := by
  cases prev with
  | none => exact ⟨fun _ _ => rfl, rfl, rfl⟩
  | some q =>
    obtain ⟨_, _, _, fNS, fNC, _, fOther, _⟩ := SegmentPhase_some h bs i q cur w
    exact ⟨fun s hs => fOther s (Nat.ne_of_lt hs), fNC, by simpa using fNS⟩

theorem AllocatedSince.mono {next : World → Nat} {w0 w w' : World} {x : Nat}
    (hx : AllocatedSince next w0 w x) (hle : next w ≤ next w') : AllocatedSince next w0 w' x :=
  ⟨hx.1, Nat.lt_of_lt_of_le hx.2 hle⟩

/-- The invariant survives one iteration, given what the control-point half of
the iteration did to the world and the map. -/
theorem RunInv.extend {bs : FStreetMapRailwayBuildSettings} {comp : CompId} {w0 : World}
    {st : BuildState} (inv : RunInv bs comp w0 st) (h : Host) (Way i : Nat) (N : Int)
    (prev : Option CPId) (pv : PrevInv Way i prev st)
    (w1 : World) (m1 : List (Int × CPId)) (cur : CPId) (created : Bool)
    (g1 : GraphInv bs comp w0 w1)
    (hNS : w1.nextSegment = st.world.nextSegment) (hSeg : w1.Seg = st.world.Seg)
    (hNC : w1.nextControlPoint = st.world.nextControlPoint + (if created then 1 else 0))
    (hcur : AllocatedSince World.nextControlPoint w0 w1 cur)
    (hnew : created = true → cur = st.world.nextControlPoint)
    (hkey : ∀ e ∈ m1, e.1 ≠ INDEX_NONE)
    (hfind : ∀ k, TMapFind m1 k =
      if created = true ∧ N ≠ INDEX_NONE ∧ k = N then some cur
      else TMapFind st.NodeIndexToControlPointMap k)
    (hfindN : N ≠ INDEX_NONE → TMapFind m1 N = some cur)
    (hfresh : created = true → N ≠ INDEX_NONE →
      TMapFind st.NodeIndexToControlPointMap N = none)
    (hsent : N = INDEX_NONE → created = true)
    (hconnF : ∀ q, AllocatedSince World.nextControlPoint w0 st.world q →
      (w1.CP q).ConnectedSegments = (st.world.CP q).ConnectedSegments) :
    RunInv bs comp w0
        { world := SegmentPhase h bs i prev cur w1,
          NodeIndexToControlPointMap := m1,
          events := st.events ++
            [{ Way := Way, PointIndex := i, NodeIndex := N, PreviousPoint := prev,
               CurrentPoint := cur, bCreated := created,
               NewSegment := prev.map (fun _ => w1.nextSegment),
               Inherited := StepInherited h w1 prev cur }] } ∧
      PrevInv Way (i + 1) (some cur)
        { world := SegmentPhase h bs i prev cur w1,
          NodeIndexToControlPointMap := m1,
          events := st.events ++
            [{ Way := Way, PointIndex := i, NodeIndex := N, PreviousPoint := prev,
               CurrentPoint := cur, bCreated := created,
               NewSegment := prev.map (fun _ => w1.nextSegment),
               Inherited := StepInherited h w1 prev cur }] } := by
  obtain ⟨pv0, pv1, pv2⟩ := pv
  have hle1 : st.world.nextControlPoint ≤ w1.nextControlPoint := by rw [hNC]; omega
  obtain ⟨fSeg, fNC, fNS⟩ := SegmentPhase_frame h bs i prev cur w1
  -- the previous point is one of this build's control points
  have hprev : ∀ q, prev = some q → AllocatedSince World.nextControlPoint w0 st.world q := by
    intro q hq
    have hi : i ≠ 0 := fun hi => by rw [pv0 hi] at hq; cases hq
    obtain ⟨e, he, hpe, _, _⟩ := pv1 hi
    have hmem : e ∈ st.events := List.mem_of_getLast?_eq_some he
    rw [hpe] at hq
    cases hq
    exact inv.ev_cur e hmem
  have hconn : ∀ q, prev = some q → i ≠ 1 → (w1.CP q).ConnectedSegments ≠ [] := by
    intro q hq hi1
    have hi : i ≠ 0 := fun hi => by rw [pv0 hi] at hq; cases hq
    rw [hconnF q (hprev q hq)]
    exact pv2 (by omega) q hq
  have g2 := g1.of_SegmentPhase h i prev cur (fun q hq => (hprev q hq).mono hle1) hcur hconn
  have hi_prev : prev = none ↔ i = 0 := by
    constructor
    · intro hp
      by_contra hi
      obtain ⟨e, _, hpe, _⟩ := pv1 hi
      rw [hp] at hpe; cases hpe
    · exact pv0
  refine ⟨?_, ?_⟩
  · refine
      { graph := g2
        map_key := hkey
        ev_find := ?_
        ev_sentinel := ?_
        ev_cur := ?_
        ev_seg := ?_
        ev_index := ?_
        created_list := ?_
        seg_list := ?_
        created_once := ?_
        map_events := ?_
        chain := ?_ }
    · intro e he hne
      rcases List.mem_append.1 he with he | he
      · have hold := inv.ev_find e he hne
        rw [hfind]
        split
        · next hc =>
          rw [hc.2.2, hfresh hc.1 hc.2.1] at hold
          cases hold
        · exact hold
      · have : e = _ := List.mem_singleton.1 he
        subst this
        exact hfindN hne
    · intro e he hs
      rcases List.mem_append.1 he with he | he
      · exact inv.ev_sentinel e he hs
      · have : e = _ := List.mem_singleton.1 he
        subst this
        exact hsent hs
    · intro e he
      rcases List.mem_append.1 he with he | he
      · exact (inv.ev_cur e he).mono (by show _ ≤ (SegmentPhase h bs i prev cur w1).nextControlPoint; rw [fNC]; exact hle1)
      · have : e = _ := List.mem_singleton.1 he
        subst this
        exact hcur.mono (by show _ ≤ (SegmentPhase h bs i prev cur w1).nextControlPoint; rw [fNC])
    · intro e he s hs
      rcases List.mem_append.1 he with he | he
      · obtain ⟨a1, a2, a3, a4⟩ := inv.ev_seg e he s hs
        have hlt : s < w1.nextSegment := by rw [hNS]; exact a1.2
        have hS : (SegmentPhase h bs i prev cur w1).Seg s = st.world.Seg s := by
          rw [fSeg s hlt, hSeg]
        refine ⟨a1.mono ?_, ?_, ?_, ?_⟩
        · show _ ≤ (SegmentPhase h bs i prev cur w1).nextSegment
          rw [fNS, hNS]; omega
        · show e.PreviousPoint = some ((SegmentPhase h bs i prev cur w1).Seg s).Connections0.ControlPoint
          rw [hS]; exact a2
        · show ((SegmentPhase h bs i prev cur w1).Seg s).Connections1.ControlPoint = _
          rw [hS]; exact a3
        · show ((SegmentPhase h bs i prev cur w1).Seg s).SplineMeshes = _
          rw [hS]; exact a4
      · have : e = _ := List.mem_singleton.1 he
        subst this
        cases prev with
        | none => simp at hs
        | some q =>
          have hs' : w1.nextSegment = s := by simpa using hs
          subst hs'
          obtain ⟨_, _, _, gNS, _, _, _, gC0, gC1, gMesh⟩ := SegmentPhase_some h bs i q cur w1
          refine ⟨⟨g1.nextSeg_le, ?_⟩, ?_, gC1, gMesh⟩
          · show w1.nextSegment < (SegmentPhase h bs i (some q) cur w1).nextSegment
            rw [gNS]; exact Nat.lt_succ_self _
          · show some q = some ((SegmentPhase h bs i (some q) cur w1).Seg w1.nextSegment).Connections0.ControlPoint
            rw [gC0]
    · intro e he
      rcases List.mem_append.1 he with he | he
      · exact inv.ev_index e he
      · have : e = _ := List.mem_singleton.1 he
        subst this
        refine ⟨?_, hi_prev⟩
        show Option.map _ prev = none ↔ i = 0
        rw [Option.map_eq_none']; exact hi_prev
    · show (List.filter _ (st.events ++ _)).map _ =
        List.range' _ ((SegmentPhase h bs i prev cur w1).nextControlPoint - _)
      rw [fNC, hNC, List.filter_append, List.map_append, inv.created_list]
      cases created with
      | false => simp
      | true =>
        simp only [if_true, List.filter_cons, List.filter_nil, List.map_cons, List.map_nil]
        rw [sub_succ_of_le inv.graph.nextCP_le, range'_snoc, Nat.add_sub_cancel' inv.graph.nextCP_le,
          hnew rfl]
    · show List.filterMap _ (st.events ++ _) =
        List.range' _ ((SegmentPhase h bs i prev cur w1).nextSegment - _)
      rw [fNS, hNS, List.filterMap_append, inv.seg_list]
      cases prev with
      | none => simp
      | some q =>
        simp only [Option.isSome_some, if_true, List.filterMap_cons, List.filterMap_nil,
          Option.map_some']
        rw [sub_succ_of_le inv.graph.nextSeg_le, range'_snoc,
          Nat.add_sub_cancel' inv.graph.nextSeg_le]
    · intro N' hN'
      show (List.filter _ (st.events ++ _)).length = _
      rw [List.filter_append, List.length_append, inv.created_once N' hN', hfind N']
      by_cases hc : created = true ∧ N ≠ INDEX_NONE ∧ N' = N
      · rw [if_pos hc]
        obtain ⟨hc1, hc2, hc3⟩ := hc
        subst hc3
        simp [hfresh hc1 hc2, hc1]
      · rw [if_neg hc]
        have : (decide (N = N') && created) = false := by
          by_contra hh
          have hh' : (decide (N = N') && created) = true := by simpa using hh
          rw [Bool.and_eq_true, decide_eq_true_eq] at hh'
          exact hc ⟨hh'.2, hh'.1 ▸ hN', hh'.1.symm⟩
        simp [List.filter_cons, this]
    · intro N' hN'
      rw [hfind N'] at hN'
      split at hN'
      · next hc =>
        exact ⟨_, List.mem_append_right _ (List.mem_singleton_self _), hc.2.2.symm⟩
      · obtain ⟨e, he, hen⟩ := inv.map_events N' hN'
        exact ⟨e, List.mem_append_left _ he, hen⟩
    · show List.Chain' EventLink (st.events ++ _)
      rw [List.chain'_append]
      refine ⟨inv.chain, List.chain'_singleton _, ?_⟩
      intro x hx y hy
      simp only [List.head?_cons, Option.mem_def, Option.some.injEq] at hy
      subst hy
      intro hi
      obtain ⟨e, he, hpe, hw, hpi⟩ := pv1 hi
      have hxe : x = e := by
        have := hx
        rw [he] at this
        simpa using this.symm
      subst hxe
      exact ⟨hpe, hw.symm, hpi.symm⟩
  · refine ⟨fun hh => absurd hh (Nat.succ_ne_zero i), fun _ => ?_, fun hi2 q hq => ?_⟩
    · exact ⟨_, List.getLast?_concat _, rfl, rfl, rfl⟩
    · have hq' : cur = q := by simpa using hq
      subst hq'
      have hi : i ≠ 0 := by omega
      cases prev with
      | none => exact absurd (hi_prev.1 rfl) hi
      | some p =>
        obtain ⟨gCP, _⟩ := SegmentPhase_some h bs i p cur w1
        show ((SegmentPhase h bs i (some p) cur w1).CP cur).ConnectedSegments ≠ []
        rw [gCP, AddSegment_CP_ConnectedSegments]
        simp

theorem RunInv.find_allocated {bs : FStreetMapRailwayBuildSettings} {comp : CompId}
    {w0 : World} {st : BuildState} (inv : RunInv bs comp w0 st) {N : Int} {p : CPId}
    (hf : TMapFind st.NodeIndexToControlPointMap N = some p) :
    AllocatedSince World.nextControlPoint w0 st.world p := by
  obtain ⟨e, he, hen⟩ := inv.map_events N (by rw [hf]; rfl)
  have hN : N ≠ INDEX_NONE := inv.map_key _ (TMapFind_some_mem hf)
  have := inv.ev_find e he (by rw [hen]; exact hN)
  rw [hen, hf] at this
  cases this
  exact inv.ev_cur e he

/-- The invariant survives one iteration of the point loop. -/
theorem RunInv.step {bs : FStreetMapRailwayBuildSettings} {comp : CompId} {w0 : World}
    {st : BuildState} (inv : RunInv bs comp w0 st) (h : Host) (Way i : Nat) (loc : FVector2D)
    (N : Int) (prev : Option CPId) (pv : PrevInv Way i prev st) :
    RunInv bs comp w0 (PointBody h bs comp Way i loc N prev st).1 ∧
      PrevInv Way (i + 1) (some (PointBody h bs comp Way i loc N prev st).2)
        (PointBody h bs comp Way i loc N prev st).1 := by
  rw [PointBody_eq]
  unfold StepEvent
  rcases CurrentPointPhase_cases h bs comp loc N prev st with ⟨p, hN, hf, hr⟩ | ⟨hf, hr⟩
  · rw [hr]
    refine inv.extend h Way i N prev pv st.world st.NodeIndexToControlPointMap p false
      inv.graph rfl rfl (by simp) (inv.find_allocated hf) (by simp) inv.map_key ?_ (fun _ => hf)
      (by simp) (fun hh => absurd hh hN) (fun _ _ => rfl)
    intro k
    simp
  · rw [hr]
    have hconnF : ∀ q, AllocatedSince World.nextControlPoint w0 st.world q →
        ((AddControlPoint h st.world comp
            { X := loc.X, Y := loc.Y, Z := GetLandscapeElevation h bs.Landscape loc }
            bs prev).1.CP q).ConnectedSegments = (st.world.CP q).ConnectedSegments := by
      intro q hq
      rw [AddControlPoint_CP_other _ _ _ _ _ _ q (Nat.ne_of_lt hq.2)]
    refine inv.extend h Way i N prev pv _ _ st.world.nextControlPoint true
      (inv.graph.of_AddControlPoint h _ prev) (AddControlPoint_nextSegment _ _ _ _ _ _)
      (AddControlPoint_Seg _ _ _ _ _ _)
      (by rw [AddControlPoint_nextControlPoint]; simp) ?_ (fun _ => rfl) ?_ ?_ ?_
      (fun _ hN => hf hN) (fun _ => rfl) hconnF
    · refine ⟨inv.graph.nextCP_le, ?_⟩
      show _ < (AddControlPoint _ _ _ _ _ _).1.nextControlPoint
      rw [AddControlPoint_nextControlPoint]; exact Nat.lt_succ_self _
    · intro e he
      by_cases hN : N ≠ INDEX_NONE
      · rw [if_pos hN, mem_TMapAdd] at he
        rcases he with he | he
        · exact inv.map_key e he.1
        · rw [he]; exact hN
      · rw [if_neg hN] at he
        exact inv.map_key e he
    · intro k
      by_cases hN : N ≠ INDEX_NONE
      · rw [if_pos hN]
        by_cases hk : k = N
        · subst hk
          rw [TMapFind_TMapAdd_same]; simp [hN]
        · rw [TMapFind_TMapAdd_other _ _ _ _ hk]; simp [hk]
      · rw [if_neg hN]; simp [hN]
    · intro hN
      rw [if_pos hN, TMapFind_TMapAdd_same]

/-! ### The loops of `Build` -/

theorem PointLoop_inv (h : Host) (bs : FStreetMapRailwayBuildSettings) (comp : CompId)
    (w0 : World) (Way : Nat) (R : FStreetMapRailway)
    (hcover : R.Points.length ≤ R.NodeIndices.length) :
    ∀ (n i : Nat) (prev : Option CPId) (st : BuildState),
      RunInv bs comp w0 st → PrevInv Way i prev st → i + n = R.Points.length →
      ∃ st', PointLoop h bs comp Way R n i prev st = some st' ∧ RunInv bs comp w0 st' ∧
        ∃ evs, st'.events = st.events ++ evs ∧
          evs.map BuildEvent.key =
            (List.range' i n).map (fun j => (Way, j, R.NodeIndices.getD j INDEX_NONE)) := by
  intro n
  induction n with
  | zero =>
    intro i prev st inv _ _
    exact ⟨st, rfl, inv, [], by simp, by simp⟩
  | succ n ih =>
    intro i prev st inv pv hlen
    have hi : i < R.Points.length := by omega
    have hi' : i < R.NodeIndices.length := by omega
    have hP : R.Points[i]? = some R.Points[i] := List.getElem?_eq_getElem hi
    have hN : R.NodeIndices[i]? = some R.NodeIndices[i] := List.getElem?_eq_getElem hi'
    simp only [PointLoop, hP, hN]
    obtain ⟨inv', pv'⟩ := inv.step h Way i R.Points[i] R.NodeIndices[i] prev pv
    obtain ⟨st', hrun, hinv, evs, hev, hkeys⟩ :=
      ih (i + 1) (some (PointBody h bs comp Way i R.Points[i] R.NodeIndices[i] prev st).2)
        (PointBody h bs comp Way i R.Points[i] R.NodeIndices[i] prev st).1 inv' pv' (by omega)
    refine ⟨st', hrun, hinv,
      StepEvent h bs comp Way i R.Points[i] R.NodeIndices[i] prev st :: evs, ?_, ?_⟩
    · rw [hev, PointBody_eq]
      simp
    · rw [List.map_cons, hkeys, List.range'_succ, List.map_cons]
      congr 1
      simp [BuildEvent.key, StepEvent, List.getD_eq_getElem?_getD, hN]

theorem RailwayLoop_inv (h : Host) (bs : FStreetMapRailwayBuildSettings) (comp : CompId)
    (w0 : World) :
    ∀ (rws : List FStreetMapRailway) (Way : Nat) (st : BuildState),
      NodeIndicesCover rws → RunInv bs comp w0 st →
      ∃ st', RailwayLoop h bs comp Way rws st = some st' ∧ RunInv bs comp w0 st' ∧
        ∃ evs, st'.events = st.events ++ evs ∧ evs.map BuildEvent.key = InputKeys Way rws := by
  intro rws
  induction rws with
  | nil =>
    intro Way st _ inv
    exact ⟨st, rfl, inv, [], by simp, by simp [InputKeys]⟩
  | cons R rest ih =>
    intro Way st hcover inv
    have hR : R.Points.length ≤ R.NodeIndices.length := hcover R (by simp)
    have hrest : NodeIndicesCover rest := fun r hr => hcover r (by simp [hr])
    have pv : PrevInv Way 0 none st :=
      ⟨fun _ => rfl, fun hh => absurd rfl hh, fun hh => absurd hh (by omega)⟩
    obtain ⟨st1, hrun1, inv1, evs1, hev1, hkeys1⟩ :=
      PointLoop_inv h bs comp w0 Way R hR R.Points.length 0 none st inv pv (by omega)
    obtain ⟨st2, hrun2, inv2, evs2, hev2, hkeys2⟩ := ih (Way + 1) st1 hrest inv1
    refine ⟨st2, ?_, inv2, evs1 ++ evs2, ?_, ?_⟩
    · simp only [RailwayLoop, RailwayBody, hrun1]
      exact hrun2
    · rw [hev2, hev1, List.append_assoc]
    · rw [List.map_append, hkeys1, hkeys2, InputKeys, WayKeys, List.range_eq_range']

/-- Function `Build` runs to completion whenever every way has a node identifier for
each point, and its final loop variables satisfy the loop invariant. -/
theorem BuildRun_inv (h : Host) (w : World) (rws : List FStreetMapRailway)
    (bs : FStreetMapRailwayBuildSettings) (hcover : NodeIndicesCover rws) :
    ∃ st, BuildRun h w rws bs = some st ∧
      RunInv bs (BuildStart h w bs).2 (CleanedWorld h w bs) st ∧
      st.events.map BuildEvent.key = InputKeys 0 rws := by
  obtain ⟨st, hrun, inv, evs, hev, hkeys⟩ :=
    RailwayLoop_inv h bs (BuildStart h w bs).2 (BuildStart h w bs).1.world rws 0
      (BuildStart h w bs).1 hcover (RunInv.start bs _ _)
  refine ⟨st, hrun, inv, ?_⟩
  have : (BuildStart h w bs).1.events = [] := rfl
  rw [hev, this, List.nil_append, hkeys]

theorem RunInv.ControlPoints_ledger {bs : FStreetMapRailwayBuildSettings} {comp : CompId}
    {w0 : World} {st : BuildState} (inv : RunInv bs comp w0 st) :
    (st.world.Components comp).ControlPoints =
      (w0.Components comp).ControlPoints ++
        (st.events.filter (fun e => e.bCreated)).map (fun e => e.CurrentPoint) := by
  rw [inv.created_list, inv.graph.ControlPoints_eq]

theorem RunInv.Segments_ledger {bs : FStreetMapRailwayBuildSettings} {comp : CompId}
    {w0 : World} {st : BuildState} (inv : RunInv bs comp w0 st) :
    (st.world.Components comp).Segments =
      (w0.Components comp).Segments ++ st.events.filterMap (fun e => e.NewSegment) := by
  rw [inv.seg_list, inv.graph.Segments_eq]

theorem RunInv.link {bs : FStreetMapRailwayBuildSettings} {comp : CompId}
    {w0 : World} {st : BuildState} (inv : RunInv bs comp w0 st) (i : Nat)
    (hi : i + 1 < st.events.length) (s : SegId)
    (hs : st.events[i + 1].NewSegment = some s) :
    (st.world.Seg s).Connections0.ControlPoint = st.events[i].CurrentPoint ∧
      st.events[i + 1].Way = st.events[i].Way ∧
      st.events[i + 1].PointIndex = st.events[i].PointIndex + 1 := by
  have hmem : st.events[i + 1] ∈ st.events := List.getElem_mem _
  have hne : st.events[i + 1].PointIndex ≠ 0 := by
    intro h0
    rw [((inv.ev_index _ hmem).1).2 h0] at hs
    cases hs
  have hchain := (List.chain'_iff_get.1 inv.chain) i (by omega)
  obtain ⟨hp, hw, hpi⟩ := hchain hne
  obtain ⟨_, hc0, _⟩ := inv.ev_seg _ hmem s hs
  refine ⟨?_, hw, hpi⟩
  have : some (st.world.Seg s).Connections0.ControlPoint = some st.events[i].CurrentPoint := by
    rw [← hc0]; exact hp
  exact Option.some.inj this

/-! ### The start of `Build` -/

theorem ConditionallyCreateSplineComponent_spec (h : Host) (w : World) (L : LandscapeId)
    (scale : FVector) :
    ((ConditionallyCreateSplineComponent h w L scale).1.Landscapes L).SplineComponent =
        some (ConditionallyCreateSplineComponent h w L scale).2 ∧
      ((ConditionallyCreateSplineComponent h w L scale).1.Components
          (ConditionallyCreateSplineComponent h w L scale).2).ControlPoints =
        w.ControlPointsOf L ∧
      ((ConditionallyCreateSplineComponent h w L scale).1.Components
          (ConditionallyCreateSplineComponent h w L scale).2).Segments = w.SegmentsOf L ∧
      (ConditionallyCreateSplineComponent h w L scale).1.CP = w.CP ∧
      (ConditionallyCreateSplineComponent h w L scale).1.Seg = w.Seg ∧
      (ConditionallyCreateSplineComponent h w L scale).1.nextControlPoint =
        w.nextControlPoint ∧
      (ConditionallyCreateSplineComponent h w L scale).1.nextSegment = w.nextSegment := by
  unfold ConditionallyCreateSplineComponent World.ControlPointsOf World.SegmentsOf
  cases hc : (w.Landscapes L).SplineComponent with
  | none => simp
  | some c => simp [World.setComponent, hc]

theorem BuildStart_spec (h : Host) (w : World) (bs : FStreetMapRailwayBuildSettings) :
    ((CleanedWorld h w bs).Landscapes bs.Landscape).SplineComponent =
        some (BuildStart h w bs).2 ∧
      (CleanedWorld h w bs).ControlPointsOf bs.Landscape =
        ((CleanedWorld h w bs).Components (BuildStart h w bs).2).ControlPoints ∧
      (CleanedWorld h w bs).SegmentsOf bs.Landscape =
        ((CleanedWorld h w bs).Components (BuildStart h w bs).2).Segments ∧
      (CleanedWorld h w bs).CP = w.CP ∧
      (CleanedWorld h w bs).Seg = w.Seg ∧
      (CleanedWorld h w bs).nextControlPoint = w.nextControlPoint ∧
      (CleanedWorld h w bs).nextSegment = w.nextSegment ∧
      ((CleanedWorld h w bs).SegmentsOf bs.Landscape).Perm
        ((w.SegmentsOf bs.Landscape).filter (fun s => !IsRailwaySegment bs (w.Seg s))) ∧
      (∀ p, p ∈ (CleanedWorld h w bs).ControlPointsOf bs.Landscape →
        p ∈ w.ControlPointsOf bs.Landscape) := by
  obtain ⟨c1, c2, c3, c4, c5, c6, c7⟩ :=
    ConditionallyCreateSplineComponent_spec h w bs.Landscape (h.SplineScaleXYZ bs.Landscape)
  have hL : ((CleanedWorld h w bs).Landscapes bs.Landscape).SplineComponent =
      some (BuildStart h w bs).2 := c1
  have hCP : (CleanedWorld h w bs).ControlPointsOf bs.Landscape =
      ((CleanedWorld h w bs).Components (BuildStart h w bs).2).ControlPoints := by
    unfold World.ControlPointsOf; rw [hL]
  have hSeg : (CleanedWorld h w bs).SegmentsOf bs.Landscape =
      ((CleanedWorld h w bs).Components (BuildStart h w bs).2).Segments := by
    unfold World.SegmentsOf; rw [hL]
  refine ⟨hL, hCP, hSeg, c4, c5, c6, c7, ?_, ?_⟩
  · rw [hSeg]
    have := CleanOldRailways_segments_perm
      (ConditionallyCreateSplineComponent h w bs.Landscape (h.SplineScaleXYZ bs.Landscape)).1
      (ConditionallyCreateSplineComponent h w bs.Landscape (h.SplineScaleXYZ bs.Landscape)).2 bs
    rw [c3, c5] at this
    exact this
  · intro p hp
    rw [hCP] at hp
    have := (CleanOldRailways_controlPoints_perm
      (ConditionallyCreateSplineComponent h w bs.Landscape (h.SplineScaleXYZ bs.Landscape)).1
      (ConditionallyCreateSplineComponent h w bs.Landscape (h.SplineScaleXYZ bs.Landscape)).2
      bs).mem_iff.1 hp
    rw [c2] at this
    exact (List.mem_filter.1 this).1

theorem RunInv.graphOf {bs : FStreetMapRailwayBuildSettings} {h : Host} {w : World}
    {st : BuildState} (inv : RunInv bs (BuildStart h w bs).2 (CleanedWorld h w bs) st) :
    st.world.ControlPointsOf bs.Landscape =
        (CleanedWorld h w bs).ControlPointsOf bs.Landscape ++
          (st.events.filter (fun e => e.bCreated)).map (fun e => e.CurrentPoint) ∧
      st.world.SegmentsOf bs.Landscape =
        (CleanedWorld h w bs).SegmentsOf bs.Landscape ++
          st.events.filterMap (fun e => e.NewSegment) := by
  obtain ⟨hL, hCP, hSeg, _⟩ := BuildStart_spec h w bs
  have hL' : (st.world.Landscapes bs.Landscape).SplineComponent = some (BuildStart h w bs).2 := by
    rw [inv.graph.Landscapes_eq]; exact hL
  constructor
  · rw [hCP, ← inv.ControlPoints_ledger]
    unfold World.ControlPointsOf; rw [hL']
  · rw [hSeg, ← inv.Segments_ledger]
    unfold World.SegmentsOf; rw [hL']

/-! ## The claims -/

/-- C1: for every node identifier `N` other than `INDEX_NONE`, one run of
`Build` calls `AddControlPoint` at most once for points carrying `N`, exactly
once when some point carries `N`; all points carrying `N` get the same control
point; the segment created at such a point ends (connection 1) at that control
point and the segment created at the following point starts (connection 0) at
it.  The events are the input points in order, and the created control points
and segments are exactly what the run appended to the graph. -/
theorem C1_one_control_point_per_node_identifier (h : Host) (w : World)
    (rws : List FStreetMapRailway) (bs : FStreetMapRailwayBuildSettings)
    (hcover : NodeIndicesCover rws) (N : Int) (hN : N ≠ INDEX_NONE) :
    ∃ st, BuildRun h w rws bs = some st ∧
      st.events.map BuildEvent.key = InputKeys 0 rws ∧
      st.world.ControlPointsOf bs.Landscape =
        (CleanedWorld h w bs).ControlPointsOf bs.Landscape ++
          (st.events.filter (fun e => e.bCreated)).map (fun e => e.CurrentPoint) ∧
      st.world.SegmentsOf bs.Landscape =
        (CleanedWorld h w bs).SegmentsOf bs.Landscape ++
          st.events.filterMap (fun e => e.NewSegment) ∧
      (st.events.filter (fun e => decide (e.NodeIndex = N) && e.bCreated)).length ≤ 1 ∧
      ((∃ e ∈ st.events, e.NodeIndex = N) →
        (st.events.filter (fun e => decide (e.NodeIndex = N) && e.bCreated)).length = 1) ∧
      (∀ e1 ∈ st.events, ∀ e2 ∈ st.events, e1.NodeIndex = N → e2.NodeIndex = N →
        e1.CurrentPoint = e2.CurrentPoint) ∧
      (∀ e ∈ st.events, e.NodeIndex = N → ∀ s, e.NewSegment = some s →
        (st.world.Seg s).Connections1.ControlPoint = e.CurrentPoint) ∧
      (∀ (i : Nat) (hi : i + 1 < st.events.length), st.events[i].NodeIndex = N →
        ∀ s, st.events[i + 1].NewSegment = some s →
          (st.world.Seg s).Connections0.ControlPoint = st.events[i].CurrentPoint) := by
  obtain ⟨st, hrun, inv, hkeys⟩ := BuildRun_inv h w rws bs hcover
  have hfind : ∀ e ∈ st.events, e.NodeIndex = N →
      TMapFind st.NodeIndexToControlPointMap N = some e.CurrentPoint := by
    intro e he hen
    have := inv.ev_find e he (by rw [hen]; exact hN)
    rwa [hen] at this
  refine ⟨st, hrun, hkeys, inv.graphOf.1, inv.graphOf.2, ?_, ?_, ?_, ?_, ?_⟩
  · rw [inv.created_once N hN]; split <;> simp
  · rintro ⟨e, he, hen⟩
    rw [inv.created_once N hN, hfind e he hen]; rfl
  · intro e1 he1 e2 he2 h1 h2
    have := (hfind e1 he1 h1).symm.trans (hfind e2 he2 h2)
    exact Option.some.inj this
  · intro e he _ s hs
    exact (inv.ev_seg e he s hs).2.2.1
  · intro i hi _ s hs
    exact (inv.link i hi s hs).1

theorem C1_witness :
    NodeIndicesCover [Example.wayA, Example.wayB] ∧ (7 : Int) ≠ INDEX_NONE ∧
      ∃ st, BuildRun Example.host Example.emptyWorld [Example.wayA, Example.wayB]
          Example.settings = some st ∧
        (st.events.filter (fun e => decide (e.NodeIndex = 7) && e.bCreated)).length ≤ 1 ∧
        (∀ e1 ∈ st.events, ∀ e2 ∈ st.events, e1.NodeIndex = 7 → e2.NodeIndex = 7 →
          e1.CurrentPoint = e2.CurrentPoint) := by
  have hc : NodeIndicesCover [Example.wayA, Example.wayB] := by decide
  have hn : (7 : Int) ≠ INDEX_NONE := by decide
  obtain ⟨st, h1, _, _, _, h5, _, h7, _⟩ :=
    C1_one_control_point_per_node_identifier Example.host Example.emptyWorld
      [Example.wayA, Example.wayB] Example.settings hc 7 hn
  exact ⟨hc, hn, st, h1, h5, h7⟩

/-- Events created at different positions have different control points. -/
theorem RunInv.created_injective {bs : FStreetMapRailwayBuildSettings} {comp : CompId}
    {w0 : World} {st : BuildState} (inv : RunInv bs comp w0 st) (i j : Nat)
    (hi : i < st.events.length) (hj : j < st.events.length) (hij : i ≠ j)
    (ci : st.events[i].bCreated = true) (cj : st.events[j].bCreated = true) :
    st.events[i].CurrentPoint ≠ st.events[j].CurrentPoint := by
  have hnd : ((st.events.filter (fun e => e.bCreated)).map (fun e => e.CurrentPoint)).Nodup := by
    rw [inv.created_list]; exact List.nodup_range' _ _
  have hpw : st.events.Pairwise
      (fun a b => a.bCreated = true → b.bCreated = true → a.CurrentPoint ≠ b.CurrentPoint) := by
    have h1 := List.pairwise_map.1 hnd
    have h2 := (List.pairwise_filter (p := fun e : BuildEvent => e.bCreated = true)
      (R := fun a b => a.CurrentPoint ≠ b.CurrentPoint) (l := st.events)).1
      (by simpa using h1)
    exact h2
  rw [List.pairwise_iff_getElem] at hpw
  rcases Nat.lt_or_gt_of_ne hij with hlt | hgt
  · exact hpw i j hi hj hlt ci cj
  · exact fun heq => hpw j i hj hi hgt cj ci heq.symm

/-- C2: every point whose node identifier is `INDEX_NONE` gets a control point
of its own from `AddControlPoint`: it occurs exactly once in the control-point
array of the graph (given that the array held only allocated addresses before
the run), no other point of the input uses it, even one at the same location,
and `INDEX_NONE` is not a key of the node-index map. -/
theorem C2_sentinel_points_get_fresh_control_points (h : Host) (w : World)
    (rws : List FStreetMapRailway) (bs : FStreetMapRailwayBuildSettings)
    (hcover : NodeIndicesCover rws)
    (halloc : ∀ p ∈ w.ControlPointsOf bs.Landscape, p < w.nextControlPoint) :
    ∃ st, BuildRun h w rws bs = some st ∧
      st.events.map BuildEvent.key = InputKeys 0 rws ∧
      st.world.ControlPointsOf bs.Landscape =
        (CleanedWorld h w bs).ControlPointsOf bs.Landscape ++
          (st.events.filter (fun e => e.bCreated)).map (fun e => e.CurrentPoint) ∧
      (∀ e ∈ st.NodeIndexToControlPointMap, e.1 ≠ INDEX_NONE) ∧
      ∀ (i : Nat) (hi : i < st.events.length), st.events[i].NodeIndex = INDEX_NONE →
        st.events[i].bCreated = true ∧
          (st.world.ControlPointsOf bs.Landscape).count st.events[i].CurrentPoint = 1 ∧
          ∀ (j : Nat) (hj : j < st.events.length), j ≠ i →
            st.events[j].CurrentPoint ≠ st.events[i].CurrentPoint := by
  obtain ⟨st, hrun, inv, hkeys⟩ := BuildRun_inv h w rws bs hcover
  obtain ⟨_, _, _, _, _, hnc, _, _, hsub⟩ := BuildStart_spec h w bs
  refine ⟨st, hrun, hkeys, inv.graphOf.1, inv.map_key, ?_⟩
  intro i hi hsent
  have hmem : st.events[i] ∈ st.events := List.getElem_mem _
  have hci : st.events[i].bCreated = true := inv.ev_sentinel _ hmem hsent
  refine ⟨hci, ?_, ?_⟩
  · rw [inv.graphOf.1, List.count_append]
    have h0 : ((CleanedWorld h w bs).ControlPointsOf bs.Landscape).count
        st.events[i].CurrentPoint = 0 := by
      refine List.count_eq_zero.2 (fun hin => ?_)
      have h1 := halloc _ (hsub _ hin)
      have h2 : (CleanedWorld h w bs).nextControlPoint ≤ st.events[i].CurrentPoint :=
        (inv.ev_cur _ hmem).1
      rw [hnc] at h2
      exact Nat.lt_irrefl _ (Nat.lt_of_lt_of_le h1 h2)
    have h1 : ((st.events.filter (fun e => e.bCreated)).map (fun e => e.CurrentPoint)).count
        st.events[i].CurrentPoint = 1 := by
      refine List.count_eq_one_of_mem ?_ ?_
      · rw [inv.created_list]; exact List.nodup_range' _ _
      · exact List.mem_map.2 ⟨_, List.mem_filter.2 ⟨hmem, hci⟩, rfl⟩
    rw [h0, h1]
  · intro j hj hji heq
    have hmemj : st.events[j] ∈ st.events := List.getElem_mem _
    by_cases hcj : st.events[j].bCreated = true
    · exact inv.created_injective j i hj hi hji hcj hci heq
    · have hNj : st.events[j].NodeIndex ≠ INDEX_NONE :=
        fun hs => hcj (inv.ev_sentinel _ hmemj hs)
      have hfj := inv.ev_find _ hmemj hNj
      have hone := inv.created_once _ hNj
      rw [hfj] at hone
      have hpos : 0 < (st.events.filter
          (fun e => decide (e.NodeIndex = st.events[j].NodeIndex) && e.bCreated)).length := by
        rw [hone]; exact Nat.one_pos
      obtain ⟨e, he⟩ := List.exists_mem_of_length_pos hpos
      obtain ⟨hek, hprop⟩ := List.mem_filter.1 he
      rw [Bool.and_eq_true, decide_eq_true_eq] at hprop
      obtain ⟨k, hk, hke⟩ := List.getElem_of_mem hek
      subst hke
      have hfk := inv.ev_find _ hek (by rw [hprop.1]; exact hNj)
      rw [hprop.1, hfj] at hfk
      have hcur : st.events[k].CurrentPoint = st.events[i].CurrentPoint := by
        rw [← Option.some.inj hfk]; exact heq
      have hki : k ≠ i := by
        intro hki
        subst hki
        exact hNj (hprop.1 ▸ hsent)
      exact inv.created_injective k i hk hi hki hprop.2 hci hcur

theorem C2_witness :
    NodeIndicesCover [Example.wayA, Example.wayB] ∧
      (∀ p ∈ Example.emptyWorld.ControlPointsOf Example.settings.Landscape,
        p < Example.emptyWorld.nextControlPoint) ∧
      ∃ st, BuildRun Example.host Example.emptyWorld [Example.wayA, Example.wayB]
          Example.settings = some st ∧
        ∀ e ∈ st.NodeIndexToControlPointMap, e.1 ≠ INDEX_NONE := by
  have hc : NodeIndicesCover [Example.wayA, Example.wayB] := by decide
  have ha : ∀ p ∈ Example.emptyWorld.ControlPointsOf Example.settings.Landscape,
      p < Example.emptyWorld.nextControlPoint := by
    intro p hp
    simp [World.ControlPointsOf, Example.emptyWorld] at hp
  obtain ⟨st, h1, _, _, h4, _⟩ :=
    C2_sentinel_points_get_fresh_control_points Example.host Example.emptyWorld
      [Example.wayA, Example.wayB] Example.settings hc ha
  exact ⟨hc, ha, st, h1, h4⟩

theorem mem_InputKeys (rws : List FStreetMapRailway) :
    ∀ (Way k : Nat) (hk : k < rws.length) (j : Nat), j < rws[k].Points.length →
      (Way + k, j, rws[k].NodeIndices.getD j INDEX_NONE) ∈ InputKeys Way rws := by
  induction rws with
  | nil => intro Way k hk; simp at hk
  | cons R rest ih =>
    intro Way k hk j hj
    cases k with
    | zero =>
      simp only [InputKeys, List.mem_append]
      left
      simp only [WayKeys, List.mem_map, List.mem_range]
      exact ⟨j, by simpa using hj, by simp⟩
    | succ k =>
      simp only [InputKeys, List.mem_append]
      right
      have := ih (Way + 1) k (by simpa using hk) j (by simpa using hj)
      simpa [Nat.add_assoc, Nat.add_comm 1 k] using this

/-- C10: for every way with at least two points `Build` creates a segment at
point index 1, and that segment ends the run with the single railway line mesh
entry when `AddSegment` returned it with an empty mesh list, and with exactly
the list `AddSegment` gave it otherwise (`Inherited` is the mesh list of the
new segment in the world `AddSegment` returned); its mesh list is never empty. -/
theorem C10_first_segment_mesh_list (h : Host) (w : World) (rws : List FStreetMapRailway)
    (bs : FStreetMapRailwayBuildSettings) (hcover : NodeIndicesCover rws) :
    ∃ st, BuildRun h w rws bs = some st ∧
      st.events.map BuildEvent.key = InputKeys 0 rws ∧
      (∀ (k : Nat) (hk : k < rws.length), 2 ≤ rws[k].Points.length →
        ∃ e ∈ st.events, e.Way = k ∧ e.PointIndex = 1) ∧
      (∀ e ∈ st.events, e.PointIndex = 1 →
        ∃ s, e.NewSegment = some s ∧ s ∈ st.world.SegmentsOf bs.Landscape ∧
          (st.world.Seg s).SplineMeshes =
            (if e.Inherited = [] then [MeshEntry bs] else e.Inherited) ∧
          (st.world.Seg s).SplineMeshes ≠ []) ∧
      (MeshEntry bs).Mesh = bs.RailwayLineMesh ∧ (MeshEntry bs).bScaleToWidth = false ∧
      (MeshEntry bs).ForwardAxis = bs.ForwardAxis ∧ (MeshEntry bs).UpAxis = bs.UpAxis ∧
      (MeshEntry bs).Scale = { X := 1, Y := 1, Z := 1 } := by
  obtain ⟨st, hrun, inv, hkeys⟩ := BuildRun_inv h w rws bs hcover
  refine ⟨st, hrun, hkeys, ?_, ?_, rfl, rfl, rfl, rfl, rfl⟩
  · intro k hk h2
    have hm := mem_InputKeys rws 0 k hk 1 (by omega)
    rw [← hkeys, List.mem_map] at hm
    obtain ⟨e, he, hek⟩ := hm
    refine ⟨e, he, ?_, ?_⟩
    · have := congrArg Prod.fst hek
      simpa [BuildEvent.key] using this
    · have := congrArg (fun x => x.2.1) hek
      simpa [BuildEvent.key] using this
  · intro e he h1
    cases hs : e.NewSegment with
    | none =>
      have := ((inv.ev_index e he).1).1 hs
      omega
    | some s =>
      obtain ⟨_, _, _, hmesh⟩ := inv.ev_seg e he s hs
      have hval : (st.world.Seg s).SplineMeshes =
          (if e.Inherited = [] then [MeshEntry bs] else e.Inherited) := by
        rw [hmesh]
        by_cases hi : e.Inherited = []
        · simp [h1, hi]
        · simp [hi]
      refine ⟨s, rfl, ?_, hval, ?_⟩
      · rw [inv.graphOf.2]
        exact List.mem_append_right _ (List.mem_filterMap.2 ⟨e, he, hs⟩)
      · rw [hval]
        split
        · simp
        · assumption

theorem C10_witness :
    NodeIndicesCover [Example.wayA, Example.wayB] ∧
      ∃ st, BuildRun Example.host Example.emptyWorld [Example.wayA, Example.wayB]
          Example.settings = some st ∧
        ∀ e ∈ st.events, e.PointIndex = 1 →
          ∃ s, e.NewSegment = some s ∧ (st.world.Seg s).SplineMeshes ≠ [] := by
  have hc : NodeIndicesCover [Example.wayA, Example.wayB] := by decide
  obtain ⟨st, h1, _, _, h4, _⟩ :=
    C10_first_segment_mesh_list Example.host Example.emptyWorld
      [Example.wayA, Example.wayB] Example.settings hc
  refine ⟨hc, st, h1, fun e he hi => ?_⟩
  obtain ⟨s, hs, _, _, hne⟩ := h4 e he hi
  exact ⟨s, hs, hne⟩

/-! ### Processing one way inside a run -/

theorem RailwayLoop_append (h : Host) (bs : FStreetMapRailwayBuildSettings) (comp : CompId)
    (pre post : List FStreetMapRailway) :
    ∀ (Way : Nat) (st : BuildState),
      RailwayLoop h bs comp Way (pre ++ post) st =
        (RailwayLoop h bs comp Way pre st).bind
          (RailwayLoop h bs comp (Way + pre.length) post) := by
  induction pre with
  | nil => intro Way st; simp [RailwayLoop]
  | cons R rest ih =>
    intro Way st
    simp only [List.cons_append, RailwayLoop, List.length_cons]
    cases hb : RailwayBody h bs comp Way R st with
    | none => simp
    | some st1 =>
      have e1 : Way + (rest.length + 1) = Way + 1 + rest.length := by omega
      rw [e1]
      exact ih (Way + 1) st1

theorem RailwayLoop_cons (h : Host) (bs : FStreetMapRailwayBuildSettings) (comp : CompId)
    (Way : Nat) (R : FStreetMapRailway) (rest : List FStreetMapRailway) (st : BuildState) :
    RailwayLoop h bs comp Way (R :: rest) st =
      (RailwayBody h bs comp Way R st).bind (RailwayLoop h bs comp (Way + 1) rest) := by
  simp only [RailwayLoop]
  cases RailwayBody h bs comp Way R st <;> rfl

theorem BuildRun_append (h : Host) (w : World) (bs : FStreetMapRailwayBuildSettings)
    (pre : List FStreetMapRailway) (R : FStreetMapRailway) (post : List FStreetMapRailway) :
    BuildRun h w (pre ++ R :: post) bs =
      ((BuildRun h w pre bs).bind (RailwayBody h bs (BuildStart h w bs).2 pre.length R)).bind
        (RailwayLoop h bs (BuildStart h w bs).2 (pre.length + 1) post) := by
  unfold BuildRun
  simp only []
  rw [RailwayLoop_append]
  cases RailwayLoop h bs (BuildStart h w bs).2 0 pre (BuildStart h w bs).1 with
  | none => rfl
  | some st1 =>
    simp only [Option.some_bind, Nat.zero_add]
    rw [RailwayLoop_cons]

theorem length_filterMap_of_isSome_iff {α β : Type} (f : α → Option β) (p : α → Bool)
    (l : List α) (hp : ∀ e ∈ l, (f e).isSome = p e) :
    (l.filterMap f).length = (l.filter p).length := by
  induction l with
  | nil => rfl
  | cons a l ih =>
    have ha := hp a (by simp)
    have ih' := ih (fun e he => hp e (by simp [he]))
    cases hfa : f a with
    | none =>
      rw [hfa] at ha
      simp [List.filterMap_cons, hfa, List.filter_cons, ← ha, ih']
    | some b =>
      rw [hfa] at ha
      simp [List.filterMap_cons, hfa, List.filter_cons, ← ha, ih']

theorem length_filter_ne_zero_range (N : Nat) :
    ((List.range N).filter (fun j => decide (j ≠ 0))).length = N - 1 := by
  induction N with
  | zero => rfl
  | succ N ih =>
    rw [List.range_succ, List.filter_append, List.length_append, ih]
    cases N with
    | zero => rfl
    | succ N => simp

theorem WayKeys_segments (Way : Nat) (R : FStreetMapRailway) :
    ((WayKeys Way R).filter (fun k => decide (k.2.1 ≠ 0))).length = R.Points.length - 1 := by
  unfold WayKeys
  rw [List.filter_map, List.length_map]
  exact length_filter_ne_zero_range _

theorem InputKeys_segments (rws : List FStreetMapRailway) :
    ∀ Way, ((InputKeys Way rws).filter (fun k => decide (k.2.1 ≠ 0))).length =
      (rws.map (fun r => r.Points.length - 1)).sum := by
  induction rws with
  | nil => intro Way; rfl
  | cons R rest ih =>
    intro Way
    rw [InputKeys, List.filter_append, List.length_append, WayKeys_segments, ih (Way + 1)]
    simp

theorem sum_filter_one_le (rws : List FStreetMapRailway) :
    ((rws.filter (fun r => decide (1 ≤ r.Points.length))).map
        (fun r => r.Points.length - 1)).sum =
      (rws.map (fun r => r.Points.length - 1)).sum := by
  induction rws with
  | nil => rfl
  | cons R rest ih =>
    by_cases hR : 1 ≤ R.Points.length
    · simp [List.filter_cons, hR, ih]
    · have h0 : R.Points.length - 1 = 0 := by omega
      simp only [List.filter_cons, hR, decide_False, Bool.false_eq_true, if_false, ih,
        List.map_cons, List.sum_cons, h0, Nat.zero_add]

/-- The segments a run has created so far, counted through the event keys. -/
theorem RunInv.segments_count {bs : FStreetMapRailwayBuildSettings} {comp : CompId}
    {w0 : World} {st : BuildState} (inv : RunInv bs comp w0 st) (evs : List BuildEvent)
    (hsub : ∀ e ∈ evs, e ∈ st.events) :
    (evs.filterMap (fun e => e.NewSegment)).length =
      ((evs.map BuildEvent.key).filter (fun k => decide (k.2.1 ≠ 0))).length := by
  rw [length_filterMap_of_isSome_iff _ (fun e => decide (e.PointIndex ≠ 0)), List.filter_map,
    List.length_map]
  · rfl
  · intro e he
    have := (inv.ev_index e (hsub e he)).1
    cases hs : e.NewSegment with
    | none => simp [this.1 hs]
    | some s =>
      have hne : e.PointIndex ≠ 0 := fun h0 => by
        rw [this.2 h0] at hs; cases hs
      simp [hne]

/-- Processing one way from a state of the run: the way's events are appended
and the invariant is kept. -/
theorem RailwayBody_inv (h : Host) (bs : FStreetMapRailwayBuildSettings) (comp : CompId)
    (w0 : World) (Way : Nat) (R : FStreetMapRailway)
    (hcover : R.Points.length ≤ R.NodeIndices.length) (st : BuildState)
    (inv : RunInv bs comp w0 st) :
    ∃ st', RailwayBody h bs comp Way R st = some st' ∧ RunInv bs comp w0 st' ∧
      ∃ evs, st'.events = st.events ++ evs ∧ evs.map BuildEvent.key = WayKeys Way R := by
  have pv : PrevInv Way 0 none st :=
    ⟨fun _ => rfl, fun hh => absurd rfl hh, fun hh => absurd hh (by omega)⟩
  obtain ⟨st1, hrun1, inv1, evs1, hev1, hkeys1⟩ :=
    PointLoop_inv h bs comp w0 Way R hcover R.Points.length 0 none st inv pv (by omega)
  refine ⟨st1, hrun1, inv1, evs1, hev1, ?_⟩
  rw [hkeys1, WayKeys, List.range_eq_range']

/-- C4: inside any run of `Build`, processing a way of `N` points appends
exactly `N - 1` segments and at most `N` control points to the graph (for
`N ≥ 2` as for shorter ways, where `N - 1` is read as zero); and a whole run
appends as many segments as the sum of `N - 1` over the ways with at least one
point. -/
theorem C4_segments_and_control_points_per_way (h : Host) (w : World)
    (bs : FStreetMapRailwayBuildSettings) (pre : List FStreetMapRailway)
    (R : FStreetMapRailway) (post : List FStreetMapRailway)
    (hcover : NodeIndicesCover (pre ++ R :: post)) :
    (∃ st1 st2 st3,
        BuildRun h w pre bs = some st1 ∧
        RailwayBody h bs (BuildStart h w bs).2 pre.length R st1 = some st2 ∧
        RailwayLoop h bs (BuildStart h w bs).2 (pre.length + 1) post st2 = some st3 ∧
        BuildRun h w (pre ++ R :: post) bs = some st3 ∧
        (∃ segs, st2.world.SegmentsOf bs.Landscape = st1.world.SegmentsOf bs.Landscape ++ segs ∧
          segs.length = R.Points.length - 1) ∧
        (∃ cps, st2.world.ControlPointsOf bs.Landscape =
            st1.world.ControlPointsOf bs.Landscape ++ cps ∧
          cps.length ≤ R.Points.length)) ∧
      (∀ rws, NodeIndicesCover rws →
        ∃ st segs, BuildRun h w rws bs = some st ∧
          st.world.SegmentsOf bs.Landscape =
            (CleanedWorld h w bs).SegmentsOf bs.Landscape ++ segs ∧
          segs.length =
            ((rws.filter (fun r => decide (1 ≤ r.Points.length))).map
              (fun r => r.Points.length - 1)).sum) := by
  constructor
  · have hpre : NodeIndicesCover pre := fun r hr => hcover r (by simp [hr])
    have hR : R.Points.length ≤ R.NodeIndices.length := hcover R (by simp)
    have hpost : NodeIndicesCover post := fun r hr => hcover r (by simp [hr])
    obtain ⟨st1, hrun1, inv1, _⟩ := BuildRun_inv h w pre bs hpre
    obtain ⟨st2, hrun2, inv2, evs, hev, hkeys⟩ :=
      RailwayBody_inv h bs _ _ pre.length R hR st1 inv1
    obtain ⟨st3, hrun3, _, _⟩ :=
      RailwayLoop_inv h bs _ _ post (pre.length + 1) st2 hpost inv2
    refine ⟨st1, st2, st3, hrun1, hrun2, hrun3, ?_, ?_, ?_⟩
    · rw [BuildRun_append, hrun1, Option.some_bind, hrun2, Option.some_bind, hrun3]
    · refine ⟨evs.filterMap (fun e => e.NewSegment), ?_, ?_⟩
      · rw [inv2.graphOf.2, inv1.graphOf.2, hev, List.filterMap_append, List.append_assoc]
      · rw [inv2.segments_count evs (fun e he => by rw [hev]; exact List.mem_append_right _ he),
          hkeys, WayKeys_segments]
    · refine ⟨(evs.filter (fun e => e.bCreated)).map (fun e => e.CurrentPoint), ?_, ?_⟩
      · rw [inv2.graphOf.1, inv1.graphOf.1, hev, List.filter_append, List.map_append,
          List.append_assoc]
      · rw [List.length_map]
        refine (List.length_filter_le _ _).trans ?_
        have := congrArg List.length hkeys
        rw [List.length_map, WayKeys, List.length_map, List.length_range] at this
        omega
  · intro rws hc
    obtain ⟨st, hrun, inv, hkeys⟩ := BuildRun_inv h w rws bs hc
    refine ⟨st, st.events.filterMap (fun e => e.NewSegment), hrun, inv.graphOf.2, ?_⟩
    rw [inv.segments_count st.events (fun _ he => he), hkeys, InputKeys_segments,
      sum_filter_one_le]

theorem C4_witness :
    NodeIndicesCover ([Example.wayA] ++ Example.wayB :: []) ∧
      ∃ st1 st2,
        BuildRun Example.host Example.emptyWorld [Example.wayA] Example.settings = some st1 ∧
        RailwayBody Example.host Example.settings
          (BuildStart Example.host Example.emptyWorld Example.settings).2 1 Example.wayB st1 =
            some st2 ∧
        ∃ segs, st2.world.SegmentsOf Example.settings.Landscape =
            st1.world.SegmentsOf Example.settings.Landscape ++ segs ∧
          segs.length = Example.wayB.Points.length - 1 := by
  have hc : NodeIndicesCover ([Example.wayA] ++ Example.wayB :: []) := by decide
  obtain ⟨⟨st1, st2, _, h1, h2, _, _, h5, _⟩, _⟩ :=
    C4_segments_and_control_points_per_way Example.host Example.emptyWorld Example.settings
      [Example.wayA] Example.wayB [] hc
  exact ⟨hc, st1, st2, h1, h2, h5⟩

theorem map_getD_range_take (l : List Int) (d : Int) (n : Nat) (hn : n ≤ l.length) :
    (List.range n).map (fun j => l.getD j d) = l.take n := by
  apply List.ext_getElem
  · simp [hn]
  · intro i h1 h2
    have hi : i < n := by simpa using h1
    have hil : i < l.length := Nat.lt_of_lt_of_le hi hn
    simp [List.getD_eq_getElem?_getD, List.getElem?_eq_getElem hil]

/-- The node identifiers the loops read: for each way, one per point. -/
theorem InputKeys_nodes_take (rws : List FStreetMapRailway) (hcover : NodeIndicesCover rws)
    (Way : Nat) :
    (InputKeys Way rws).map (fun k => k.2.2) =
      rws.flatMap (fun r => r.NodeIndices.take r.Points.length) := by
  induction rws generalizing Way with
  | nil => rfl
  | cons R rest ih =>
    rw [InputKeys, List.map_append, ih (fun r hr => hcover r (by simp [hr])), List.flatMap_cons]
    congr 1
    rw [WayKeys, List.map_map]
    exact map_getD_range_take R.NodeIndices INDEX_NONE _ (hcover R (by simp))

/-- The map holds a node identifier exactly when a point processed so far
carries it. -/
theorem RunInv.find_none_iff {bs : FStreetMapRailwayBuildSettings} {comp : CompId}
    {w0 : World} {st : BuildState} (inv : RunInv bs comp w0 st) (N : Int)
    (hN : N ≠ INDEX_NONE) :
    TMapFind st.NodeIndexToControlPointMap N = none ↔
      N ∉ (st.events.map BuildEvent.key).map (fun k => k.2.2) := by
  constructor
  · intro hf hmem
    rw [List.map_map, List.mem_map] at hmem
    obtain ⟨e, he, heN⟩ := hmem
    have heN' : e.NodeIndex = N := heN
    have := inv.ev_find e he (by rw [heN']; exact hN)
    rw [heN', hf] at this
    cases this
  · intro hmem
    cases hf : TMapFind st.NodeIndexToControlPointMap N with
    | none => rfl
    | some p =>
      obtain ⟨e, he, heN⟩ := inv.map_events N (by rw [hf]; rfl)
      exact absurd (by rw [List.map_map, List.mem_map]; exact ⟨e, he, heN⟩) hmem

/-- C5, as stated, fails: in `[wayOne, wayOne]` the second way has exactly one
point, yet processing it appends no control point, because its node identifier
5 already has one. -/
theorem C5_counterexample :
    Example.wayOne.Points.length = 1 ∧
      (Build Example.host Example.emptyWorld [Example.wayOne] Example.settings).map
          (fun w => (w.ControlPointsOf 0).length) = some 1 ∧
      (Build Example.host Example.emptyWorld [Example.wayOne, Example.wayOne]
          Example.settings).map (fun w => (w.ControlPointsOf 0).length) = some 1 := by
  refine ⟨rfl, ?_, ?_⟩
  · decide
  · decide

/-- C5, amended: inside any run of `Build`, processing a way with exactly one
point appends no segment and at most one control point: exactly one (the next
free address) when the point's node identifier is `INDEX_NONE` or is carried
by no point of an earlier way of the run, none when a point of an earlier way
carries it; the node-index map holds an identifier exactly when a point of an
earlier way carries it. -/
theorem C5_single_point_way (h : Host) (w : World) (bs : FStreetMapRailwayBuildSettings)
    (pre : List FStreetMapRailway) (R : FStreetMapRailway) (post : List FStreetMapRailway)
    (hcover : NodeIndicesCover (pre ++ R :: post)) (hone : R.Points.length = 1) :
    ∃ st1 st2 st3,
      BuildRun h w pre bs = some st1 ∧
      RailwayBody h bs (BuildStart h w bs).2 pre.length R st1 = some st2 ∧
      RailwayLoop h bs (BuildStart h w bs).2 (pre.length + 1) post st2 = some st3 ∧
      BuildRun h w (pre ++ R :: post) bs = some st3 ∧
      st2.world.SegmentsOf bs.Landscape = st1.world.SegmentsOf bs.Landscape ∧
      st2.world.ControlPointsOf bs.Landscape =
        st1.world.ControlPointsOf bs.Landscape ++
          (if R.NodeIndices.getD 0 INDEX_NONE = INDEX_NONE ∨
              R.NodeIndices.getD 0 INDEX_NONE ∉
                pre.flatMap (fun r => r.NodeIndices.take r.Points.length)
            then [st1.world.nextControlPoint] else []) ∧
      (∀ N, N ≠ INDEX_NONE →
        (TMapFind st1.NodeIndexToControlPointMap N = none ↔
          N ∉ pre.flatMap (fun r => r.NodeIndices.take r.Points.length))) := by
  have hpre : NodeIndicesCover pre := fun r hr => hcover r (by simp [hr])
  have hR : R.Points.length ≤ R.NodeIndices.length := hcover R (by simp)
  have hpost : NodeIndicesCover post := fun r hr => hcover r (by simp [hr])
  obtain ⟨st1, hrun1, inv1, hkeys1⟩ := BuildRun_inv h w pre bs hpre
  obtain ⟨st2, hrun2, inv2, evs, hev, hkeys⟩ :=
    RailwayBody_inv h bs _ _ pre.length R hR st1 inv1
  obtain ⟨st3, hrun3, _, _⟩ :=
    RailwayLoop_inv h bs _ _ post (pre.length + 1) st2 hpost inv2
  -- the map against the input read so far
  have hmap : ∀ N, N ≠ INDEX_NONE →
      (TMapFind st1.NodeIndexToControlPointMap N = none ↔
        N ∉ pre.flatMap (fun r => r.NodeIndices.take r.Points.length)) := by
    intro N hN
    rw [inv1.find_none_iff N hN, hkeys1, InputKeys_nodes_take pre hpre]
  refine ⟨st1, st2, st3, hrun1, hrun2, hrun3, ?_, ?_, ?_, hmap⟩
  · rw [BuildRun_append, hrun1, Option.some_bind, hrun2, Option.some_bind, hrun3]
  · have hlen : (evs.filterMap (fun e => e.NewSegment)).length = 0 := by
      rw [inv2.segments_count evs (fun e he => by rw [hev]; exact List.mem_append_right _ he),
        hkeys, WayKeys_segments, hone]
    rw [inv2.graphOf.2, inv1.graphOf.2, hev, List.filterMap_append,
      List.length_eq_zero.1 hlen, List.append_nil]
  · -- the way contributes a single event
    have hk : evs.map BuildEvent.key = [(pre.length, 0, R.NodeIndices.getD 0 INDEX_NONE)] := by
      rw [hkeys, WayKeys, hone]; rfl
    obtain ⟨e, rfl⟩ : ∃ e, evs = [e] := by
      have hl := congrArg List.length hk
      rw [List.length_map] at hl
      exact List.length_eq_one.1 hl
    have hNe : e.NodeIndex = R.NodeIndices.getD 0 INDEX_NONE := by
      have := congrArg (fun l => l.map (fun k => k.2.2)) hk
      simpa [BuildEvent.key] using this
    have hmem2 : e ∈ st2.events := by rw [hev]; simp
    -- whether the event created its control point
    have hcreated : e.bCreated = true ↔
        (R.NodeIndices.getD 0 INDEX_NONE = INDEX_NONE ∨
          TMapFind st1.NodeIndexToControlPointMap (R.NodeIndices.getD 0 INDEX_NONE) = none) := by
      rw [← hNe]
      by_cases hs : e.NodeIndex = INDEX_NONE
      · simp [hs, inv2.ev_sentinel e hmem2 hs]
      · have c1 := inv1.created_once e.NodeIndex hs
        have c2 := inv2.created_once e.NodeIndex hs
        rw [inv2.ev_find e hmem2 hs, hev, List.filter_append, List.length_append, c1] at c2
        simp only [hs, false_or]
        cases hf : TMapFind st1.NodeIndexToControlPointMap e.NodeIndex with
        | none =>
          rw [hf] at c2
          cases hb : e.bCreated with
          | true => simp
          | false => simp [List.filter_cons, hb] at c2
        | some p =>
          rw [hf] at c2
          cases hb : e.bCreated with
          | true => simp [List.filter_cons, hb] at c2
          | false => simp
    have hinput : e.bCreated = true ↔
        (R.NodeIndices.getD 0 INDEX_NONE = INDEX_NONE ∨
          R.NodeIndices.getD 0 INDEX_NONE ∉
            pre.flatMap (fun r => r.NodeIndices.take r.Points.length)) := by
      rw [hcreated]
      by_cases hs : R.NodeIndices.getD 0 INDEX_NONE = INDEX_NONE
      · exact ⟨fun _ => Or.inl hs, fun _ => Or.inl hs⟩
      · rw [hmap _ hs]
    rw [inv2.graphOf.1, hev, List.filter_append, List.map_append, ← List.append_assoc,
      ← inv1.graphOf.1]
    congr 1
    by_cases hb : e.bCreated = true
    · rw [if_pos (hinput.1 hb)]
      have l1 := inv1.created_list
      have l2 := inv2.created_list
      rw [hev, List.filter_append, List.map_append, l1] at l2
      simp only [List.filter_cons, hb, if_true, List.filter_nil, List.map_cons,
        List.map_nil] at l2 ⊢
      have hlen := congrArg List.length l2
      simp only [List.length_append, List.length_range', List.length_singleton] at hlen
      rw [← hlen, range'_snoc] at l2
      have := List.append_cancel_left l2
      rw [Nat.add_sub_cancel' inv1.graph.nextCP_le] at this
      exact this
    · rw [if_neg (fun hh => hb (hinput.2 hh))]
      simp [List.filter_cons, hb]

theorem C5_witness :
    NodeIndicesCover ([Example.wayOne] ++ Example.wayOne :: []) ∧
      Example.wayOne.Points.length = 1 ∧
      ∃ st1 st2,
        BuildRun Example.host Example.emptyWorld [Example.wayOne] Example.settings = some st1 ∧
        RailwayBody Example.host Example.settings
          (BuildStart Example.host Example.emptyWorld Example.settings).2 1 Example.wayOne st1 =
            some st2 ∧
        st2.world.SegmentsOf Example.settings.Landscape =
          st1.world.SegmentsOf Example.settings.Landscape ∧
        st2.world.ControlPointsOf Example.settings.Landscape =
          st1.world.ControlPointsOf Example.settings.Landscape ++ [] := by
  have hc : NodeIndicesCover ([Example.wayOne] ++ Example.wayOne :: []) := by decide
  have h1 : Example.wayOne.Points.length = 1 := rfl
  obtain ⟨st1, st2, _, r1, r2, _, _, r5, r6, _⟩ :=
    C5_single_point_way Example.host Example.emptyWorld Example.settings
      [Example.wayOne] Example.wayOne [] hc h1
  exact ⟨hc, h1, st1, st2, r1, r2, r5, r6⟩

/-! ### How many control points a run creates -/

theorem RunInv.created_count {bs : FStreetMapRailwayBuildSettings} {comp : CompId}
    {w0 : World} {st : BuildState} (inv : RunInv bs comp w0 st) :
    (st.events.filter (fun e => e.bCreated)).length =
      ExpectedControlPoints (st.events.map BuildEvent.key) := by
  unfold ExpectedControlPoints
  -- split the created events by whether they carry the sentinel
  rw [List.length_eq_countP_add_countP (fun e : BuildEvent => decide (e.NodeIndex = INDEX_NONE))
    (st.events.filter (fun e => e.bCreated))]
  congr 1
  · rw [List.countP_filter, List.filter_map, List.length_map, ← List.countP_eq_length_filter]
    refine List.countP_congr (fun e he => ?_)
    simp only [Bool.and_eq_true, decide_eq_true_eq, Function.comp, BuildEvent.key]
    constructor
    · exact fun hh => hh.1
    · exact fun hh => ⟨hh, inv.ev_sentinel e he hh⟩
  · -- the created events with a node identifier, one per identifier
    have hC : List.countP (fun e : BuildEvent => decide ¬(decide (e.NodeIndex = INDEX_NONE)) = true)
          (st.events.filter (fun e => e.bCreated)) =
        ((st.events.filter
          (fun e => e.bCreated && decide (e.NodeIndex ≠ INDEX_NONE))).map
            (fun e => e.NodeIndex)).length := by
      rw [List.length_map, List.countP_filter, List.countP_eq_length_filter]
      congr 1
      refine List.filter_congr (fun e _ => ?_)
      simp [Bool.and_comm]
    rw [hC]
    have hnd : ((st.events.filter
        (fun e => e.bCreated && decide (e.NodeIndex ≠ INDEX_NONE))).map
          (fun e => e.NodeIndex)).Nodup := by
      rw [List.nodup_iff_count_le_one]
      intro N
      rw [List.count_eq_countP, List.countP_map, List.countP_filter]
      by_cases hN : N = INDEX_NONE
      · refine Nat.le_trans (Nat.le_of_eq ?_) (Nat.zero_le 1)
        rw [List.countP_eq_zero]
        intro e _
        simp only [Function.comp, Bool.and_eq_true, beq_iff_eq, decide_eq_true_eq, not_and]
        intro h1 _ h3
        exact h3 (h1.trans hN)
      · have := inv.created_once N hN
        refine Nat.le_trans ?_ (Nat.le_trans (Nat.le_of_eq this) (by split <;> simp))
        rw [← List.countP_eq_length_filter]
        refine List.countP_mono_left (fun e _ => ?_)
        simp only [Function.comp, Bool.and_eq_true, beq_iff_eq, decide_eq_true_eq]
        exact fun hh => ⟨hh.1, hh.2.1⟩
    rw [← hnd.dedup]
    refine List.Perm.length_eq ?_
    rw [List.perm_ext_iff_of_nodup (List.nodup_dedup _) (List.nodup_dedup _)]
    intro N
    simp only [List.mem_dedup, List.mem_map, List.mem_filter, Bool.and_eq_true,
      decide_eq_true_eq, BuildEvent.key, List.map_map, Function.comp]
    constructor
    · rintro ⟨e, ⟨he, _, hne⟩, rfl⟩
      exact ⟨⟨e, he, rfl⟩, hne⟩
    · rintro ⟨⟨e, he, rfl⟩, hne⟩
      have hone := inv.created_once e.NodeIndex hne
      rw [inv.ev_find e he hne] at hone
      have hpos : 0 < (st.events.filter
          (fun x => decide (x.NodeIndex = e.NodeIndex) && x.bCreated)).length := by
        rw [hone]; exact Nat.one_pos
      obtain ⟨x, hx⟩ := List.exists_mem_of_length_pos hpos
      obtain ⟨hxm, hxp⟩ := List.mem_filter.1 hx
      rw [Bool.and_eq_true, decide_eq_true_eq] at hxp
      exact ⟨x, ⟨hxm, hxp.2, by rw [hxp.1]; exact hne⟩, hxp.1⟩

/-! ### Control points without a segment -/

theorem AttachedExcept.next {bs : FStreetMapRailwayBuildSettings} {comp : CompId}
    {st : BuildState} (h : Host) (Way i : Nat) (loc : FVector2D)
    (N : Int) (prev : Option CPId) (pv : PrevInv Way i prev st)
    (ha : AttachedExcept st.events i prev) :
    AttachedExcept (PointBody h bs comp Way i loc N prev st).1.events (i + 1)
      (some (PointBody h bs comp Way i loc N prev st).2) := by
  have hprev : prev = none ↔ i = 0 := by
    constructor
    · intro hp
      by_contra hi
      obtain ⟨e, _, hpe, _⟩ := pv.2.1 hi
      rw [hp] at hpe; cases hpe
    · exact pv.1
  rw [PointBody_eq]
  show AttachedExcept (st.events ++ [StepEvent h bs comp Way i loc N prev st]) _ _
  have hnewPrev : (StepEvent h bs comp Way i loc N prev st).PreviousPoint = prev := rfl
  have hnewSeg : (StepEvent h bs comp Way i loc N prev st).NewSegment = none ↔ prev = none := by
    show Option.map _ prev = none ↔ _
    rw [Option.map_eq_none']
  have hnewCur : (StepEvent h bs comp Way i loc N prev st).CurrentPoint =
      (CurrentPointPhase h bs comp loc N prev st).2.2.1 := rfl
  intro e he
  rcases List.mem_append.1 he with he | he
  · rcases ha e he with ⟨hi1, hp⟩ | ⟨e', he', hatt⟩
    · right
      refine ⟨_, List.mem_append_right _ (List.mem_singleton_self _), ?_, Or.inr ?_⟩
      · rw [Ne, hnewSeg, hp]; simp
      · rw [hnewPrev]; exact hp
    · exact Or.inr ⟨e', List.mem_append_left _ he', hatt⟩
  · have hee : e = StepEvent h bs comp Way i loc N prev st := List.mem_singleton.1 he
    subst hee
    by_cases hi : i = 0
    · left
      exact ⟨by omega, by rw [hnewCur]⟩
    · right
      refine ⟨_, List.mem_append_right _ (List.mem_singleton_self _), ?_, Or.inl rfl⟩
      rw [Ne, hnewSeg, hprev]; exact hi

theorem PointLoop_attached (h : Host) (bs : FStreetMapRailwayBuildSettings) (comp : CompId)
    (w0 : World) (Way : Nat) (R : FStreetMapRailway)
    (hcover : R.Points.length ≤ R.NodeIndices.length) :
    ∀ (n i : Nat) (prev : Option CPId) (st st' : BuildState),
      RunInv bs comp w0 st → PrevInv Way i prev st → i + n = R.Points.length →
      AttachedExcept st.events i prev →
      PointLoop h bs comp Way R n i prev st = some st' →
      i + n ≠ 1 → AllAttached st'.events := by
  intro n
  induction n with
  | zero =>
    intro i prev st st' _ _ _ ha hrun hne
    simp only [PointLoop, Option.some.injEq] at hrun
    subst hrun
    intro e he
    rcases ha e he with ⟨hi1, _⟩ | hatt
    · omega
    · exact hatt
  | succ n ih =>
    intro i prev st st' inv pv hlen ha hrun hne
    have hi : i < R.Points.length := by omega
    have hi' : i < R.NodeIndices.length := by omega
    have hP : R.Points[i]? = some R.Points[i] := List.getElem?_eq_getElem hi
    have hN : R.NodeIndices[i]? = some R.NodeIndices[i] := List.getElem?_eq_getElem hi'
    simp only [PointLoop, hP, hN] at hrun
    obtain ⟨inv', pv'⟩ := inv.step h Way i R.Points[i] R.NodeIndices[i] prev pv
    exact ih (i + 1) _ _ st' inv' pv' (by omega)
      (AttachedExcept.next h Way i R.Points[i] R.NodeIndices[i] prev pv ha) hrun (by omega)

theorem AllAttached.except (evs : List BuildEvent) (hall : AllAttached evs) :
    AttachedExcept evs 0 none :=
  fun e he => Or.inr (hall e he)

theorem RailwayLoop_attached (h : Host) (bs : FStreetMapRailwayBuildSettings) (comp : CompId)
    (w0 : World) :
    ∀ (rws : List FStreetMapRailway) (Way : Nat) (st st' : BuildState),
      NodeIndicesCover rws → (∀ r ∈ rws, r.Points.length ≠ 1) → RunInv bs comp w0 st →
      AllAttached st.events → RailwayLoop h bs comp Way rws st = some st' →
      AllAttached st'.events := by
  intro rws
  induction rws with
  | nil =>
    intro Way st st' _ _ _ hall hrun
    simp only [RailwayLoop, Option.some.injEq] at hrun
    subst hrun
    exact hall
  | cons R rest ih =>
    intro Way st st' hcover hne inv hall hrun
    have hR : R.Points.length ≤ R.NodeIndices.length := hcover R (by simp)
    have hrest : NodeIndicesCover rest := fun r hr => hcover r (by simp [hr])
    obtain ⟨st1, hrun1, inv1, _⟩ := RailwayBody_inv h bs comp w0 Way R hR st inv
    rw [RailwayLoop_cons, hrun1, Option.some_bind] at hrun
    have pv : PrevInv Way 0 none st :=
      ⟨fun _ => rfl, fun hh => absurd rfl hh, fun hh => absurd hh (by omega)⟩
    have hall1 : AllAttached st1.events :=
      PointLoop_attached h bs comp w0 Way R hR R.Points.length 0 none st st1 inv pv (by omega)
        (AllAttached.except _ hall) hrun1 (by simpa using hne R (by simp))
    exact ih (Way + 1) st1 st' hrest (fun r hr => hne r (by simp [hr])) inv1 hall1 hrun

/-! ### Building twice -/

theorem BuildStart_ControlPoints_perm (h : Host) (w : World)
    (bs : FStreetMapRailwayBuildSettings) :
    ((CleanedWorld h w bs).ControlPointsOf bs.Landscape).Perm
      ((w.ControlPointsOf bs.Landscape).filter
        (fun p => !decide (IsRemovedEndpointOf w bs.Landscape bs p))) := by
  obtain ⟨c1, c2, c3, c4, c5, c6, c7⟩ :=
    ConditionallyCreateSplineComponent_spec h w bs.Landscape (h.SplineScaleXYZ bs.Landscape)
  obtain ⟨_, hCP, _⟩ := BuildStart_spec h w bs
  rw [hCP]
  have hperm := CleanOldRailways_controlPoints_perm
    (ConditionallyCreateSplineComponent h w bs.Landscape (h.SplineScaleXYZ bs.Landscape)).1
    (ConditionallyCreateSplineComponent h w bs.Landscape (h.SplineScaleXYZ bs.Landscape)).2 bs
  rw [c2] at hperm
  refine hperm.trans (List.Perm.of_eq ?_)
  refine List.filter_congr (fun p _ => ?_)
  have : IsRemovedEndpoint
      (ConditionallyCreateSplineComponent h w bs.Landscape (h.SplineScaleXYZ bs.Landscape)).1
      (ConditionallyCreateSplineComponent h w bs.Landscape (h.SplineScaleXYZ bs.Landscape)).2
      bs p ↔ IsRemovedEndpointOf w bs.Landscape bs p := by
    unfold IsRemovedEndpoint IsRemovedEndpointOf IsEndpoint
    rw [c3, c5]
  simp only [this]

/-- The shape of the graph after one run of `Build` on a world whose graph
holds allocated addresses only. -/
theorem Build_shape (h : Host) (w : World) (rws : List FStreetMapRailway)
    (bs : FStreetMapRailwayBuildSettings) (hcover : NodeIndicesCover rws)
    (halloc : w.Allocated bs.Landscape) :
    ∃ st, BuildRun h w rws bs = some st ∧
      st.world.Allocated bs.Landscape ∧
      TaggedCount st.world bs.Landscape bs = (rws.map (fun r => r.Points.length - 1)).sum ∧
      (st.world.ControlPointsOf bs.Landscape).length =
        ((CleanedWorld h w bs).ControlPointsOf bs.Landscape).length +
          ExpectedControlPoints (InputKeys 0 rws) ∧
      ((∀ r ∈ rws, r.Points.length ≠ 1) →
        ((CleanedWorld h st.world bs).ControlPointsOf bs.Landscape).Perm
          ((CleanedWorld h w bs).ControlPointsOf bs.Landscape)) := by
  obtain ⟨st, hrun, inv, hkeys⟩ := BuildRun_inv h w rws bs hcover
  obtain ⟨_, _, _, _, hSeg, hnc, hns, hsegperm, hcpsub⟩ := BuildStart_spec h w bs
  have hcwCP : ∀ p ∈ (CleanedWorld h w bs).ControlPointsOf bs.Landscape,
      p < (CleanedWorld h w bs).nextControlPoint := by
    intro p hp
    rw [hnc]; exact halloc.1 p (hcpsub p hp)
  have hcwSeg : ∀ s ∈ (CleanedWorld h w bs).SegmentsOf bs.Landscape,
      s < (CleanedWorld h w bs).nextSegment ∧ IsRailwaySegment bs (st.world.Seg s) = false := by
    intro s hs
    have hm := List.mem_filter.1 (hsegperm.mem_iff.1 hs)
    have hlt : s < (CleanedWorld h w bs).nextSegment := by rw [hns]; exact halloc.2 s hm.1
    refine ⟨hlt, ?_⟩
    rw [inv.graph.Seg_frame s (fun hh => Nat.lt_irrefl _ (Nat.lt_of_lt_of_le hlt hh.1)), hSeg]
    simpa using hm.2
  have hnewSeg : ∀ s ∈ st.events.filterMap (fun e => e.NewSegment),
      AllocatedSince World.nextSegment (CleanedWorld h w bs) st.world s := by
    intro s hs
    rw [inv.seg_list] at hs
    have := List.mem_range'_1.1 hs
    have hle := inv.graph.nextSeg_le
    exact ⟨this.1, by have := this.2; omega⟩
  have hnewCP : ∀ p ∈ (st.events.filter (fun e => e.bCreated)).map (fun e => e.CurrentPoint),
      AllocatedSince World.nextControlPoint (CleanedWorld h w bs) st.world p := by
    intro p hp
    rw [inv.created_list] at hp
    have := List.mem_range'_1.1 hp
    have hle := inv.graph.nextCP_le
    exact ⟨this.1, by have := this.2; omega⟩
  refine ⟨st, hrun, ⟨?_, ?_⟩, ?_, ?_, ?_⟩
  · intro p hp
    rw [inv.graphOf.1] at hp
    rcases List.mem_append.1 hp with hp | hp
    · exact Nat.lt_of_lt_of_le (hcwCP p hp) inv.graph.nextCP_le
    · exact (hnewCP p hp).2
  · intro s hs
    rw [inv.graphOf.2] at hs
    rcases List.mem_append.1 hs with hs | hs
    · exact Nat.lt_of_lt_of_le (hcwSeg s hs).1 inv.graph.nextSeg_le
    · exact (hnewSeg s hs).2
  · unfold TaggedCount
    rw [inv.graphOf.2, List.filter_append]
    have h1 : ((CleanedWorld h w bs).SegmentsOf bs.Landscape).filter
        (fun s => IsRailwaySegment bs (st.world.Seg s)) = [] := by
      rw [List.filter_eq_nil_iff]
      intro s hs
      rw [(hcwSeg s hs).2]; simp
    have h2 : (st.events.filterMap (fun e => e.NewSegment)).filter
        (fun s => IsRailwaySegment bs (st.world.Seg s)) =
        st.events.filterMap (fun e => e.NewSegment) := by
      rw [List.filter_eq_self]
      intro s hs
      exact inv.graph.Seg_tagged s (hnewSeg s hs)
    rw [h1, h2, List.nil_append, inv.segments_count st.events (fun _ he => he), hkeys,
      InputKeys_segments]
  · rw [inv.graphOf.1, List.length_append, List.length_map, inv.created_count, hkeys]
  · intro hne
    have hall : AllAttached st.events :=
      RailwayLoop_attached h bs _ _ rws 0 (BuildStart h w bs).1 st hcover hne
        (RunInv.start bs _ _) (fun e he => by cases he) hrun
    refine (BuildStart_ControlPoints_perm h st.world bs).trans ?_
    rw [inv.graphOf.1, List.filter_append]
    have h1 : ((CleanedWorld h w bs).ControlPointsOf bs.Landscape).filter
        (fun p => !decide (IsRemovedEndpointOf st.world bs.Landscape bs p)) =
        (CleanedWorld h w bs).ControlPointsOf bs.Landscape := by
      rw [List.filter_eq_self]
      intro p hp
      simp only [Bool.not_eq_true', decide_eq_false_iff_not]
      rintro ⟨s, hs, htag, hend⟩
      rw [inv.graphOf.2] at hs
      rcases List.mem_append.1 hs with hs | hs
      · rw [(hcwSeg s hs).2] at htag
        cases htag
      · have hends := inv.graph.Seg_ends s (hnewSeg s hs)
        have hlt := hcwCP p hp
        rcases hend with hend | hend
        · rw [hend] at hends
          exact Nat.lt_irrefl _ (Nat.lt_of_lt_of_le hlt hends.1.1)
        · rw [hend] at hends
          exact Nat.lt_irrefl _ (Nat.lt_of_lt_of_le hlt hends.2.1)
    have h2 : ((st.events.filter (fun e => e.bCreated)).map (fun e => e.CurrentPoint)).filter
        (fun p => !decide (IsRemovedEndpointOf st.world bs.Landscape bs p)) = [] := by
      rw [List.filter_eq_nil_iff]
      intro p hp
      simp only [Bool.not_eq_true', decide_eq_false_iff_not, not_not]
      obtain ⟨e, he, rfl⟩ := List.mem_map.1 hp
      have hemem : e ∈ st.events := (List.mem_filter.1 he).1
      obtain ⟨e', he', hseg, hatt⟩ := hall e hemem
      cases hs : e'.NewSegment with
      | none => exact absurd hs hseg
      | some s =>
        obtain ⟨hsa, hc0, hc1, _⟩ := inv.ev_seg e' he' s hs
        refine ⟨s, ?_, inv.graph.Seg_tagged s hsa, ?_⟩
        · rw [inv.graphOf.2]
          exact List.mem_append_right _ (List.mem_filterMap.2 ⟨e', he', hs⟩)
        · rcases hatt with hatt | hatt
          · right; rw [hc1]; exact hatt
          · left
            rw [hc0] at hatt
            exact Option.some.inj hatt
    rw [h1, h2, List.append_nil]

/-- C3, as stated, fails: with the single one-point way `wayOne`, one run of
`Build` on the empty world leaves one control point and a second run leaves
two, because the first run's control point is an end of no segment and
`CleanOldRailways` keeps it. -/
theorem C3_counterexample :
    (Build Example.host Example.emptyWorld [Example.wayOne] Example.settings).map
        (fun w => (w.ControlPointsOf 0).length) = some 1 ∧
      ((Build Example.host Example.emptyWorld [Example.wayOne] Example.settings).bind
          (fun w => Build Example.host w [Example.wayOne] Example.settings)).map
        (fun w => (w.ControlPointsOf 0).length) = some 2 := by
  constructor <;> decide

/-- C3, amended: on a graph holding allocated addresses only, running `Build`
twice with the same input and settings leaves as many segments passing the
railway-mesh test as running it once, and, when no way has exactly one point,
as many control points. -/
theorem C3_build_twice_counts (h : Host) (w : World) (rws : List FStreetMapRailway)
    (bs : FStreetMapRailwayBuildSettings) (hcover : NodeIndicesCover rws)
    (halloc : w.Allocated bs.Landscape) :
    ∃ w1 w2, Build h w rws bs = some w1 ∧ Build h w1 rws bs = some w2 ∧
      TaggedCount w2 bs.Landscape bs = TaggedCount w1 bs.Landscape bs ∧
      ((∀ r ∈ rws, r.Points.length ≠ 1) →
        (w2.ControlPointsOf bs.Landscape).length = (w1.ControlPointsOf bs.Landscape).length) := by
  obtain ⟨st1, hrun1, halloc1, htag1, hcp1, hclean1⟩ := Build_shape h w rws bs hcover halloc
  obtain ⟨st2, hrun2, _, htag2, hcp2, _⟩ := Build_shape h st1.world rws bs hcover halloc1
  refine ⟨st1.world, st2.world, ?_, ?_, ?_, ?_⟩
  · unfold Build; rw [hrun1]; rfl
  · unfold Build; rw [hrun2]; rfl
  · rw [htag1, htag2]
  · intro hne
    rw [hcp1, hcp2, (hclean1 hne).length_eq]

theorem C3_witness :
    NodeIndicesCover [Example.wayA, Example.wayB] ∧
      Example.emptyWorld.Allocated Example.settings.Landscape ∧
      ∃ w1 w2,
        Build Example.host Example.emptyWorld [Example.wayA, Example.wayB] Example.settings =
          some w1 ∧
        Build Example.host w1 [Example.wayA, Example.wayB] Example.settings = some w2 ∧
        TaggedCount w2 Example.settings.Landscape Example.settings =
          TaggedCount w1 Example.settings.Landscape Example.settings := by
  have hc : NodeIndicesCover [Example.wayA, Example.wayB] := by decide
  have ha : Example.emptyWorld.Allocated Example.settings.Landscape := by decide
  obtain ⟨w1, w2, h1, h2, h3, _⟩ :=
    C3_build_twice_counts Example.host Example.emptyWorld [Example.wayA, Example.wayB]
      Example.settings hc ha
  exact ⟨hc, ha, w1, w2, h1, h2, h3⟩

/-- C9, as stated, fails for `CleanOldRailways` and for `Build`: in
`sharedWorld` every segment has both ends in the control-point array, but
cleaning removes control point 1 with the railway segment while the hand-made
segment 1 still starts there. -/
theorem C9_counterexample :
    SegmentsClosed Example.sharedWorld 0 ∧
      ¬ SegmentsClosed (CleanOldRailways Example.sharedWorld 0 Example.settings) 0 ∧
      (Build Example.host Example.sharedWorld [] Example.settings).map
          (fun w => decide (SegmentsClosed w 0)) = some false := by
  refine ⟨by decide, by decide, by decide⟩

theorem AllocatedSince.mem_range' {next : World → Nat} {w0 w : World} {x : Nat} :
    AllocatedSince next w0 w x ↔ x ∈ List.range' (next w0) (next w - next w0) := by
  unfold AllocatedSince
  rw [List.mem_range'_1]
  omega

theorem SegmentsClosed.after_AddControlPoint (h : Host) (w : World) (c : CompId) (loc : FVector)
    (bs : FStreetMapRailwayBuildSettings) (prev : Option CPId) (c' : CompId)
    (hcl : SegmentsClosed w c') : SegmentsClosed (AddControlPoint h w c loc bs prev).1 c' := by
  intro s hs
  rw [AddControlPoint_Seg]
  by_cases hc : c' = c
  · subst hc
    rw [AddControlPoint_Segments] at hs
    rw [AddControlPoint_ControlPoints]
    have := hcl s hs
    exact ⟨List.mem_append_left _ this.1, List.mem_append_left _ this.2⟩
  · rw [AddControlPoint_Components_other h w c loc bs prev c' hc] at hs ⊢
    exact hcl s hs

theorem SegmentsClosed.after_AddSegment (h : Host) (w : World) (Start End : CPId) (a b : Bool)
    (hS : Start ∈ (w.Components (w.CP Start).Outer).ControlPoints)
    (hE : End ∈ (w.Components (w.CP Start).Outer).ControlPoints)
    (hcl : SegmentsClosed w (w.CP Start).Outer) :
    SegmentsClosed (AddSegment h w Start End a b).1 (w.CP Start).Outer := by
  intro s hs
  rw [AddSegment_Components] at hs ⊢
  simp only [Function.update_same] at hs ⊢
  by_cases hsn : s = w.nextSegment
  · subst hsn
    obtain ⟨h0, h1⟩ := AddSegment_Seg_new_Connections h w Start End a b
    rw [h0, h1]; exact ⟨hS, hE⟩
  · rw [AddSegment_Seg_other h w Start End a b s hsn]
    rcases List.mem_append.1 hs with hs | hs
    · exact hcl s hs
    · exact absurd (List.mem_singleton.1 hs) hsn

theorem SegmentsClosed.after_CleanOldRailways (w : World) (c : CompId)
    (bs : FStreetMapRailwayBuildSettings) (hcl : SegmentsClosed w c)
    (hsep : RailwaysSeparate w c bs) : SegmentsClosed (CleanOldRailways w c bs) c := by
  intro s hs
  have hm := List.mem_filter.1 ((CleanOldRailways_segments_perm w c bs).mem_iff.1 hs)
  have hun : IsRailwaySegment bs (w.Seg s) = false := by simpa using hm.2
  have hmem := CleanOldRailways_controlPoints_mem w c bs
  rw [CleanOldRailways_Seg]
  exact ⟨(hmem _).2 ⟨(hcl s hm.1).1, (hsep s hm.1 hun).1⟩,
    (hmem _).2 ⟨(hcl s hm.1).2, (hsep s hm.1 hun).2⟩⟩

theorem SegmentsClosed.after_BuildStart (h : Host) (w : World)
    (bs : FStreetMapRailwayBuildSettings)
    (hpre : ∀ c, (w.Landscapes bs.Landscape).SplineComponent = some c →
      SegmentsClosed w c ∧ RailwaysSeparate w c bs) :
    SegmentsClosed (CleanedWorld h w bs) (BuildStart h w bs).2 := by
  obtain ⟨c1, c2, c3, c4, c5, c6, c7⟩ :=
    ConditionallyCreateSplineComponent_spec h w bs.Landscape (h.SplineScaleXYZ bs.Landscape)
  refine SegmentsClosed.after_CleanOldRailways _ _ bs ?_ ?_
  · intro s hs
    rw [c3] at hs
    rw [c2, c5]
    unfold World.SegmentsOf at hs
    unfold World.ControlPointsOf
    cases hc : (w.Landscapes bs.Landscape).SplineComponent with
    | none => rw [hc] at hs; simp at hs
    | some c =>
      rw [hc] at hs
      exact (hpre c hc).1 s hs
  · intro s hs hun
    rw [c3] at hs
    rw [c5] at hun ⊢
    unfold IsRemovedEndpoint IsEndpoint
    rw [c3, c5]
    unfold World.SegmentsOf at hs ⊢
    cases hc : (w.Landscapes bs.Landscape).SplineComponent with
    | none => rw [hc] at hs; simp at hs
    | some c =>
      rw [hc] at hs
      simp only []
      exact (hpre c hc).2 s hs hun

theorem SegmentsClosed.after_run {bs : FStreetMapRailwayBuildSettings} {comp : CompId}
    {w0 : World} {st : BuildState} (inv : RunInv bs comp w0 st)
    (hcl : SegmentsClosed w0 comp) : SegmentsClosed st.world comp := by
  intro s hs
  rw [inv.graph.ControlPoints_eq]
  by_cases hal : AllocatedSince World.nextSegment w0 st.world s
  · have := inv.graph.Seg_ends s hal
    exact ⟨List.mem_append_right _ (AllocatedSince.mem_range'.1 this.1),
      List.mem_append_right _ (AllocatedSince.mem_range'.1 this.2)⟩
  · rw [inv.graph.Segments_eq] at hs
    rcases List.mem_append.1 hs with hs | hs
    · rw [inv.graph.Seg_frame s hal]
      have := hcl s hs
      exact ⟨List.mem_append_left _ this.1, List.mem_append_left _ this.2⟩
    · exact absurd (AllocatedSince.mem_range'.2 hs) hal

/-- C9, amended: every segment has two ends by construction of the segment
type; that both are in the control-point array of the segment's graph is kept
by `AddControlPoint`, by `AddSegment` between two members of the graph, and,
when no segment failing the railway-mesh test shares an end with one passing
it, by `CleanOldRailways` and by `Build`. -/
theorem C9_segments_closed_preserved :
    (∀ (h : Host) (w : World) (c : CompId) (loc : FVector)
        (bs : FStreetMapRailwayBuildSettings) (prev : Option CPId) (c' : CompId),
        SegmentsClosed w c' → SegmentsClosed (AddControlPoint h w c loc bs prev).1 c') ∧
      (∀ (h : Host) (w : World) (Start End : CPId) (a b : Bool),
        Start ∈ (w.Components (w.CP Start).Outer).ControlPoints →
        End ∈ (w.Components (w.CP Start).Outer).ControlPoints →
        SegmentsClosed w (w.CP Start).Outer →
        SegmentsClosed (AddSegment h w Start End a b).1 (w.CP Start).Outer) ∧
      (∀ (w : World) (c : CompId) (bs : FStreetMapRailwayBuildSettings),
        SegmentsClosed w c → RailwaysSeparate w c bs →
        SegmentsClosed (CleanOldRailways w c bs) c) ∧
      (∀ (h : Host) (w : World) (rws : List FStreetMapRailway)
        (bs : FStreetMapRailwayBuildSettings), NodeIndicesCover rws →
        (∀ c, (w.Landscapes bs.Landscape).SplineComponent = some c →
          SegmentsClosed w c ∧ RailwaysSeparate w c bs) →
        ∃ w' c', Build h w rws bs = some w' ∧
          (w'.Landscapes bs.Landscape).SplineComponent = some c' ∧ SegmentsClosed w' c') := by
  refine ⟨SegmentsClosed.after_AddControlPoint, SegmentsClosed.after_AddSegment,
    SegmentsClosed.after_CleanOldRailways, ?_⟩
  intro h w rws bs hcover hpre
  obtain ⟨st, hrun, inv, _⟩ := BuildRun_inv h w rws bs hcover
  obtain ⟨hL, _⟩ := BuildStart_spec h w bs
  refine ⟨st.world, (BuildStart h w bs).2, ?_, ?_, ?_⟩
  · unfold Build; rw [hrun]; rfl
  · rw [inv.graph.Landscapes_eq]; exact hL
  · exact SegmentsClosed.after_run inv (SegmentsClosed.after_BuildStart h w bs hpre)

theorem C9_witness :
    NodeIndicesCover [Example.wayA, Example.wayB] ∧
      (∀ c, (Example.separateWorld.Landscapes Example.settings.Landscape).SplineComponent =
          some c →
        SegmentsClosed Example.separateWorld c ∧
          RailwaysSeparate Example.separateWorld c Example.settings) ∧
      ∃ w' c', Build Example.host Example.separateWorld [Example.wayA, Example.wayB]
          Example.settings = some w' ∧
        (w'.Landscapes Example.settings.Landscape).SplineComponent = some c' ∧
        SegmentsClosed w' c' := by
  have hc : NodeIndicesCover [Example.wayA, Example.wayB] := by decide
  have hpre : ∀ c,
      (Example.separateWorld.Landscapes Example.settings.Landscape).SplineComponent = some c →
      SegmentsClosed Example.separateWorld c ∧
        RailwaysSeparate Example.separateWorld c Example.settings := by
    intro c hcomp
    have h0 : c = 0 := by
      have : (some 0 : Option CompId) = some c := hcomp
      exact (Option.some.inj this).symm
    subst h0
    exact ⟨by decide, by decide⟩
  exact ⟨hc, hpre,
    C9_segments_closed_preserved.2.2.2 Example.host Example.separateWorld
      [Example.wayA, Example.wayB] Example.settings hc hpre⟩

/-! ### Which events share a control point -/

/-- Every event's control point was created by an event at some position, the
event itself or one with the same node identifier. -/
theorem RunInv.creator {bs : FStreetMapRailwayBuildSettings} {comp : CompId}
    {w0 : World} {st : BuildState} (inv : RunInv bs comp w0 st) (i : Nat)
    (hi : i < st.events.length) :
    ∃ (k : Nat) (hk : k < st.events.length), st.events[k].bCreated = true ∧
      st.events[k].CurrentPoint = st.events[i].CurrentPoint ∧
      (k = i ∨ (st.events[k].NodeIndex = st.events[i].NodeIndex ∧
        st.events[i].NodeIndex ≠ INDEX_NONE)) := by
  have hmem : st.events[i] ∈ st.events := List.getElem_mem _
  by_cases hc : st.events[i].bCreated = true
  · exact ⟨i, hi, hc, rfl, Or.inl rfl⟩
  · have hN : st.events[i].NodeIndex ≠ INDEX_NONE := fun hs => hc (inv.ev_sentinel _ hmem hs)
    have hf := inv.ev_find _ hmem hN
    have hone := inv.created_once _ hN
    rw [hf] at hone
    have hpos : 0 < (st.events.filter
        (fun e => decide (e.NodeIndex = st.events[i].NodeIndex) && e.bCreated)).length := by
      rw [hone]; exact Nat.one_pos
    obtain ⟨e, he⟩ := List.exists_mem_of_length_pos hpos
    obtain ⟨hek, hprop⟩ := List.mem_filter.1 he
    rw [Bool.and_eq_true, decide_eq_true_eq] at hprop
    obtain ⟨k, hk, hke⟩ := List.getElem_of_mem hek
    subst hke
    have hfk := inv.ev_find _ hek (by rw [hprop.1]; exact hN)
    rw [hprop.1, hf] at hfk
    exact ⟨k, hk, hprop.2, (Option.some.inj hfk).symm, Or.inr ⟨hprop.1, hN⟩⟩

/-- Two events with the same control point are the same event or carry the
same node identifier, which is not the sentinel. -/
theorem RunInv.cur_injective {bs : FStreetMapRailwayBuildSettings} {comp : CompId}
    {w0 : World} {st : BuildState} (inv : RunInv bs comp w0 st) (i j : Nat)
    (hi : i < st.events.length) (hj : j < st.events.length)
    (heq : st.events[i].CurrentPoint = st.events[j].CurrentPoint) :
    i = j ∨ (st.events[i].NodeIndex = st.events[j].NodeIndex ∧
      st.events[i].NodeIndex ≠ INDEX_NONE) := by
  obtain ⟨k, hk, ck, hkc, hki⟩ := inv.creator i hi
  obtain ⟨l, hl, cl, hlc, hlj⟩ := inv.creator j hj
  have hkl : k = l := by
    by_contra hne
    exact inv.created_injective k l hk hl hne ck cl (hkc.trans (heq.trans hlc.symm))
  subst hkl
  rcases hki with rfl | ⟨hki1, hki2⟩
  · rcases hlj with rfl | ⟨hlj1, hlj2⟩
    · exact Or.inl rfl
    · exact Or.inr ⟨hlj1, hlj1 ▸ hlj2⟩
  · rcases hlj with rfl | ⟨hlj1, hlj2⟩
    · exact Or.inr ⟨hki1.symm, hki2⟩
    · exact Or.inr ⟨hki1.symm.trans hlj1, hki2⟩

/-- C6: on any world whose graph for the target landscape is empty, `Build`
with the ways A = [(0,0) id 5, (10,0) no id, (20,0) id 7] and
B = [(20,0) id 7, (30,0) no id] leaves exactly 4 control points and 3
segments, and the control point registered for id 7 holds exactly 2
back-references. -/
theorem C6_example_two_ways (h : Host) (w : World) (bs : FStreetMapRailwayBuildSettings)
    (hempty : w.ControlPointsOf bs.Landscape = [] ∧ w.SegmentsOf bs.Landscape = []) :
    ∃ st, BuildRun h w [Example.wayA, Example.wayB] bs = some st ∧
      Build h w [Example.wayA, Example.wayB] bs = some st.world ∧
      (st.world.ControlPointsOf bs.Landscape).length = 4 ∧
      (st.world.SegmentsOf bs.Landscape).length = 3 ∧
      ∃ p, TMapFind st.NodeIndexToControlPointMap 7 = some p ∧
        (st.world.CP p).ConnectedSegments.length = 2 := by
  have hcover : NodeIndicesCover [Example.wayA, Example.wayB] := by decide
  obtain ⟨st, hrun, inv, hkeys⟩ := BuildRun_inv h w _ bs hcover
  obtain ⟨_, _, _, _, _, _, _, hsegperm, hcpsub⟩ := BuildStart_spec h w bs
  have hcp0 : (CleanedWorld h w bs).ControlPointsOf bs.Landscape = [] := by
    refine List.eq_nil_iff_forall_not_mem.2 (fun p hp => ?_)
    have := hcpsub p hp
    rw [hempty.1] at this
    cases this
  have hseg0 : (CleanedWorld h w bs).SegmentsOf bs.Landscape = [] := by
    have := hsegperm
    rw [hempty.2] at this
    simpa using this
  have hk5 : InputKeys 0 [Example.wayA, Example.wayB] =
      [(0, 0, 5), (0, 1, INDEX_NONE), (0, 2, 7), (1, 0, 7), (1, 1, INDEX_NONE)] := by decide
  refine ⟨st, hrun, by unfold Build; rw [hrun]; rfl, ?_, ?_, ?_⟩
  · rw [inv.graphOf.1, hcp0, List.nil_append, List.length_map, inv.created_count, hkeys]
    decide
  · rw [inv.graphOf.2, hseg0, List.nil_append, inv.segments_count st.events (fun _ he => he),
      hkeys]
    decide
  · rw [hk5] at hkeys
    obtain ⟨e0, r0, hr0, k0, hk⟩ := List.map_eq_cons_iff.1 hkeys
    obtain ⟨e1, r1, hr1, k1, hk⟩ := List.map_eq_cons_iff.1 hk
    obtain ⟨e2, r2, hr2, k2, hk⟩ := List.map_eq_cons_iff.1 hk
    obtain ⟨e3, r3, hr3, k3, hk⟩ := List.map_eq_cons_iff.1 hk
    obtain ⟨e4, r4, hr4, k4, hk⟩ := List.map_eq_cons_iff.1 hk
    have hr5 : r4 = [] := List.map_eq_nil_iff.1 hk
    subst hr5 hr4 hr3 hr2 hr1
    simp only [BuildEvent.key, Prod.mk.injEq] at k0 k1 k2 k3 k4
    have m0 : e0 ∈ st.events := by rw [hr0]; simp
    have m1 : e1 ∈ st.events := by rw [hr0]; simp
    have m2 : e2 ∈ st.events := by rw [hr0]; simp
    have m3 : e3 ∈ st.events := by rw [hr0]; simp
    have m4 : e4 ∈ st.events := by rw [hr0]; simp
    have h7 : (7 : Int) ≠ INDEX_NONE := by decide
    -- the control point of id 7
    have hf2 := inv.ev_find e2 m2 (by rw [k2.2.2]; exact h7)
    have hf3 := inv.ev_find e3 m3 (by rw [k3.2.2]; exact h7)
    rw [k2.2.2] at hf2
    rw [k3.2.2] at hf3
    have h32 : e3.CurrentPoint = e2.CurrentPoint := Option.some.inj (hf3.symm.trans hf2)
    refine ⟨e2.CurrentPoint, hf2, ?_⟩
    -- the three segments
    obtain ⟨s1, hs1⟩ : ∃ s, e1.NewSegment = some s := by
      cases hn : e1.NewSegment with
      | none => have := (inv.ev_index e1 m1).1.1 hn; omega
      | some s => exact ⟨s, rfl⟩
    obtain ⟨s2, hs2⟩ : ∃ s, e2.NewSegment = some s := by
      cases hn : e2.NewSegment with
      | none => have := (inv.ev_index e2 m2).1.1 hn; omega
      | some s => exact ⟨s, rfl⟩
    obtain ⟨s4, hs4⟩ : ∃ s, e4.NewSegment = some s := by
      cases hn : e4.NewSegment with
      | none => have := (inv.ev_index e4 m4).1.1 hn; omega
      | some s => exact ⟨s, rfl⟩
    have hn0 : e0.NewSegment = none := (inv.ev_index e0 m0).1.2 k0.2.1
    have hn3 : e3.NewSegment = none := (inv.ev_index e3 m3).1.2 k3.2.1
    have hlist := inv.seg_list
    rw [hr0] at hlist
    simp only [List.filterMap_cons, List.filterMap_nil, hn0, hn3, hs1, hs2, hs4] at hlist
    have hlen := congrArg List.length hlist
    simp only [List.length_cons, List.length_nil, List.length_range'] at hlen
    rw [← hlen] at hlist
    have hexact := inv.graph.Connected_exact e2.CurrentPoint (inv.ev_cur e2 m2)
    rw [← hlen, ← hlist] at hexact
    -- the ends of the three segments
    obtain ⟨_, p1, c1, _⟩ := inv.ev_seg e1 m1 s1 hs1
    obtain ⟨_, p2, c2, _⟩ := inv.ev_seg e2 m2 s2 hs2
    obtain ⟨_, p4, c4, _⟩ := inv.ev_seg e4 m4 s4 hs4
    have hchain := inv.chain
    rw [hr0] at hchain
    simp only [List.chain'_cons, List.chain'_singleton, and_true] at hchain
    obtain ⟨l01, l12, _, l34⟩ := hchain
    have q1 := (l01 (by omega)).1
    have q2 := (l12 (by omega)).1
    have q4 := (l34 (by omega)).1
    rw [p1] at q1
    rw [p2] at q2
    rw [p4] at q4
    have a1 : (st.world.Seg s1).Connections0.ControlPoint = e0.CurrentPoint := Option.some.inj q1
    have a2 : (st.world.Seg s2).Connections0.ControlPoint = e1.CurrentPoint := Option.some.inj q2
    have a4 : (st.world.Seg s4).Connections0.ControlPoint = e3.CurrentPoint := Option.some.inj q4
    -- the other control points differ from the one of id 7
    have hlen5 : st.events.length = 5 := by rw [hr0]; rfl
    have d0 : e0.CurrentPoint ≠ e2.CurrentPoint := by
      intro heq
      have := inv.cur_injective 0 2 (by omega) (by omega) (by simpa [hr0] using heq)
      simp only [hr0, List.getElem_cons_zero, List.getElem_cons_succ] at this
      rw [k0.2.2, k2.2.2] at this
      rcases this with hh | hh
      · omega
      · exact absurd hh.1 (by decide)
    have d1 : e1.CurrentPoint ≠ e2.CurrentPoint := by
      intro heq
      have := inv.cur_injective 1 2 (by omega) (by omega) (by simpa [hr0] using heq)
      simp only [hr0, List.getElem_cons_zero, List.getElem_cons_succ] at this
      rw [k1.2.2, k2.2.2] at this
      rcases this with hh | hh
      · omega
      · exact absurd rfl hh.2
    have d4 : e4.CurrentPoint ≠ e2.CurrentPoint := by
      intro heq
      have := inv.cur_injective 4 2 (by omega) (by omega) (by simpa [hr0] using heq)
      simp only [hr0, List.getElem_cons_zero, List.getElem_cons_succ] at this
      rw [k4.2.2, k2.2.2] at this
      rcases this with hh | hh
      · omega
      · exact absurd rfl hh.2
    rw [hexact]
    simp only [List.flatMap, List.map_cons, List.map_nil, List.flatten, BackReferences,
      a1, a2, a4, c1, c2, c4, h32, if_neg d0, if_neg d1, if_neg d4, if_true]
    rfl

theorem C6_witness :
    (Example.emptyWorld.ControlPointsOf Example.settings.Landscape = [] ∧
        Example.emptyWorld.SegmentsOf Example.settings.Landscape = []) ∧
      ∃ st, BuildRun Example.host Example.emptyWorld [Example.wayA, Example.wayB]
          Example.settings = some st ∧
        Build Example.host Example.emptyWorld [Example.wayA, Example.wayB]
          Example.settings = some st.world ∧
        (st.world.ControlPointsOf Example.settings.Landscape).length = 4 ∧
        (st.world.SegmentsOf Example.settings.Landscape).length = 3 ∧
        ∃ p, TMapFind st.NodeIndexToControlPointMap 7 = some p ∧
          (st.world.CP p).ConnectedSegments.length = 2 :=
  ⟨⟨rfl, rfl⟩,
    C6_example_two_ways Example.host Example.emptyWorld Example.settings ⟨rfl, rfl⟩⟩

/-! ### GetLandscapeElevation -/

theorem FirstLandscapeHit_eq_find (Results : List FHitResult) :
    FirstLandscapeHit Results = (Results.find? IsLandscapeHit).map (fun hit => hit.Location) := by
  induction Results with
  | nil => rfl
  | cons hit rest ih =>
    have hstep : FirstLandscapeHit (hit :: rest) =
        if IsLandscapeHit hit = true then some hit.Location else FirstLandscapeHit rest := by
      obtain ⟨comp, locn⟩ := hit
      cases comp with
      | heightfieldCollision proxy => cases proxy <;> rfl
      | other => rfl
      | null => rfl
    rw [hstep, ih, List.find?_cons]
    cases IsLandscapeHit hit <;> rfl

theorem GetLandscapeElevation_eq_find (h : Host) (L : LandscapeId) (loc : FVector2D) :
    GetLandscapeElevation h L loc =
      match (h.LineTraceMultiByObjectType { X := loc.X, Y := loc.Y, Z := 1000000 }
          { X := loc.X, Y := loc.Y, Z := -1000000 }).find? IsLandscapeHit with
      | some hit => hit.Location.Z
      | none => 0 := by
  unfold GetLandscapeElevation
  simp only [FirstLandscapeHit_eq_find]
  cases (h.LineTraceMultiByObjectType { X := loc.X, Y := loc.Y, Z := 1000000 }
      { X := loc.X, Y := loc.Y, Z := -1000000 }).find? IsLandscapeHit <;> rfl

/-- C11: `GetLandscapeElevation` returns the height of the first hit, in list
order, whose component is a landscape heightfield collision component with a
landscape proxy, and exactly 0 when no hit is of that kind, in particular when
there is no hit at all. -/
theorem C11_elevation_of_first_landscape_hit (h : Host) (L : LandscapeId) (loc : FVector2D) :
    (∀ (before : List FHitResult) (hit : FHitResult) (after : List FHitResult),
        h.LineTraceMultiByObjectType { X := loc.X, Y := loc.Y, Z := 1000000 }
            { X := loc.X, Y := loc.Y, Z := -1000000 } = before ++ hit :: after →
        (∀ x ∈ before, IsLandscapeHit x = false) → IsLandscapeHit hit = true →
        GetLandscapeElevation h L loc = hit.Location.Z) ∧
      ((∀ x ∈ h.LineTraceMultiByObjectType { X := loc.X, Y := loc.Y, Z := 1000000 }
            { X := loc.X, Y := loc.Y, Z := -1000000 }, IsLandscapeHit x = false) →
        GetLandscapeElevation h L loc = 0) ∧
      (h.LineTraceMultiByObjectType { X := loc.X, Y := loc.Y, Z := 1000000 }
            { X := loc.X, Y := loc.Y, Z := -1000000 } = [] →
        GetLandscapeElevation h L loc = 0) := by
  refine ⟨?_, ?_, ?_⟩
  · intro before hit after hres hbefore hhit
    rw [GetLandscapeElevation_eq_find, hres, List.find?_append]
    have h1 : before.find? IsLandscapeHit = none := by
      rw [List.find?_eq_none]
      intro x hx
      rw [hbefore x hx]; simp
    rw [h1, List.find?_cons, hhit]
    rfl
  · intro hnone
    rw [GetLandscapeElevation_eq_find]
    have h1 : (h.LineTraceMultiByObjectType { X := loc.X, Y := loc.Y, Z := 1000000 }
        { X := loc.X, Y := loc.Y, Z := -1000000 }).find? IsLandscapeHit = none := by
      rw [List.find?_eq_none]
      intro x hx
      rw [hnone x hx]; simp
    rw [h1]
  · intro hnil
    rw [GetLandscapeElevation_eq_find, hnil]
    rfl

theorem C11_witness :
    (∀ x ∈ Example.host.LineTraceMultiByObjectType { X := 3, Y := 4, Z := 1000000 }
          { X := 3, Y := 4, Z := -1000000 }, IsLandscapeHit x = false) ∧
      GetLandscapeElevation Example.host 0 { X := 3, Y := 4 } = 0 ∧
      GetLandscapeElevation Example.hitHost 0 { X := 3, Y := 4 } = 5 := by
  have hno : ∀ x ∈ Example.host.LineTraceMultiByObjectType { X := 3, Y := 4, Z := 1000000 }
      { X := 3, Y := 4, Z := -1000000 }, IsLandscapeHit x = false := by
    intro x hx
    simp [Example.host] at hx
  refine ⟨hno, (C11_elevation_of_first_landscape_hit Example.host 0 { X := 3, Y := 4 }).2.1 hno,
    ?_⟩
  exact (C11_elevation_of_first_landscape_hit Example.hitHost 0 { X := 3, Y := 4 }).1
    [{ Component := HitComponent.other, Location := { X := 0, Y := 0, Z := 9 } }]
    { Component := HitComponent.heightfieldCollision (some 1),
      Location := { X := 0, Y := 0, Z := 5 } }
    [{ Component := HitComponent.heightfieldCollision (some 0),
       Location := { X := 0, Y := 0, Z := 2 } }]
    rfl (by intro x hx; simp at hx; subst hx; rfl) rfl

/-- C16, as stated, fails: called for landscape 0, `GetLandscapeElevation` takes
its height 5 from a hit on a collision component of landscape 1, although a hit
on landscape 0 itself (height 2) comes later in the list. -/
theorem C16_counterexample :
    Example.hitHost.LineTraceMultiByObjectType { X := 3, Y := 4, Z := 1000000 }
        { X := 3, Y := 4, Z := -1000000 } =
      [{ Component := HitComponent.other, Location := { X := 0, Y := 0, Z := 9 } },
       { Component := HitComponent.heightfieldCollision (some 1),
         Location := { X := 0, Y := 0, Z := 5 } },
       { Component := HitComponent.heightfieldCollision (some 0),
         Location := { X := 0, Y := 0, Z := 2 } }] ∧
      GetLandscapeElevation Example.hitHost 0 { X := 3, Y := 4 } = 5 := by
  refine ⟨rfl, ?_⟩
  rw [GetLandscapeElevation_eq_find]
  rfl

/-- C16, amended: `GetLandscapeElevation` accepts the first hit on a landscape
heightfield collision component that has a landscape proxy, whichever terrain
surface owns it; the surface it is called for does not enter the result. -/
theorem C16_elevation_ignores_landscape (h : Host) (L L' : LandscapeId) (loc : FVector2D) :
    GetLandscapeElevation h L loc = GetLandscapeElevation h L' loc ∧
      (∀ (before : List FHitResult) (owner : LandscapeId) (place : FVector)
          (after : List FHitResult),
        h.LineTraceMultiByObjectType { X := loc.X, Y := loc.Y, Z := 1000000 }
            { X := loc.X, Y := loc.Y, Z := -1000000 } =
          before ++
            { Component := HitComponent.heightfieldCollision (some owner), Location := place } ::
              after →
        (∀ x ∈ before, IsLandscapeHit x = false) →
        GetLandscapeElevation h L loc = place.Z) := by
  refine ⟨rfl, ?_⟩
  intro before owner place after hres hbefore
  rw [GetLandscapeElevation_eq_find, hres, List.find?_append]
  have h1 : before.find? IsLandscapeHit = none := by
    rw [List.find?_eq_none]
    intro x hx
    rw [hbefore x hx]; simp
  rw [h1]
  rfl

theorem C16_witness :
    (∀ x ∈ [({ Component := HitComponent.other, Location := { X := 0, Y := 0, Z := 9 } } :
          FHitResult)], IsLandscapeHit x = false) ∧
      GetLandscapeElevation Example.hitHost 0 { X := 3, Y := 4 } =
        ({ X := 0, Y := 0, Z := 5 } : FVector).Z := by
  have hb : ∀ x ∈ [({ Component := HitComponent.other, Location := { X := 0, Y := 0, Z := 9 } } :
      FHitResult)], IsLandscapeHit x = false := by
    intro x hx
    simp at hx
    subst hx
    rfl
  exact ⟨hb,
    (C16_elevation_ignores_landscape Example.hitHost 0 0 { X := 3, Y := 4 }).2
      [{ Component := HitComponent.other, Location := { X := 0, Y := 0, Z := 9 } }] 1
      { X := 0, Y := 0, Z := 5 }
      [{ Component := HitComponent.heightfieldCollision (some 0),
         Location := { X := 0, Y := 0, Z := 2 } }] rfl hb⟩

/-! ### ConditionallyCreateSplineComponent -/

theorem ConditionallyCreateSplineComponent_of_some (h : Host) (w : World) (L : LandscapeId)
    (scale : FVector) (c : CompId) (hc : (w.Landscapes L).SplineComponent = some c) :
    ConditionallyCreateSplineComponent h w L scale =
      (w.setComponent c { w.Components c with bShowSplineEditorMesh := true }, c) := by
  unfold ConditionallyCreateSplineComponent
  rw [hc]

theorem setComponent_self (w : World) (c : CompId)
    (hshow : (w.Components c).bShowSplineEditorMesh = true) :
    w.setComponent c { w.Components c with bShowSplineEditorMesh := true } = w := by
  have hv : ({ w.Components c with bShowSplineEditorMesh := true } :
      ULandscapeSplinesComponent) = w.Components c := by
    cases hcomp : w.Components c with
    | mk a1 a2 a3 a4 a5 a6 =>
      rw [hcomp] at hshow
      simp only at hshow
      simp [hshow]
  unfold World.setComponent
  rw [hv, Function.update_eq_self]

/-- C12: on a terrain surface that already has a spline graph,
`ConditionallyCreateSplineComponent` returns that graph, creates no component
and leaves its scale and arrays alone whatever scale is passed; on a surface
without one it creates an empty graph with the given scale, attaches it and
returns it; and a second call right after a first changes nothing and returns
the same graph. -/
theorem C12_ConditionallyCreateSplineComponent_idempotent (h : Host) (w : World)
    (L : LandscapeId) (scale scale' : FVector) :
    (∀ c, (w.Landscapes L).SplineComponent = some c →
        (ConditionallyCreateSplineComponent h w L scale).2 = c ∧
        (ConditionallyCreateSplineComponent h w L scale).1.nextComponent = w.nextComponent ∧
        (ConditionallyCreateSplineComponent h w L scale).1.Landscapes = w.Landscapes ∧
        ((ConditionallyCreateSplineComponent h w L scale).1.Components c).RelativeScale3D =
          (w.Components c).RelativeScale3D ∧
        ((ConditionallyCreateSplineComponent h w L scale).1.Components c).ControlPoints =
          (w.Components c).ControlPoints ∧
        ((ConditionallyCreateSplineComponent h w L scale).1.Components c).Segments =
          (w.Components c).Segments) ∧
      ((w.Landscapes L).SplineComponent = none →
        (ConditionallyCreateSplineComponent h w L scale).2 = w.nextComponent ∧
        (ConditionallyCreateSplineComponent h w L scale).1.nextComponent =
          w.nextComponent + 1 ∧
        ((ConditionallyCreateSplineComponent h w L scale).1.Landscapes L).SplineComponent =
          some w.nextComponent ∧
        ((ConditionallyCreateSplineComponent h w L scale).1.Components
          w.nextComponent).RelativeScale3D = scale ∧
        ((ConditionallyCreateSplineComponent h w L scale).1.Components
          w.nextComponent).ControlPoints = [] ∧
        ((ConditionallyCreateSplineComponent h w L scale).1.Components
          w.nextComponent).Segments = []) ∧
      ConditionallyCreateSplineComponent h (ConditionallyCreateSplineComponent h w L scale).1 L
          scale' =
        ((ConditionallyCreateSplineComponent h w L scale).1,
          (ConditionallyCreateSplineComponent h w L scale).2) := by
  refine ⟨?_, ?_, ?_⟩
  · intro c hc
    rw [ConditionallyCreateSplineComponent_of_some h w L scale c hc]
    simp [World.setComponent]
  · intro hnone
    unfold ConditionallyCreateSplineComponent
    rw [hnone]
    simp
  · have hL : ((ConditionallyCreateSplineComponent h w L scale).1.Landscapes L).SplineComponent =
        some (ConditionallyCreateSplineComponent h w L scale).2 :=
      (ConditionallyCreateSplineComponent_spec h w L scale).1
    have hshow : ((ConditionallyCreateSplineComponent h w L scale).1.Components
        (ConditionallyCreateSplineComponent h w L scale).2).bShowSplineEditorMesh = true := by
      unfold ConditionallyCreateSplineComponent
      cases hc : (w.Landscapes L).SplineComponent with
      | none => simp
      | some c => simp [World.setComponent]
    rw [ConditionallyCreateSplineComponent_of_some h _ L scale' _ hL, setComponent_self _ _ hshow]

theorem C12_witness :
    Example.sharedWorld.Landscapes 0 = { SplineComponent := some 0 } ∧
      (ConditionallyCreateSplineComponent Example.host Example.sharedWorld 0
          { X := 2, Y := 2, Z := 2 }).2 = 0 ∧
      (ConditionallyCreateSplineComponent Example.host Example.sharedWorld 0
          { X := 2, Y := 2, Z := 2 }).1.nextComponent = Example.sharedWorld.nextComponent ∧
      (Example.emptyWorld.Landscapes 0).SplineComponent = none ∧
      (ConditionallyCreateSplineComponent Example.host Example.emptyWorld 0
          { X := 2, Y := 2, Z := 2 }).2 = Example.emptyWorld.nextComponent := by
  have h1 := (C12_ConditionallyCreateSplineComponent_idempotent Example.host Example.sharedWorld 0
    { X := 2, Y := 2, Z := 2 } { X := 2, Y := 2, Z := 2 }).1 0 rfl
  have h2 := (C12_ConditionallyCreateSplineComponent_idempotent Example.host Example.emptyWorld 0
    { X := 2, Y := 2, Z := 2 } { X := 2, Y := 2, Z := 2 }).2.1 rfl
  exact ⟨rfl, h1.1, h1.2.1, rfl, h2.1⟩

/-! ### Attributes of new control points and segments -/

/-- C13: `AddControlPoint` appends exactly one new control point, at the given
location and with layer name "Soil"; with a previous point it has that point's
width, falloffs, mesh, mesh scale and streaming, collision and shadow flags;
without one its width is `BuildSettings.Width`, its side falloff 1.5 and its
end falloff 3.0. -/
theorem C13_AddControlPoint_attributes (h : Host) (w : World) (c : CompId) (loc : FVector)
    (bs : FStreetMapRailwayBuildSettings) (prev : Option CPId) :
    (AddControlPoint h w c loc bs prev).2 = w.nextControlPoint ∧
      (AddControlPoint h w c loc bs prev).1.nextControlPoint = w.nextControlPoint + 1 ∧
      ((AddControlPoint h w c loc bs prev).1.Components c).ControlPoints =
        (w.Components c).ControlPoints ++ [(AddControlPoint h w c loc bs prev).2] ∧
      (∀ c', c' ≠ c → (AddControlPoint h w c loc bs prev).1.Components c' = w.Components c') ∧
      (∀ p, p ≠ (AddControlPoint h w c loc bs prev).2 →
        (AddControlPoint h w c loc bs prev).1.CP p = w.CP p) ∧
      ((AddControlPoint h w c loc bs prev).1.CP
        (AddControlPoint h w c loc bs prev).2).Location = loc ∧
      ((AddControlPoint h w c loc bs prev).1.CP
        (AddControlPoint h w c loc bs prev).2).LayerName = "Soil" ∧
      (∀ p, prev = some p →
        ((AddControlPoint h w c loc bs prev).1.CP
            (AddControlPoint h w c loc bs prev).2).copied =
          ((AddControlPoint h w c loc bs prev).1.CP p).copied ∧
        (p ≠ w.nextControlPoint →
          ((AddControlPoint h w c loc bs prev).1.CP
            (AddControlPoint h w c loc bs prev).2).copied = (w.CP p).copied)) ∧
      (prev = none →
        ((AddControlPoint h w c loc bs prev).1.CP
            (AddControlPoint h w c loc bs prev).2).Width = bs.Width ∧
        ((AddControlPoint h w c loc bs prev).1.CP
            (AddControlPoint h w c loc bs prev).2).SideFalloff = 1.5 ∧
        ((AddControlPoint h w c loc bs prev).1.CP
            (AddControlPoint h w c loc bs prev).2).EndFalloff = 3.0) := by
  refine ⟨rfl, AddControlPoint_nextControlPoint h w c loc bs prev,
    AddControlPoint_ControlPoints h w c loc bs prev,
    fun c' hc => AddControlPoint_Components_other h w c loc bs prev c' hc,
    fun p hp => AddControlPoint_CP_other h w c loc bs prev p hp, ?_, ?_, ?_, ?_⟩
  · cases prev <;> simp [AddControlPoint, World.setCP, World.setComponent, World.call]
  · cases prev <;> simp [AddControlPoint, World.setCP, World.setComponent, World.call]
  · intro p hp
    subst hp
    have key : p ≠ w.nextControlPoint →
        ((AddControlPoint h w c loc bs (some p)).1.CP w.nextControlPoint).copied =
          (w.CP p).copied := by
      intro hne
      simp [AddControlPoint, World.setCP, World.setComponent,
        ULandscapeSplineControlPoint.copied, Function.update_noteq hne]
    refine ⟨?_, key⟩
    by_cases hne : p = w.nextControlPoint
    · rw [hne]; rfl
    · rw [AddControlPoint_CP_other h w c loc bs (some p) p hne]
      exact key hne
  · intro hp
    subst hp
    simp [AddControlPoint, World.setCP, World.setComponent, World.call]

theorem C13_witness :
    ((AddControlPoint Example.host Example.sharedWorld 0 { X := 1, Y := 2, Z := 3 }
        Example.settings (some 0)).1.CP 3).copied = (Example.sharedWorld.CP 0).copied ∧
      ((AddControlPoint Example.host Example.sharedWorld 0 { X := 1, Y := 2, Z := 3 }
        Example.settings none).1.CP 3).Width = 200 := by
  have h1 := (C13_AddControlPoint_attributes Example.host Example.sharedWorld 0
    { X := 1, Y := 2, Z := 3 } Example.settings (some 0)).2.2.2.2.2.2.2.1 0 rfl
  have h2 := (C13_AddControlPoint_attributes Example.host Example.sharedWorld 0
    { X := 1, Y := 2, Z := 3 } Example.settings none).2.2.2.2.2.2.2.2 rfl
  exact ⟨h1.2 (by decide), h2.1⟩

section
variable (h : Host) (w : World) (Start End : CPId) (a b : Bool)

theorem AddSegmentLink_Seg_new_copied :
    ((AddSegmentLink h w Start End).Seg w.nextSegment).copied =
      match CopyFromSegment (w.CP Start) (w.CP End) with
      | some c =>
        if c = w.nextSegment then
          ({ h.SegmentDefaults with SplineMeshes := [] } : ULandscapeSplineSegment).copied
        else (w.Seg c).copied
      | none => ({ h.SegmentDefaults with SplineMeshes := [] } : ULandscapeSplineSegment).copied := by
  simp only [AddSegmentLink, World.setCP, World.setSeg, World.setComponent,
      Function.update_same]
  cases hc : CopyFromSegment (w.CP Start) (w.CP End) with
  | none => rfl
  | some c =>
    simp only [Function.update_apply]
    split_ifs <;> rfl

theorem AddSegment_Seg_new_copied :
    ((AddSegment h w Start End a b).1.Seg w.nextSegment).copied =
      match CopyFromSegment (w.CP Start) (w.CP End) with
      | some c =>
        if c = w.nextSegment then
          ({ h.SegmentDefaults with SplineMeshes := [] } : ULandscapeSplineSegment).copied
        else (w.Seg c).copied
      | none => ({ h.SegmentDefaults with SplineMeshes := [] } : ULandscapeSplineSegment).copied := by
  rw [← AddSegmentLink_Seg_new_copied h w Start End, AddSegment_fst,
    (AddSegmentRecompute_same h _ Start End a b w.nextSegment).1]

end

/-- C14: the new segment of `AddSegment` has the layer, mesh list, draw
distance, raise and lower terrain flags, streaming flag and collision and
shadow flags of the segment in the first entry of `Start`'s connected-segment
list when that list is not empty, otherwise of the segment in the first entry
of `End`'s list, and the values of a freshly constructed segment when both
lists are empty; the segment copied from is left as it was. -/
theorem C14_AddSegment_inherits_attributes (h : Host) (w : World) (Start End : CPId)
    (a b : Bool) :
    (∀ c rest, (w.CP Start).ConnectedSegments = c :: rest → c.Segment ≠ w.nextSegment →
        ((AddSegment h w Start End a b).1.Seg (AddSegment h w Start End a b).2).copied =
            (w.Seg c.Segment).copied ∧
          (AddSegment h w Start End a b).1.Seg c.Segment = w.Seg c.Segment) ∧
      ((w.CP Start).ConnectedSegments = [] →
        ∀ c rest, (w.CP End).ConnectedSegments = c :: rest → c.Segment ≠ w.nextSegment →
          ((AddSegment h w Start End a b).1.Seg (AddSegment h w Start End a b).2).copied =
              (w.Seg c.Segment).copied ∧
            (AddSegment h w Start End a b).1.Seg c.Segment = w.Seg c.Segment) ∧
      ((w.CP Start).ConnectedSegments = [] → (w.CP End).ConnectedSegments = [] →
        ((AddSegment h w Start End a b).1.Seg (AddSegment h w Start End a b).2).copied =
          ({ h.SegmentDefaults with SplineMeshes := [] } : ULandscapeSplineSegment).copied) := by
  have key := AddSegment_Seg_new_copied h w Start End a b
  refine ⟨?_, ?_, ?_⟩
  · intro c rest hS hc
    have hcopy : CopyFromSegment (w.CP Start) (w.CP End) = some c.Segment := by
      simp [CopyFromSegment, hS]
    rw [hcopy] at key
    simp only [if_neg hc] at key
    exact ⟨key, AddSegment_Seg_other h w Start End a b _ hc⟩
  · intro hS c rest hE hc
    have hcopy : CopyFromSegment (w.CP Start) (w.CP End) = some c.Segment := by
      simp [CopyFromSegment, hS, hE]
    rw [hcopy] at key
    simp only [if_neg hc] at key
    exact ⟨key, AddSegment_Seg_other h w Start End a b _ hc⟩
  · intro hS hE
    have hcopy : CopyFromSegment (w.CP Start) (w.CP End) = none := by
      simp [CopyFromSegment, hS, hE]
    rw [hcopy] at key
    exact key

theorem C14_witness :
    ((AddSegment Example.host Example.meshedWorld 0 2 true true).1.Seg 2).copied =
        (Example.meshedWorld.Seg 0).copied ∧
      ((AddSegment Example.host Example.meshedWorld 3 2 true true).1.Seg 2).copied =
        (Example.meshedWorld.Seg 1).copied ∧
      ((AddSegment Example.host Example.sharedWorld 0 2 true true).1.Seg 2).copied =
        Example.segment.copied := by
  have h := C14_AddSegment_inherits_attributes Example.host
  exact ⟨((h Example.meshedWorld 0 2 true true).1
      { Segment := 0, End := 0 } [] rfl (by decide)).1,
    ((h Example.meshedWorld 3 2 true true).2.1 rfl
      { Segment := 1, End := 1 } [] rfl (by decide)).1,
    (h Example.sharedWorld 0 2 true true).2.2 rfl rfl⟩

/-! ### Cache recomputation in `AddSegment` -/

section
variable (h : Host) (w : World) (Start End : CPId) (a b : Bool)

end

section
variable (h : Host) (w : World) (Start End : CPId) (a b : Bool)

end

/-- The world after the first half of an iteration: still within the graph
invariant, with the segments and the earlier control points as they were. -/
theorem CurrentPointPhase_graph {bs : FStreetMapRailwayBuildSettings} {comp : CompId}
    {w0 : World} {st : BuildState} (inv : RunInv bs comp w0 st) (h : Host) (loc : FVector2D)
    (N : Int) (prev : Option CPId) :
    GraphInv bs comp w0 (CurrentPointPhase h bs comp loc N prev st).1 ∧
      (CurrentPointPhase h bs comp loc N prev st).1.Seg = st.world.Seg ∧
      (CurrentPointPhase h bs comp loc N prev st).1.nextSegment = st.world.nextSegment ∧
      st.world.nextControlPoint ≤
        (CurrentPointPhase h bs comp loc N prev st).1.nextControlPoint ∧
      ∀ q, q < st.world.nextControlPoint →
        (CurrentPointPhase h bs comp loc N prev st).1.CP q = st.world.CP q := by
  rcases CurrentPointPhase_cases h bs comp loc N prev st with ⟨p, _, _, hr⟩ | ⟨_, hr⟩
  · rw [hr]
    exact ⟨inv.graph, rfl, rfl, Nat.le_refl _, fun _ _ => rfl⟩
  · rw [hr]
    refine ⟨inv.graph.of_AddControlPoint h _ prev, AddControlPoint_Seg _ _ _ _ _ _,
      AddControlPoint_nextSegment _ _ _ _ _ _, ?_, ?_⟩
    · show _ ≤ (AddControlPoint _ _ _ _ _ _).1.nextControlPoint
      rw [AddControlPoint_nextControlPoint]; exact Nat.le_succ _
    · intro q hq
      exact AddControlPoint_CP_other _ _ _ _ _ _ q (Nat.ne_of_lt hq)

theorem InheritsEarlier.of_PointBody {bs : FStreetMapRailwayBuildSettings} {comp : CompId}
    {w0 : World} {st : BuildState} (inv : RunInv bs comp w0 st) (h : Host) (Way i : Nat)
    (loc : FVector2D) (N : Int) (prev : Option CPId) (pv : PrevInv Way i prev st)
    (hi : InheritsEarlier w0 st) :
    InheritsEarlier w0 (PointBody h bs comp Way i loc N prev st).1 := by
  obtain ⟨g1, hSeg1, hNS1, hNC1, hCP1⟩ := CurrentPointPhase_graph inv h loc N prev
  rw [PointBody_eq]
  intro e he hne s hs
  have hframe := (SegmentPhase_frame h bs i prev
    (CurrentPointPhase h bs comp loc N prev st).2.2.1
    (CurrentPointPhase h bs comp loc N prev st).1).1
  rcases List.mem_append.1 he with he | he
  · obtain ⟨s', hlo, hlt, hm⟩ := hi e he hne s hs
    have hsa := (inv.ev_seg e he s hs).1
    refine ⟨s', hlo, hlt, ?_⟩
    show ((SegmentPhase _ _ _ _ _ _).Seg s).SplineMeshes =
      ((SegmentPhase _ _ _ _ _ _).Seg s').SplineMeshes
    rw [hframe s (by rw [hNS1]; exact hsa.2),
      hframe s' (by rw [hNS1]; exact Nat.lt_trans hlt hsa.2), hSeg1]
    exact hm
  · have hee : e = StepEvent h bs comp Way i loc N prev st := List.mem_singleton.1 he
    subst hee
    have hne1 : i ≠ 1 := hne
    cases prev with
    | none => cases hs
    | some q =>
      have hs' : (CurrentPointPhase h bs comp loc N (some q) st).1.nextSegment = s :=
        Option.some.inj hs
      have hi0 : i ≠ 0 := fun h0 => by have := pv.1 h0; cases this
      obtain ⟨el, hel, hpe, _, _⟩ := pv.2.1 hi0
      have hq : q = el.CurrentPoint := Option.some.inj hpe
      have hqa := inv.ev_cur el (List.mem_of_getLast?_eq_some hel)
      rw [← hq] at hqa
      have hconn : (st.world.CP q).ConnectedSegments ≠ [] := pv.2.2 (by omega) q rfl
      rw [← hCP1 q hqa.2] at hconn
      obtain ⟨c, rest, hcr⟩ := List.exists_cons_of_ne_nil hconn
      have hcopy : CopyFromSegment ((CurrentPointPhase h bs comp loc N (some q) st).1.CP q)
          ((CurrentPointPhase h bs comp loc N (some q) st).1.CP
            (CurrentPointPhase h bs comp loc N (some q) st).2.2.1) = some c.Segment := by
        simp [CopyFromSegment, hcr]
      have hca := g1.Connected_new q ⟨hqa.1, Nat.lt_of_lt_of_le hqa.2 hNC1⟩ c
        (by rw [hcr]; exact List.mem_cons_self _ _)
      have hcne : c.Segment ≠ (CurrentPointPhase h bs comp loc N (some q) st).1.nextSegment :=
        Nat.ne_of_lt hca.2
      have hsp := SegmentPhase_some h bs i q (CurrentPointPhase h bs comp loc N (some q) st).2.2.1
        (CurrentPointPhase h bs comp loc N (some q) st).1
      refine ⟨c.Segment, hca.1, by rw [← hs']; exact hca.2, ?_⟩
      show ((SegmentPhase _ _ _ _ _ _).Seg s).SplineMeshes =
        ((SegmentPhase _ _ _ _ _ _).Seg c.Segment).SplineMeshes
      rw [← hs', hsp.2.2.2.2.2.2.2.2.2, if_neg (fun hh => hne1 hh.1),
        AddSegment_Seg_new_SplineMeshes, hcopy, hsp.2.2.2.2.2.2.1 _ hcne]
      simp only [if_neg hcne]

theorem PointLoop_inherits (h : Host) (bs : FStreetMapRailwayBuildSettings) (comp : CompId)
    (w0 : World) (Way : Nat) (R : FStreetMapRailway)
    (hcover : R.Points.length ≤ R.NodeIndices.length) :
    ∀ (n i : Nat) (prev : Option CPId) (st st' : BuildState),
      RunInv bs comp w0 st → PrevInv Way i prev st → i + n = R.Points.length →
      InheritsEarlier w0 st →
      PointLoop h bs comp Way R n i prev st = some st' → InheritsEarlier w0 st' := by
  intro n
  induction n with
  | zero =>
    intro i prev st st' _ _ _ ha hrun
    simp only [PointLoop, Option.some.injEq] at hrun
    subst hrun
    exact ha
  | succ n ih =>
    intro i prev st st' inv pv hlen ha hrun
    have hi : i < R.Points.length := by omega
    have hi' : i < R.NodeIndices.length := by omega
    have hP : R.Points[i]? = some R.Points[i] := List.getElem?_eq_getElem hi
    have hN : R.NodeIndices[i]? = some R.NodeIndices[i] := List.getElem?_eq_getElem hi'
    simp only [PointLoop, hP, hN] at hrun
    obtain ⟨inv', pv'⟩ := inv.step h Way i R.Points[i] R.NodeIndices[i] prev pv
    exact ih (i + 1) _ _ st' inv' pv' (by omega)
      (InheritsEarlier.of_PointBody inv h Way i R.Points[i] R.NodeIndices[i] prev pv ha) hrun

theorem RailwayLoop_inherits (h : Host) (bs : FStreetMapRailwayBuildSettings) (comp : CompId)
    (w0 : World) :
    ∀ (rws : List FStreetMapRailway) (Way : Nat) (st st' : BuildState),
      NodeIndicesCover rws → RunInv bs comp w0 st → InheritsEarlier w0 st →
      RailwayLoop h bs comp Way rws st = some st' → InheritsEarlier w0 st' := by
  intro rws
  induction rws with
  | nil =>
    intro Way st st' _ _ hall hrun
    simp only [RailwayLoop, Option.some.injEq] at hrun
    subst hrun
    exact hall
  | cons R rest ih =>
    intro Way st st' hcover inv hall hrun
    have hR : R.Points.length ≤ R.NodeIndices.length := hcover R (by simp)
    have hrest : NodeIndicesCover rest := fun r hr => hcover r (by simp [hr])
    obtain ⟨st1, hrun1, inv1, _⟩ := RailwayBody_inv h bs comp w0 Way R hR st inv
    rw [RailwayLoop_cons, hrun1, Option.some_bind] at hrun
    have pv : PrevInv Way 0 none st :=
      ⟨fun _ => rfl, fun hh => absurd rfl hh, fun hh => absurd hh (by omega)⟩
    have hall1 : InheritsEarlier w0 st1 :=
      PointLoop_inherits h bs comp w0 Way R hR R.Points.length 0 none st st1 inv pv (by omega)
        hall hrun1
    exact ih (Way + 1) st1 st' hrest inv1 hall1 hrun

theorem BuildRun_inherits (h : Host) (w : World) (rws : List FStreetMapRailway)
    (bs : FStreetMapRailwayBuildSettings) (hcover : NodeIndicesCover rws) (st : BuildState)
    (hrun : BuildRun h w rws bs = some st) : InheritsEarlier (CleanedWorld h w bs) st :=
  RailwayLoop_inherits h bs (BuildStart h w bs).2 (CleanedWorld h w bs) rws 0
    (BuildStart h w bs).1 st hcover (RunInv.start bs _ _)
    (fun e he => by cases he) hrun

/-- C17: a run of `Build` appends its new segments to the segment array, and
each of them ends the run with a mesh list of exactly one entry whose mesh is
`BuildSettings.RailwayLineMesh`, so that `CleanOldRailways` run on the result
keeps none of them.  The segment added at point index 1 has either the entry
`Build` assigns or the non-empty list `AddSegment` inherited; a segment added
at a later point index has the mesh list of a segment the same run added
before it. -/
theorem C17_created_segments_end_tagged (h : Host) (w : World)
    (rws : List FStreetMapRailway) (bs : FStreetMapRailwayBuildSettings)
    (hcover : NodeIndicesCover rws) :
    ∃ st, BuildRun h w rws bs = some st ∧
      st.world.SegmentsOf bs.Landscape =
        (CleanedWorld h w bs).SegmentsOf bs.Landscape ++
          st.events.filterMap (fun e => e.NewSegment) ∧
      (∀ s ∈ st.events.filterMap (fun e => e.NewSegment),
        IsRailwaySegment bs (st.world.Seg s) = true ∧
        (∃ entry, (st.world.Seg s).SplineMeshes = [entry] ∧
          entry.Mesh = bs.RailwayLineMesh) ∧
        s ∉ (CleanOldRailways st.world (BuildStart h w bs).2 bs).SegmentsOf bs.Landscape) ∧
      (∀ e ∈ st.events, ∀ s, e.NewSegment = some s →
        (e.PointIndex = 1 →
          (st.world.Seg s).SplineMeshes = [MeshEntry bs] ∨
            (e.Inherited ≠ [] ∧ (st.world.Seg s).SplineMeshes = e.Inherited)) ∧
        (e.PointIndex ≠ 1 →
          ∃ s' ∈ st.events.filterMap (fun e => e.NewSegment), s' < s ∧
            (st.world.Seg s).SplineMeshes = (st.world.Seg s').SplineMeshes)) := by
  obtain ⟨st, hrun, inv, _⟩ := BuildRun_inv h w rws bs hcover
  have hinh := BuildRun_inherits h w rws bs hcover st hrun
  have htag : ∀ s ∈ st.events.filterMap (fun e => e.NewSegment),
      IsRailwaySegment bs (st.world.Seg s) = true := by
    intro s hs
    obtain ⟨e, he, hes⟩ := List.mem_filterMap.1 hs
    exact inv.graph.Seg_tagged s (inv.ev_seg e he s hes).1
  refine ⟨st, hrun, inv.graphOf.2, ?_, ?_⟩
  · intro s hs
    refine ⟨htag s hs, (IsRailwaySegment_iff bs _).1 (htag s hs), ?_⟩
    have hL : ((CleanOldRailways st.world (BuildStart h w bs).2 bs).Landscapes
        bs.Landscape).SplineComponent = some (BuildStart h w bs).2 := by
      show (st.world.Landscapes bs.Landscape).SplineComponent = _
      rw [inv.graph.Landscapes_eq]
      exact (BuildStart_spec h w bs).1
    unfold World.SegmentsOf
    rw [hL]
    intro hmem
    have := (CleanOldRailways_segments_perm st.world (BuildStart h w bs).2 bs).mem_iff.1 hmem
    rw [List.mem_filter, htag s hs] at this
    exact absurd this.2 (by simp)
  · intro e he s hs
    obtain ⟨hsa, _, _, hmesh⟩ := inv.ev_seg e he s hs
    constructor
    · intro h1
      by_cases hI : e.Inherited = []
      · left
        rw [hmesh, if_pos ⟨h1, hI⟩]
      · right
        refine ⟨hI, ?_⟩
        rw [hmesh, if_neg (fun hh => hI hh.2)]
    · intro hne
      obtain ⟨s', hlo, hlt, hm⟩ := hinh e he hne s hs
      refine ⟨s', ?_, hlt, hm⟩
      rw [inv.seg_list, List.mem_range'_1]
      have := hsa.2
      have := inv.graph.nextSeg_le
      constructor
      · exact hlo
      · omega

theorem C17_witness :
    NodeIndicesCover [Example.wayA, Example.wayB] ∧
      ∃ st, BuildRun Example.host Example.sharedWorld [Example.wayA, Example.wayB]
          Example.settings = some st ∧
        ∀ s ∈ st.events.filterMap (fun e => e.NewSegment),
          IsRailwaySegment Example.settings (st.world.Seg s) = true ∧
            s ∉ (CleanOldRailways st.world
              (BuildStart Example.host Example.sharedWorld Example.settings).2
              Example.settings).SegmentsOf Example.settings.Landscape := by
  have hc : NodeIndicesCover [Example.wayA, Example.wayB] := by decide
  obtain ⟨st, h1, _, h3, _⟩ :=
    C17_created_segments_end_tagged Example.host Example.sharedWorld
      [Example.wayA, Example.wayB] Example.settings hc
  exact ⟨hc, st, h1, fun s hs => ⟨(h3 s hs).1, (h3 s hs).2.2⟩⟩

/-! ### The number of control points a run creates -/

theorem map_getD_range (l : List Int) (d : Int) :
    (List.range l.length).map (fun j => l.getD j d) = l := by
  apply List.ext_getElem
  · simp
  · intro n h1 h2
    simp [List.getD_eq_getElem?_getD, List.getElem?_eq_getElem h2]

theorem InputKeys_nodes (rws : List FStreetMapRailway)
    (hlen : ∀ r ∈ rws, r.Points.length = r.NodeIndices.length) (Way : Nat) :
    (InputKeys Way rws).map (fun k => k.2.2) = rws.flatMap (fun r => r.NodeIndices) := by
  induction rws generalizing Way with
  | nil => rfl
  | cons R rest ih =>
    rw [InputKeys, List.map_append, ih (fun r hr => hlen r (by simp [hr])), List.flatMap_cons]
    congr 1
    rw [WayKeys, List.map_map, hlen R (by simp)]
    exact map_getD_range R.NodeIndices INDEX_NONE

theorem ExpectedControlPoints_eq (keys : List (Nat × Nat × Int)) :
    ExpectedControlPoints keys =
      ((keys.map (fun k => k.2.2)).filter (fun N => decide (N = INDEX_NONE))).length +
        ((keys.map (fun k => k.2.2)).filter (fun N => decide (N ≠ INDEX_NONE))).dedup.length := by
  unfold ExpectedControlPoints
  congr 1
  rw [List.filter_map, List.length_map]
  rfl

/-- C18: when every way has as many node identifiers as points, one run of
`Build` creates as many control points as there are points carrying
`INDEX_NONE` plus distinct other node identifiers in the whole input: that
many objects are allocated and that many entries appended to the
control-point array. -/
theorem C18_created_control_point_count (h : Host) (w : World)
    (rws : List FStreetMapRailway) (bs : FStreetMapRailwayBuildSettings)
    (hlen : ∀ r ∈ rws, r.Points.length = r.NodeIndices.length) :
    ∃ st created, BuildRun h w rws bs = some st ∧
      st.world.ControlPointsOf bs.Landscape =
        (CleanedWorld h w bs).ControlPointsOf bs.Landscape ++ created ∧
      created = List.range' w.nextControlPoint created.length ∧
      st.world.nextControlPoint = w.nextControlPoint + created.length ∧
      created.length =
        ((rws.flatMap (fun r => r.NodeIndices)).filter
            (fun N => decide (N = INDEX_NONE))).length +
          ((rws.flatMap (fun r => r.NodeIndices)).filter
            (fun N => decide (N ≠ INDEX_NONE))).dedup.length := by
  have hcover : NodeIndicesCover rws := fun r hr => Nat.le_of_eq (hlen r hr)
  obtain ⟨st, hrun, inv, hkeys⟩ := BuildRun_inv h w rws bs hcover
  have hlist := inv.created_list
  have hnext : (CleanedWorld h w bs).nextControlPoint = w.nextControlPoint :=
    (BuildStart_spec h w bs).2.2.2.2.2.1
  have hle := inv.graph.nextCP_le
  have hlength : ((st.events.filter (fun e => e.bCreated)).map (fun e => e.CurrentPoint)).length =
      st.world.nextControlPoint - (CleanedWorld h w bs).nextControlPoint := by
    rw [hlist, List.length_range']
  refine ⟨st, (st.events.filter (fun e => e.bCreated)).map (fun e => e.CurrentPoint), hrun,
    inv.graphOf.1, ?_, ?_, ?_⟩
  · rw [hlength, ← hnext]; exact hlist
  · rw [hlength]; omega
  · rw [List.length_map, inv.created_count, hkeys, ExpectedControlPoints_eq,
      InputKeys_nodes rws hlen]

theorem C18_witness :
    (∀ r ∈ [Example.wayA, Example.wayB], r.Points.length = r.NodeIndices.length) ∧
      ∃ st created, BuildRun Example.host Example.emptyWorld [Example.wayA, Example.wayB]
          Example.settings = some st ∧
        st.world.ControlPointsOf Example.settings.Landscape =
          (CleanedWorld Example.host Example.emptyWorld Example.settings).ControlPointsOf
            Example.settings.Landscape ++ created ∧
        created.length = 4 := by
  have hl : ∀ r ∈ [Example.wayA, Example.wayB], r.Points.length = r.NodeIndices.length := by
    decide
  obtain ⟨st, created, h1, h2, _, _, h5⟩ :=
    C18_created_control_point_count Example.host Example.emptyWorld
      [Example.wayA, Example.wayB] Example.settings hl
  exact ⟨hl, st, created, h1, h2, h5.trans (by decide)⟩

/-! ### What a run leaves alone -/

/-- C19: on a graph holding allocated addresses only, a run of `Build` keeps
every earlier segment that fails the railway-mesh test in the segment array
with its record (ends and attributes) unchanged, keeps every earlier control
point that is an end of no segment passing the test in the control-point
array with its record unchanged, and gives every segment it creates two ends
among the control points it created. -/
theorem C19_Build_keeps_other_geometry (h : Host) (w : World)
    (rws : List FStreetMapRailway) (bs : FStreetMapRailwayBuildSettings)
    (hcover : NodeIndicesCover rws) (halloc : w.Allocated bs.Landscape) :
    ∃ st, BuildRun h w rws bs = some st ∧
      (∀ s ∈ w.SegmentsOf bs.Landscape, IsRailwaySegment bs (w.Seg s) = false →
        s ∈ st.world.SegmentsOf bs.Landscape ∧ st.world.Seg s = w.Seg s) ∧
      (∀ p ∈ w.ControlPointsOf bs.Landscape, ¬ IsRemovedEndpointOf w bs.Landscape bs p →
        p ∈ st.world.ControlPointsOf bs.Landscape ∧ st.world.CP p = w.CP p) ∧
      (∀ s ∈ st.events.filterMap (fun e => e.NewSegment),
        (st.world.Seg s).Connections0.ControlPoint ∈
            (st.events.filter (fun e => e.bCreated)).map (fun e => e.CurrentPoint) ∧
          (st.world.Seg s).Connections1.ControlPoint ∈
            (st.events.filter (fun e => e.bCreated)).map (fun e => e.CurrentPoint)) := by
  obtain ⟨st, hrun, inv, _⟩ := BuildRun_inv h w rws bs hcover
  obtain ⟨_, _, _, hCP, hSeg, hnCP, hnSeg, hperm, _⟩ := BuildStart_spec h w bs
  refine ⟨st, hrun, ?_, ?_, ?_⟩
  · intro s hs htag
    constructor
    · rw [inv.graphOf.2]
      refine List.mem_append_left _ (hperm.mem_iff.2 ?_)
      rw [List.mem_filter, htag]
      exact ⟨hs, rfl⟩
    · rw [inv.graph.Seg_frame s (fun hh => ?_), hSeg]
      have := hh.1
      rw [hnSeg] at this
      exact absurd (halloc.2 s hs) (Nat.not_lt.2 this)
  · intro p hp hrem
    constructor
    · rw [inv.graphOf.1]
      refine List.mem_append_left _ ((BuildStart_ControlPoints_perm h w bs).mem_iff.2 ?_)
      rw [List.mem_filter]
      exact ⟨hp, by simp [hrem]⟩
    · rw [inv.graph.CP_frame p (by rw [hnCP]; exact halloc.1 p hp), hCP]
  · intro s hs
    obtain ⟨e, he, hes⟩ := List.mem_filterMap.1 hs
    have hends := inv.graph.Seg_ends s (inv.ev_seg e he s hes).1
    have hle := inv.graph.nextCP_le
    rw [inv.created_list]
    constructor
    · rw [List.mem_range'_1]
      exact ⟨hends.1.1, by have := hends.1.2; omega⟩
    · rw [List.mem_range'_1]
      exact ⟨hends.2.1, by have := hends.2.2; omega⟩

theorem C19_witness :
    NodeIndicesCover [Example.wayA, Example.wayB] ∧
      Example.sharedWorld.Allocated Example.settings.Landscape ∧
      ∃ st, BuildRun Example.host Example.sharedWorld [Example.wayA, Example.wayB]
          Example.settings = some st ∧
        (1 ∈ st.world.SegmentsOf Example.settings.Landscape ∧
          st.world.Seg 1 = Example.sharedWorld.Seg 1) ∧
        (2 ∈ st.world.ControlPointsOf Example.settings.Landscape ∧
          st.world.CP 2 = Example.sharedWorld.CP 2) := by
  have hc : NodeIndicesCover [Example.wayA, Example.wayB] := by decide
  have ha : Example.sharedWorld.Allocated Example.settings.Landscape := by decide
  obtain ⟨st, h1, h2, h3, _⟩ :=
    C19_Build_keeps_other_geometry Example.host Example.sharedWorld
      [Example.wayA, Example.wayB] Example.settings hc ha
  exact ⟨hc, ha, st, h1, h2 1 (by decide) (by decide), h3 2 (by decide) (by decide)⟩

/-! ### Back-references after a run -/

theorem mem_BackReferences (w : World) (s : SegId) (p : CPId)
    (x : FLandscapeSplineConnection) :
    x ∈ BackReferences w s p ↔
      x.Segment = s ∧
        ((x.End = 0 ∧ (w.Seg s).Connections0.ControlPoint = p) ∨
          (x.End = 1 ∧ (w.Seg s).Connections1.ControlPoint = p)) := by
  obtain ⟨S, E⟩ := x
  unfold BackReferences
  by_cases h0 : (w.Seg s).Connections0.ControlPoint = p <;>
    by_cases h1 : (w.Seg s).Connections1.ControlPoint = p <;>
    (simp [h0, h1]; try tauto)

theorem count_BackReferences (w : World) (s : SegId) (p : CPId)
    (x : FLandscapeSplineConnection) :
    (BackReferences w s p).count x = if x ∈ BackReferences w s p then 1 else 0 := by
  have hnd : (BackReferences w s p).Nodup := by
    unfold BackReferences
    by_cases h0 : (w.Seg s).Connections0.ControlPoint = p <;>
      by_cases h1 : (w.Seg s).Connections1.ControlPoint = p <;>
      simp [h0, h1]
  split
  · next hx => exact List.count_eq_one_of_mem hnd hx
  · next hx => exact List.count_eq_zero_of_not_mem hx

theorem count_flatMap_BackReferences (w : World) (p : CPId) (x : FLandscapeSplineConnection)
    (l : List SegId) (hl : l.Nodup) :
    (l.flatMap (fun s => BackReferences w s p)).count x =
      if x.Segment ∈ l ∧ x ∈ BackReferences w x.Segment p then 1 else 0 := by
  induction l with
  | nil => simp
  | cons s l ih =>
    rw [List.flatMap_cons, List.count_append, ih (List.nodup_cons.1 hl).2,
      count_BackReferences]
    have hs : s ∉ l := (List.nodup_cons.1 hl).1
    by_cases hx : x ∈ BackReferences w s p
    · have hseg : x.Segment = s := ((mem_BackReferences w s p x).1 hx).1
      have hx' : x ∈ BackReferences w x.Segment p := by rw [hseg]; exact hx
      rw [if_pos hx, if_neg (fun hh => hs (hseg ▸ hh.1)), if_pos ⟨by simp [hseg], hx'⟩]
    · rw [if_neg hx]
      by_cases hmem : x.Segment ∈ l ∧ x ∈ BackReferences w x.Segment p
      · rw [if_pos hmem, if_pos ⟨List.mem_cons_of_mem _ hmem.1, hmem.2⟩]
      · rw [if_neg hmem, if_neg]
        rintro ⟨hm, hb⟩
        rcases List.mem_cons.1 hm with hm | hm
        · exact hx (hm ▸ hb)
        · exact hmem ⟨hm, hb⟩

theorem length_flatMap_BackReferences (w : World) (p : CPId) (l : List SegId) :
    (l.flatMap (fun s => BackReferences w s p)).length =
      (l.filter (fun s => decide ((w.Seg s).Connections0.ControlPoint = p))).length +
        (l.filter (fun s => decide ((w.Seg s).Connections1.ControlPoint = p))).length := by
  induction l with
  | nil => rfl
  | cons s l ih =>
    rw [List.flatMap_cons, List.length_append, ih, List.filter_cons, List.filter_cons]
    unfold BackReferences
    by_cases h0 : (w.Seg s).Connections0.ControlPoint = p <;>
      by_cases h1 : (w.Seg s).Connections1.ControlPoint = p <;>
      simp [h0, h1] <;> omega

/-- C20: after a run of `Build` on a graph without control points, the
connected-segment list of every control point `P` of the graph is the list of
back-references of the created segments to `P`, in creation order, end 0
before end 1: the entry for segment `S` and end `slot` occurs once when `S`
was created by the run and its connection `slot` is `P`, and not at all
otherwise, and the length of the list is the number of created segments whose
connection 0 is `P` plus the number whose connection 1 is `P`. -/
theorem C20_back_references_agree (h : Host) (w : World)
    (rws : List FStreetMapRailway) (bs : FStreetMapRailwayBuildSettings)
    (hcover : NodeIndicesCover rws) (hempty : w.ControlPointsOf bs.Landscape = []) :
    ∃ st, BuildRun h w rws bs = some st ∧
      ∀ P ∈ st.world.ControlPointsOf bs.Landscape,
        (st.world.CP P).ConnectedSegments =
            (st.events.filterMap (fun e => e.NewSegment)).flatMap
              (fun S => BackReferences st.world S P) ∧
          (∀ S slot,
            (st.world.CP P).ConnectedSegments.count { Segment := S, End := slot } =
              if S ∈ st.events.filterMap (fun e => e.NewSegment) ∧
                  ((slot = 0 ∧ (st.world.Seg S).Connections0.ControlPoint = P) ∨
                    (slot = 1 ∧ (st.world.Seg S).Connections1.ControlPoint = P))
              then 1 else 0) ∧
          (st.world.CP P).ConnectedSegments.length =
            ((st.events.filterMap (fun e => e.NewSegment)).filter
                (fun S => decide ((st.world.Seg S).Connections0.ControlPoint = P))).length +
              ((st.events.filterMap (fun e => e.NewSegment)).filter
                (fun S => decide ((st.world.Seg S).Connections1.ControlPoint = P))).length := by
  obtain ⟨st, hrun, inv, _⟩ := BuildRun_inv h w rws bs hcover
  refine ⟨st, hrun, ?_⟩
  intro P hP
  have hclean : (CleanedWorld h w bs).ControlPointsOf bs.Landscape = [] := by
    cases hc : (CleanedWorld h w bs).ControlPointsOf bs.Landscape with
    | nil => rfl
    | cons p ps =>
      have := (BuildStart_spec h w bs).2.2.2.2.2.2.2.2 p (by rw [hc]; exact List.mem_cons_self _ _)
      rw [hempty] at this
      cases this
  rw [inv.graphOf.1, hclean, List.nil_append, inv.created_list, List.mem_range'_1] at hP
  have hPa : AllocatedSince World.nextControlPoint (CleanedWorld h w bs) st.world P :=
    ⟨hP.1, by have := inv.graph.nextCP_le; omega⟩
  have hexact := inv.graph.Connected_exact P hPa
  rw [← inv.seg_list] at hexact
  have hnd : (st.events.filterMap (fun e => e.NewSegment)).Nodup := by
    rw [inv.seg_list]; exact List.nodup_range' _ _
  refine ⟨hexact, ?_, ?_⟩
  · intro S slot
    rw [hexact, count_flatMap_BackReferences _ _ _ _ hnd]
    simp only [mem_BackReferences, true_and]
  · rw [hexact, length_flatMap_BackReferences]

theorem C20_witness :
    NodeIndicesCover [Example.wayA, Example.wayB] ∧
      Example.emptyWorld.ControlPointsOf Example.settings.Landscape = [] ∧
      ∃ st, BuildRun Example.host Example.emptyWorld [Example.wayA, Example.wayB]
          Example.settings = some st ∧
        ∀ P ∈ st.world.ControlPointsOf Example.settings.Landscape,
          (st.world.CP P).ConnectedSegments =
            (st.events.filterMap (fun e => e.NewSegment)).flatMap
              (fun S => BackReferences st.world S P) := by
  have hc : NodeIndicesCover [Example.wayA, Example.wayB] := by decide
  obtain ⟨st, h1, h2⟩ :=
    C20_back_references_agree Example.host Example.emptyWorld
      [Example.wayA, Example.wayB] Example.settings hc rfl
  exact ⟨hc, rfl, st, h1, fun P hP => (h2 P hP).1⟩

end StreetMap
